import Mathlib

/-!
# Badge widget (src/widgets/badge/lv_badge.c)

A shallow embedding of the badge widget.  The badge structure is a record, every
function of lv_badge.c is a function on a world made of that record and of the
part of the host toolkit the widget talks to: the observer entries registered on
objects, the outcomes of the coming allocations and the trace of host calls.
-/

namespace LvBadge

/-! ## Types of lv_badge.h and lv_badge_private.h -/

/-- A non-null lv_obj_t pointer, named by its address.  NULL is none in a field
of type Option lv_obj_t. -/
abbrev lv_obj_t := Nat

/-- Badge display modes (lv_badge_mode_t). -/
inductive lv_badge_mode_t where
  | LV_BADGE_MODE_DOT
  | LV_BADGE_MODE_NUMBER
  | LV_BADGE_MODE_MAX
  deriving DecidableEq, Repr

/-- Badge attachment position relative to the target (lv_badge_attach_pos_t). -/
inductive lv_badge_attach_pos_t where
  | LV_BADGE_ATTACH_TOP_RIGHT
  | LV_BADGE_ATTACH_TOP_LEFT
  | LV_BADGE_ATTACH_BOTTOM_RIGHT
  | LV_BADGE_ATTACH_BOTTOM_LEFT
  | LV_BADGE_ATTACH_CENTER
  deriving DecidableEq, Repr

/-- The struct _lv_badge_t without its embedded base object.  The int32_t fields are
integers, a C string is its content, the one-bit fields are booleans. -/
structure lv_badge_t where
  value : Int
  max_value : Int
  text : Option String
  target : Option lv_obj_t
  attach_pos : lv_badge_attach_pos_t
  offset_x : Int
  offset_y : Int
  mode : lv_badge_mode_t
  static_txt : Bool
  visible : Bool
  attached : Bool
  deriving DecidableEq, Repr

/-! ## The host toolkit, as far as the badge uses it -/

/-- Bounding box of an object (lv_area_t). -/
structure lv_area_t where
  x1 : Int
  y1 : Int
  x2 : Int
  y2 : Int
  deriving DecidableEq, Repr

/-- Event codes the badge looks at; every other code is other n. -/
inductive lv_event_code_t where
  | LV_EVENT_ALL
  | LV_EVENT_SIZE_CHANGED
  | LV_EVENT_POS_CHANGED
  | LV_EVENT_SCROLL
  | LV_EVENT_DELETE
  | LV_EVENT_DRAW_MAIN
  | other (n : Nat)
  deriving DecidableEq, Repr

/-- Event callbacks: the static function target_event_handler of lv_badge.c, or a
callback of somebody else. -/
inductive lv_event_cb_t where
  | target_event_handler
  | other (n : Nat)
  deriving DecidableEq, Repr

/-- One observer entry: the object it is registered on, the callback, the event
filter and the user data. -/
structure lv_event_dsc_t where
  obj : lv_obj_t
  cb : lv_event_cb_t
  filter : lv_event_code_t
  user_data : lv_obj_t
  deriving DecidableEq, Repr

/-- Object flags the badge sets or clears. -/
inductive lv_obj_flag_t where
  | LV_OBJ_FLAG_HIDDEN
  | LV_OBJ_FLAG_SCROLLABLE
  | LV_OBJ_FLAG_CLICK_FOCUSABLE
  | LV_OBJ_FLAG_FLOATING
  deriving DecidableEq, Repr

/-- One call into the host, with its arguments.  lv_obj_set_parent records the
object whose parent becomes the new parent; lv_malloc records its outcome. -/
inductive lv_call_t where
  | lv_obj_invalidate (obj : lv_obj_t)
  | lv_obj_set_size (obj : lv_obj_t) (w : Int) (h : Int)
  | lv_obj_set_pos (obj : lv_obj_t) (x : Int) (y : Int)
  | lv_obj_get_coords (obj : lv_obj_t)
  | lv_obj_get_parent (obj : lv_obj_t)
  | lv_obj_set_parent (obj : lv_obj_t) (parent_of : lv_obj_t)
  | lv_obj_remove_event_cb (obj : lv_obj_t) (cb : lv_event_cb_t)
  | lv_obj_add_event_cb (obj : lv_obj_t) (cb : lv_event_cb_t) (filter : lv_event_code_t)
      (user_data : lv_obj_t)
  | lv_obj_remove_flag (obj : lv_obj_t) (flags : List lv_obj_flag_t)
  | lv_obj_add_flag (obj : lv_obj_t) (flags : List lv_obj_flag_t)
  | lv_malloc (size : Nat) (ok : Bool)
  | lv_free (content : String)
  deriving DecidableEq, Repr

/-- The object a host call dereferences, if it takes one. -/
def lv_call_t.object : lv_call_t → Option lv_obj_t
  | lv_obj_invalidate o => some o
  | lv_obj_set_size o _ _ => some o
  | lv_obj_set_pos o _ _ => some o
  | lv_obj_get_coords o => some o
  | lv_obj_get_parent o => some o
  | lv_obj_set_parent o _ => some o
  | lv_obj_remove_event_cb o _ => some o
  | lv_obj_add_event_cb o _ _ _ => some o
  | lv_obj_remove_flag o _ => some o
  | lv_obj_add_flag o _ => some o
  | lv_malloc _ _ => none
  | lv_free _ => none

/-- State of the host: the observer entries in registration order (the observer
list of an object is the sublist with that obj), the outcomes of the coming
lv_malloc calls (true is success; once the list is used up every allocation
succeeds), and the trace of the calls made so far, oldest first. -/
structure lv_host_t where
  events : List lv_event_dsc_t
  alloc : List Bool
  log : List lv_call_t
  deriving DecidableEq, Repr

/-- A badge together with the host it lives in. -/
structure lv_world_t where
  badge : lv_badge_t
  host : lv_host_t
  deriving DecidableEq, Repr

/-- Modelled from the spec: the host macro LV_SIZE_CONTENT is not under src.  It marks a
width or height as content-sized (not set by the caller); its value in the toolkit is
(2^29 - 1) | 2^29. -/
def LV_SIZE_CONTENT : Int := 1073741823

/-- Smallest int32_t. -/
def INT32_MIN : Int := -2147483648

/-- Largest int32_t. -/
def INT32_MAX : Int := 2147483647

/-- The integer is a value of type int32_t. -/
def is_int32 (v : Int) : Prop := INT32_MIN ≤ v ∧ v ≤ INT32_MAX

instance (v : Int) : Decidable (is_int32 v) := by
  unfold is_int32; exact inferInstance

/-- Append a call to the trace. -/
def lv_call (c : lv_call_t) (h : lv_host_t) : lv_host_t :=
  { h with log := h.log ++ [c] }

/-- Modelled from the spec: the host allocator lv_malloc is not under src.  It returns a
block or NULL; here it takes the next outcome of the host, true standing for a block. -/
def lv_malloc (size : Nat) (h : lv_host_t) : Bool × lv_host_t :=
  match h.alloc with
  | [] => (true, lv_call (.lv_malloc size true) h)
  | ok :: rest => (ok, lv_call (.lv_malloc size ok) { h with alloc := rest })

/-- Modelled from the spec: the host function lv_free is not under src.  It releases the
text block, which the trace records by its content. -/
def lv_free (content : String) (h : lv_host_t) : lv_host_t :=
  lv_call (.lv_free content) h

/-- Modelled from the spec: the host function lv_strlen is not under src.  It is the
number of bytes of the content. -/
def lv_strlen (s : String) : Nat := s.utf8ByteSize

/-- Modelled from the spec: the host function lv_obj_remove_event_cb is not under src.
It removes from the observer list of obj the first entry whose callback is cb; the
user data of the entry is not looked at. -/
def lv_obj_remove_event_cb (obj : lv_obj_t) (cb : lv_event_cb_t) (h : lv_host_t) : lv_host_t :=
  lv_call (.lv_obj_remove_event_cb obj cb)
    { h with events := h.events.eraseP (fun d => decide (d.obj = obj ∧ d.cb = cb)) }

/-- Modelled from the spec: the host function lv_obj_add_event_cb is not under src.
It appends an entry to the observer list of obj. -/
def lv_obj_add_event_cb (obj : lv_obj_t) (cb : lv_event_cb_t) (filter : lv_event_code_t)
    (user_data : lv_obj_t) (h : lv_host_t) : lv_host_t :=
  lv_call (.lv_obj_add_event_cb obj cb filter user_data)
    { h with events := h.events ++ [{ obj := obj, cb := cb, filter := filter, user_data := user_data }] }

/-- Modelled from the spec: the host function lv_area_get_width is not under src.  The
width of a box is x2 - x1 + 1. -/
def lv_area_get_width (a : lv_area_t) : Int := a.x2 - a.x1 + 1

/-- Modelled from the spec: the host function lv_area_get_height is not under src.  The
height of a box is y2 - y1 + 1. -/
def lv_area_get_height (a : lv_area_t) : Int := a.y2 - a.y1 + 1

/-- Modelled from the spec: the host function lv_snprintf is not under src.  Its
conversion %d gives the signed decimal representation of an int. -/
def fmt_d (v : Int) : String := toString v

/-- Modelled from the spec: the host function lv_snprintf is not under src.  Given the
fully formatted string and a buffer of size bytes, it stores at most size - 1 characters
before the terminator. -/
def lv_snprintf (size : Nat) (formatted : String) : String := formatted.take (size - 1)

/-! ## Static functions of lv_badge.c -/

/-- The block that opens lv_badge_set_text and copy_text_to_badge and closes the
destructor: if(badge->text != NULL && badge->static_txt == 0) free it and set it to NULL. -/
def free_dynamic_text (w : lv_world_t) : lv_world_t :=
  match w.badge.text with
  | some old =>
    if w.badge.static_txt = false then
      { badge := { w.badge with text := none }, host := lv_free old w.host }
    else w
  | none => w

/-- The function copy_text_to_badge. -/
def copy_text_to_badge (text : Option String) (w : lv_world_t) : lv_world_t :=
  let w1 := free_dynamic_text w
  match text with
  | none => { w1 with badge := { w1.badge with static_txt := true, text := none } }
  | some t =>
    let r := lv_malloc (lv_strlen t + 1) w1.host
    if r.1 = false then
      { badge := { w1.badge with text := none }, host := r.2 }
    else
      { badge := { w1.badge with text := some t, static_txt := false }, host := r.2 }

/-- The function lv_badge_refr_text. -/
def lv_badge_refr_text (obj : lv_obj_t) (w : lv_world_t) : lv_world_t :=
  if w.badge.text ≠ none then
    { w with host := lv_call (.lv_obj_invalidate obj) w.host }
  else
    let w1 :=
      if w.badge.mode = .LV_BADGE_MODE_DOT then
        { w with host := lv_call (.lv_obj_set_size obj 8 8) w.host }
      else if w.badge.mode = .LV_BADGE_MODE_MAX ∧ w.badge.value > w.badge.max_value then
        copy_text_to_badge (some (lv_snprintf 16 (fmt_d w.badge.max_value ++ "+"))) w
      else
        copy_text_to_badge (some (lv_snprintf 16 (fmt_d w.badge.value))) w
    { w1 with host := lv_call (.lv_obj_invalidate obj) w1.host }

/-- The function lv_badge_update_position.  G gives the bounding box the host reports
for an object at this moment.  The arithmetic is that of int32_t without overflow
(overflow of a signed integer is undefined in C; position_fits says when none occurs); the
division by 2 truncates. -/
def lv_badge_update_position (G : lv_obj_t → lv_area_t) (obj : lv_obj_t) (w : lv_world_t) :
    lv_world_t :=
  match w.badge.attached, w.badge.target with
  | true, some target =>
    let target_coords := G target
    let badge_coords := G obj
    let h1 := lv_call (.lv_obj_get_coords obj) (lv_call (.lv_obj_get_coords target) w.host)
    let badge_w := lv_area_get_width badge_coords
    let badge_h := lv_area_get_height badge_coords
    let target_w := lv_area_get_width target_coords
    let target_h := lv_area_get_height target_coords
    let xy : Int × Int :=
      match w.badge.attach_pos with
      | .LV_BADGE_ATTACH_TOP_RIGHT =>
        (target_coords.x2 - Int.tdiv badge_w 2, target_coords.y1 - Int.tdiv badge_h 2)
      | .LV_BADGE_ATTACH_TOP_LEFT =>
        (target_coords.x1 - Int.tdiv badge_w 2, target_coords.y1 - Int.tdiv badge_h 2)
      | .LV_BADGE_ATTACH_BOTTOM_RIGHT =>
        (target_coords.x2 - Int.tdiv badge_w 2, target_coords.y2 - Int.tdiv badge_h 2)
      | .LV_BADGE_ATTACH_BOTTOM_LEFT =>
        (target_coords.x1 - Int.tdiv badge_w 2, target_coords.y2 - Int.tdiv badge_h 2)
      | .LV_BADGE_ATTACH_CENTER =>
        (target_coords.x1 + Int.tdiv target_w 2 - Int.tdiv badge_w 2,
         target_coords.y1 + Int.tdiv target_h 2 - Int.tdiv badge_h 2)
    let x := xy.1 + w.badge.offset_x
    let y := xy.2 + w.badge.offset_y
    { w with host := lv_call (.lv_obj_set_pos obj x y) h1 }
  | _, _ => w

/-! ## Global functions of lv_badge.c -/

/-- The function lv_badge_set_value. -/
def lv_badge_set_value (obj : lv_obj_t) (value : Int) (w : lv_world_t) : lv_world_t :=
  if w.badge.value ≠ value then
    lv_badge_refr_text obj { w with badge := { w.badge with value := value } }
  else w

/-- The function lv_badge_set_max_value. -/
def lv_badge_set_max_value (obj : lv_obj_t) (max_value : Int) (w : lv_world_t) : lv_world_t :=
  if w.badge.max_value ≠ max_value then
    lv_badge_refr_text obj { w with badge := { w.badge with max_value := max_value } }
  else w

/-- The function lv_badge_set_text, given what it reads through its argument: text is
none for a NULL argument, and otherwise the string lv_strlen and lv_strcpy find behind the
pointer, which they read after the old text has been freed.  For a string held by the
caller that is the string itself; for the pointer badge->text see lv_badge_set_text_ptr. -/
def lv_badge_set_text (obj : lv_obj_t) (text : Option String) (w : lv_world_t) : lv_world_t :=
  let w1 := free_dynamic_text w
  match text with
  | none =>
    lv_badge_refr_text obj { w1 with badge := { w1.badge with static_txt := true, text := none } }
  | some t => lv_badge_refr_text obj (copy_text_to_badge (some t) w1)

/-- A const char * passed to lv_badge_set_text: NULL, a string held by the caller, or the
pointer lv_badge_get_text returned, which is badge->text itself. -/
inductive lv_text_ptr_t where
  | null
  | caller (s : String)
  | badge_text
  deriving DecidableEq, Repr

/-- What lv_badge_set_text reads through its argument.  Its reads come after the block
that frees the old text, so through the pointer badge->text it reads a block that has
been released when the text is a heap copy.  Modelled from the spec: the allocator is not
under src; freed old is what a released block that held old reads as (C leaves it
undefined, an allocator may keep the bytes or write its own links over them). -/
def lv_text_ptr_t.read (freed : String → String) (w : lv_world_t) :
    lv_text_ptr_t → Option String
  | null => none
  | caller s => some s
  | badge_text =>
    match w.badge.text with
    | none => none
    | some old => if w.badge.static_txt = false then some (freed old) else some old

/-- The function lv_badge_set_text on a pointer argument. -/
def lv_badge_set_text_ptr (freed : String → String) (obj : lv_obj_t) (text : lv_text_ptr_t)
    (w : lv_world_t) : lv_world_t :=
  lv_badge_set_text obj (text.read freed w) w

/-- The function lv_badge_set_mode. -/
def lv_badge_set_mode (obj : lv_obj_t) (mode : lv_badge_mode_t) (w : lv_world_t) : lv_world_t :=
  if w.badge.mode ≠ mode then
    let w1 := lv_badge_refr_text obj { w with badge := { w.badge with mode := mode } }
    { w1 with host := lv_call (.lv_obj_invalidate obj) w1.host }
  else w

/-- The function lv_badge_attach_to.  The target is a non-null pointer, which
LV_ASSERT_NULL(target) requires. -/
def lv_badge_attach_to (G : lv_obj_t → lv_area_t) (obj : lv_obj_t) (target : lv_obj_t)
    (pos : lv_badge_attach_pos_t) (w : lv_world_t) : lv_world_t :=
  let h1 :=
    match w.badge.target, w.badge.attached with
    | some old, true => lv_obj_remove_event_cb old .target_event_handler w.host
    | _, _ => w.host
  let b1 := { w.badge with target := some target, attach_pos := pos, attached := true }
  let h2 := lv_call (.lv_obj_set_parent obj target) (lv_call (.lv_obj_get_parent target) h1)
  let h3 := lv_obj_add_event_cb target .target_event_handler .LV_EVENT_ALL obj h2
  lv_badge_update_position G obj { badge := b1, host := h3 }

/-- The function lv_badge_set_offset. -/
def lv_badge_set_offset (G : lv_obj_t → lv_area_t) (obj : lv_obj_t) (x_offset : Int)
    (y_offset : Int) (w : lv_world_t) : lv_world_t :=
  let w1 := { w with badge := { w.badge with offset_x := x_offset, offset_y := y_offset } }
  if w1.badge.attached then lv_badge_update_position G obj w1 else w1

/-- The function lv_badge_detach. -/
def lv_badge_detach (w : lv_world_t) : lv_world_t :=
  match w.badge.target, w.badge.attached with
  | some target, true =>
    { badge := { w.badge with target := none, attached := false },
      host := lv_obj_remove_event_cb target .target_event_handler w.host }
  | _, _ => w

/-- The function lv_badge_get_value. -/
def lv_badge_get_value (w : lv_world_t) : Int := w.badge.value

/-- The function lv_badge_get_max_value. -/
def lv_badge_get_max_value (w : lv_world_t) : Int := w.badge.max_value

/-- The function lv_badge_get_text; none is NULL. -/
def lv_badge_get_text (w : lv_world_t) : Option String := w.badge.text

/-- The function lv_badge_get_mode. -/
def lv_badge_get_mode (w : lv_world_t) : lv_badge_mode_t := w.badge.mode

/-- The function lv_badge_get_target; none is NULL. -/
def lv_badge_get_target (w : lv_world_t) : Option lv_obj_t :=
  if w.badge.attached then w.badge.target else none

/-- The function lv_badge_get_attach_pos. -/
def lv_badge_get_attach_pos (w : lv_world_t) : lv_badge_attach_pos_t := w.badge.attach_pos

/-- The function lv_badge_get_offset, with both output pointers non-null. -/
def lv_badge_get_offset (w : lv_world_t) : Int × Int := (w.badge.offset_x, w.badge.offset_y)

/-- The function lv_badge_get_visible. -/
def lv_badge_get_visible (w : lv_world_t) : Bool := w.badge.visible

/-- The function lv_badge_set_visible. -/
def lv_badge_set_visible (obj : lv_obj_t) (visible : Bool) (w : lv_world_t) : lv_world_t :=
  let b1 := { w.badge with visible := if visible then true else false }
  if visible then
    { badge := b1, host := lv_call (.lv_obj_remove_flag obj [.LV_OBJ_FLAG_HIDDEN]) w.host }
  else
    { badge := b1, host := lv_call (.lv_obj_add_flag obj [.LV_OBJ_FLAG_HIDDEN]) w.host }

/-- The function lv_badge_constructor: every field of the badge is assigned, so the
result depends on the host only. -/
def lv_badge_constructor (obj : lv_obj_t) (h : lv_host_t) : lv_world_t :=
  let b : lv_badge_t :=
    { value := 0, max_value := 99, text := none, target := none,
      attach_pos := .LV_BADGE_ATTACH_TOP_RIGHT, offset_x := 0, offset_y := 0,
      mode := .LV_BADGE_MODE_NUMBER, static_txt := true, visible := true, attached := false }
  let h1 := lv_call (.lv_obj_remove_flag obj [.LV_OBJ_FLAG_SCROLLABLE, .LV_OBJ_FLAG_CLICK_FOCUSABLE]) h
  let h2 := lv_call (.lv_obj_add_flag obj [.LV_OBJ_FLAG_FLOATING]) h1
  let h3 := lv_call (.lv_obj_set_size obj LV_SIZE_CONTENT LV_SIZE_CONTENT) h2
  lv_badge_refr_text obj { badge := b, host := h3 }

/-- The function lv_badge_create: the host allocates the object and runs the
constructor of the class on it. -/
def lv_badge_create (obj : lv_obj_t) (h : lv_host_t) : lv_world_t :=
  lv_badge_constructor obj h

/-- The function lv_badge_destructor. -/
def lv_badge_destructor (w : lv_world_t) : lv_world_t :=
  let w1 := if w.badge.attached then lv_badge_detach w else w
  free_dynamic_text w1

/-- The function target_event_handler, run for the badge given as user data. -/
def target_event_handler (G : lv_obj_t → lv_area_t) (obj : lv_obj_t) (code : lv_event_code_t)
    (w : lv_world_t) : lv_world_t :=
  if code = .LV_EVENT_SIZE_CHANGED ∨ code = .LV_EVENT_POS_CHANGED ∨ code = .LV_EVENT_SCROLL then
    lv_badge_update_position G obj w
  else if code = .LV_EVENT_DELETE then
    lv_badge_detach w
  else w

/-! ## Drawing -/

/-- Modelled from the spec: the host macro LV_OPA_COVER is not under src.  It is full
opacity, 255. -/
def LV_OPA_COVER : Nat := 255

/-- Modelled from the spec: the host macro LV_RADIUS_CIRCLE is not under src.  It is the
radius that makes a box fully round, 0x7FFF. -/
def LV_RADIUS_CIRCLE : Int := 0x7FFF

/-- Text alignments of the host (lv_text_align_t). -/
inductive lv_text_align_t where
  | LV_TEXT_ALIGN_AUTO
  | LV_TEXT_ALIGN_LEFT
  | LV_TEXT_ALIGN_CENTER
  | LV_TEXT_ALIGN_RIGHT
  deriving DecidableEq, Repr

/-- One draw command handed to the layer, with the descriptor fields draw_main
assigns.  A field draw_main leaves as lv_draw_rect_dsc_init set it is none; the font
is the text font style of the named object. -/
inductive lv_draw_t where
  | lv_draw_rect (coords : lv_area_t) (bg_color : Nat) (bg_opa : Nat) (radius : Int)
      (border_width : Option Int)
  | lv_draw_label (coords : lv_area_t) (color : Nat) (font_of : lv_obj_t)
      (align : lv_text_align_t) (txt : String)
  deriving DecidableEq, Repr

/-- The function draw_main of lv_badge.c: the draw commands it issues for the badge
obj whose bounding box is G obj. -/
def draw_main (G : lv_obj_t → lv_area_t) (obj : lv_obj_t) (badge : lv_badge_t) : List lv_draw_t :=
  if badge.visible = false then []
  else
    let obj_coords := G obj
    if badge.mode = .LV_BADGE_MODE_DOT then
      [.lv_draw_rect obj_coords 0xff4757 LV_OPA_COVER LV_RADIUS_CIRCLE none]
    else
      let radius := Int.tdiv (min (lv_area_get_width obj_coords) (lv_area_get_height obj_coords)) 2
      let bg := lv_draw_t.lv_draw_rect obj_coords 0xff4757 LV_OPA_COVER radius (some 0)
      match badge.text with
      | some txt =>
        if lv_strlen txt > 0 then
          [bg, .lv_draw_label obj_coords 0xffffff obj .LV_TEXT_ALIGN_CENTER txt]
        else [bg]
      | none => [bg]

/-- The function lv_badge_event, once the base class has handled the event with
LV_RESULT_OK: it draws on LV_EVENT_DRAW_MAIN and does nothing otherwise. -/
def lv_badge_event (G : lv_obj_t → lv_area_t) (obj : lv_obj_t) (code : lv_event_code_t)
    (badge : lv_badge_t) : List lv_draw_t :=
  if code = .LV_EVENT_DRAW_MAIN then draw_main G obj badge else []

/-- The texts of the labels among some draw commands. -/
def drawn_texts : List lv_draw_t → List String
  | [] => []
  | .lv_draw_label _ _ _ _ txt :: rest => txt :: drawn_texts rest
  | .lv_draw_rect _ _ _ _ _ :: rest => drawn_texts rest

/-! ## Sequences of calls on one badge -/

/-- A call of the badge interface, or an event of the target reaching the observer of
the badge, or the destructor. -/
inductive lv_badge_op_t where
  | set_value (value : Int)
  | set_max_value (max_value : Int)
  | set_text (text : Option String)
  | set_mode (mode : lv_badge_mode_t)
  | set_visible (visible : Bool)
  | attach_to (target : lv_obj_t) (pos : lv_badge_attach_pos_t)
  | set_offset (x_offset : Int) (y_offset : Int)
  | detach
  | target_event (code : lv_event_code_t)
  | destructor
  deriving DecidableEq, Repr

/-- Run one operation on the badge obj; G is the geometry the host reports meanwhile. -/
def lv_badge_op_t.run (G : lv_obj_t → lv_area_t) (obj : lv_obj_t) :
    lv_badge_op_t → lv_world_t → lv_world_t
  | set_value v, w => lv_badge_set_value obj v w
  | set_max_value m, w => lv_badge_set_max_value obj m w
  | set_text t, w => lv_badge_set_text obj t w
  | set_mode m, w => lv_badge_set_mode obj m w
  | set_visible v, w => lv_badge_set_visible obj v w
  | attach_to target pos, w => lv_badge_attach_to G obj target pos w
  | set_offset x y, w => lv_badge_set_offset G obj x y w
  | detach, w => lv_badge_detach w
  | target_event code, w => target_event_handler G obj code w
  | destructor, w => lv_badge_destructor w

/-- Run a sequence of operations, first to last.  The geometry may change at any
time: G n is what the host reports once n calls are in the trace. -/
def run_ops (G : Nat → lv_obj_t → lv_area_t) (obj : lv_obj_t) :
    List lv_badge_op_t → lv_world_t → lv_world_t
  | [], w => w
  | op :: rest, w => run_ops G obj rest (op.run (G w.host.log.length) obj w)

/-- The operations named as later operations once the target is gone: lv_badge_set_offset,
lv_badge_detach, further target events and the destructor. -/
def lv_badge_op_t.after_delete : lv_badge_op_t → Bool
  | set_offset _ _ => true
  | detach => true
  | target_event _ => true
  | destructor => true
  | _ => false

/-! ## Several badges in one host -/

/-- The badges of a screen, by address, and their common host. -/
structure lv_scene_t where
  badges : lv_obj_t → Option lv_badge_t
  host : lv_host_t

/-- A call on one of the badges of a scene. -/
inductive lv_scene_op_t where
  | create (obj : lv_obj_t)
  | attach_to (obj : lv_obj_t) (target : lv_obj_t) (pos : lv_badge_attach_pos_t)
  | detach (obj : lv_obj_t)
  deriving DecidableEq, Repr

/-- Run one call of a scene: the function of lv_badge.c is applied to the badge named
and to the common host.  A call on an address that holds no badge does nothing. -/
def lv_scene_op_t.run (G : lv_obj_t → lv_area_t) : lv_scene_op_t → lv_scene_t → lv_scene_t
  | create obj, s =>
    let w := lv_badge_create obj s.host
    { badges := Function.update s.badges obj (some w.badge), host := w.host }
  | attach_to obj target pos, s =>
    match s.badges obj with
    | some b =>
      let w := lv_badge_attach_to G obj target pos { badge := b, host := s.host }
      { badges := Function.update s.badges obj (some w.badge), host := w.host }
    | none => s
  | detach obj, s =>
    match s.badges obj with
    | some b =>
      let w := lv_badge_detach { badge := b, host := s.host }
      { badges := Function.update s.badges obj (some w.badge), host := w.host }
    | none => s

/-- Run a sequence of calls of a scene, first to last. -/
def run_scene (G : lv_obj_t → lv_area_t) : List lv_scene_op_t → lv_scene_t → lv_scene_t
  | [], s => s
  | op :: rest, s => run_scene G rest (op.run G s)

/-- The scene before any badge is created. -/
def lv_scene_t.empty : lv_scene_t :=
  { badges := fun _ => none, host := { events := [], alloc := [], log := [] } }

/-- The badge obj has an observer entry on target that carries it as user data. -/
def lv_scene_t.observes (s : lv_scene_t) (obj : lv_obj_t) (target : lv_obj_t) : Bool :=
  s.host.events.any (fun d =>
    decide (d.obj = target ∧ d.cb = .target_event_handler ∧ d.user_data = obj))

/-- The invariant on one badge of a scene: if it is attached, it has a target and an
observer entry on that target carries it as user data. -/
def lv_scene_t.attached_observed (s : lv_scene_t) (obj : lv_obj_t) : Bool :=
  match s.badges obj with
  | some b =>
    if b.attached then
      match b.target with
      | some target => s.observes obj target
      | none => false
    else true
  | none => true

/-! ## The position formula, in the words of the specification -/

/-- The anchor of a badge of size bw x bh on the target box (tx1, ty1, tx2, ty2), with
tw = tx2 - tx1 + 1, th = ty2 - ty1 + 1, offsets (ox, oy) and truncating division. -/
def spec_position (pos : lv_badge_attach_pos_t) (tx1 ty1 tx2 ty2 bw bh ox oy : Int) : Int × Int :=
  let tw := tx2 - tx1 + 1
  let th := ty2 - ty1 + 1
  match pos with
  | .LV_BADGE_ATTACH_TOP_RIGHT => (tx2 - Int.tdiv bw 2 + ox, ty1 - Int.tdiv bh 2 + oy)
  | .LV_BADGE_ATTACH_TOP_LEFT => (tx1 - Int.tdiv bw 2 + ox, ty1 - Int.tdiv bh 2 + oy)
  | .LV_BADGE_ATTACH_BOTTOM_RIGHT => (tx2 - Int.tdiv bw 2 + ox, ty2 - Int.tdiv bh 2 + oy)
  | .LV_BADGE_ATTACH_BOTTOM_LEFT => (tx1 - Int.tdiv bw 2 + ox, ty2 - Int.tdiv bh 2 + oy)
  | .LV_BADGE_ATTACH_CENTER =>
    (tx1 + Int.tdiv tw 2 - Int.tdiv bw 2 + ox, ty1 + Int.tdiv th 2 - Int.tdiv bh 2 + oy)

/-- The numeric rendering of a badge state, in the words of the specification: the
decimal of max_value followed by a plus sign when the mode is MAX and value > max_value,
the decimal of value otherwise. -/
def spec_numeric_text (b : lv_badge_t) : String :=
  if b.mode = .LV_BADGE_MODE_MAX ∧ b.value > b.max_value then fmt_d b.max_value ++ "+"
  else fmt_d b.value

/-- The badge b1 agrees with b on every field but text and static_txt. -/
def lv_badge_t.same_but_text (b b1 : lv_badge_t) : Prop :=
  b1 = { b with text := b1.text, static_txt := b1.static_txt }

/-- The next lv_malloc of the host returns a block. -/
def next_alloc_ok (h : lv_host_t) : Bool := h.alloc.headD true

/-- A host in which nothing is registered, nothing was called and no allocation fails. -/
def lv_host_t.fresh : lv_host_t := { events := [], alloc := [], log := [] }

/-- The call by which the badge obj is given the position of the formula, for a
target and offsets. -/
def spec_set_pos (G : lv_obj_t → lv_area_t) (obj : lv_obj_t) (target : lv_obj_t)
    (pos : lv_badge_attach_pos_t) (ox oy : Int) : lv_call_t :=
  .lv_obj_set_pos obj
    (spec_position pos (G target).x1 (G target).y1 (G target).x2 (G target).y2
      (lv_area_get_width (G obj)) (lv_area_get_height (G obj)) ox oy).1
    (spec_position pos (G target).x1 (G target).y1 (G target).x2 (G target).y2
      (lv_area_get_width (G obj)) (lv_area_get_height (G obj)) ox oy).2

/-- Every value lv_badge_update_position handles for a target, a position and offsets: the
coordinates of both boxes and the offsets, the steps of the width and height of both boxes,
the steps of the anchor of the position, and the anchor plus the offset. -/
def position_steps (G : lv_obj_t → lv_area_t) (obj : lv_obj_t) (target : lv_obj_t)
    (pos : lv_badge_attach_pos_t) (ox oy : Int) : List Int :=
  let tc := G target
  let bc := G obj
  let bw := lv_area_get_width bc
  let bh := lv_area_get_height bc
  let tw := lv_area_get_width tc
  let th := lv_area_get_height tc
  [tc.x1, tc.y1, tc.x2, tc.y2, bc.x1, bc.y1, bc.x2, bc.y2, ox, oy,
   tc.x2 - tc.x1, tw, tc.y2 - tc.y1, th, bc.x2 - bc.x1, bw, bc.y2 - bc.y1, bh] ++
  (match pos with
   | .LV_BADGE_ATTACH_TOP_RIGHT =>
     [tc.x2 - Int.tdiv bw 2, tc.x2 - Int.tdiv bw 2 + ox,
      tc.y1 - Int.tdiv bh 2, tc.y1 - Int.tdiv bh 2 + oy]
   | .LV_BADGE_ATTACH_TOP_LEFT =>
     [tc.x1 - Int.tdiv bw 2, tc.x1 - Int.tdiv bw 2 + ox,
      tc.y1 - Int.tdiv bh 2, tc.y1 - Int.tdiv bh 2 + oy]
   | .LV_BADGE_ATTACH_BOTTOM_RIGHT =>
     [tc.x2 - Int.tdiv bw 2, tc.x2 - Int.tdiv bw 2 + ox,
      tc.y2 - Int.tdiv bh 2, tc.y2 - Int.tdiv bh 2 + oy]
   | .LV_BADGE_ATTACH_BOTTOM_LEFT =>
     [tc.x1 - Int.tdiv bw 2, tc.x1 - Int.tdiv bw 2 + ox,
      tc.y2 - Int.tdiv bh 2, tc.y2 - Int.tdiv bh 2 + oy]
   | .LV_BADGE_ATTACH_CENTER =>
     [tc.x1 + Int.tdiv tw 2, tc.x1 + Int.tdiv tw 2 - Int.tdiv bw 2,
      tc.x1 + Int.tdiv tw 2 - Int.tdiv bw 2 + ox,
      tc.y1 + Int.tdiv th 2, tc.y1 + Int.tdiv th 2 - Int.tdiv bh 2,
      tc.y1 + Int.tdiv th 2 - Int.tdiv bh 2 + oy])

/-- No operation of lv_badge_update_position overflows for this target, position and
offsets: every value it handles is a value of int32_t.  Overflow of a signed integer is
undefined in C, and the embedding computes in the integers: it is the function of the
source where this holds. -/
def position_fits (G : lv_obj_t → lv_area_t) (obj : lv_obj_t) (target : lv_obj_t)
    (pos : lv_badge_attach_pos_t) (ox oy : Int) : Prop :=
  ∀ v ∈ position_steps G obj target pos ox oy, is_int32 v

instance (G : lv_obj_t → lv_area_t) (obj : lv_obj_t) (target : lv_obj_t)
    (pos : lv_badge_attach_pos_t) (ox oy : Int) :
    Decidable (position_fits G obj target pos ox oy) := by
  unfold position_fits; exact inferInstance

/-! ## The first example of lv_badge_examples.c -/

/-- The geometry of example 1: the button, object 2, is at (50, 50) with size 100 x 50;
the badge, object 1, is taken to be laid out as a 20 x 20 box at the origin. -/
def example_coords : lv_obj_t → lv_area_t :=
  fun o => if o = 1 then ⟨0, 0, 19, 19⟩ else ⟨50, 50, 149, 99⟩

/-- The function lv_example_badge_1: a badge created on a fresh host, given the value 5
and attached to the top right corner of the button. -/
def lv_example_badge_1 : lv_world_t :=
  lv_badge_attach_to example_coords 1 2 .LV_BADGE_ATTACH_TOP_RIGHT
    (lv_badge_set_value 1 5 (lv_badge_create 1 .fresh))

/-! ## The draw output, in the words of the specification -/

/-- The draw output of the badge obj whose box is coords, in the words of the
specification: nothing for a hidden badge; in DOT mode one filled rectangle over the box,
fully round; otherwise one filled rectangle over the box, without border, with half the
shorter side of the box as radius, followed by a centred white label of the text if and
only if the text is non-NULL and non-empty.  The colour is 0xff4757, the opacity full. -/
def spec_draw (coords : lv_area_t) (obj : lv_obj_t) (b : lv_badge_t) : List lv_draw_t :=
  if b.visible = false then []
  else if b.mode = .LV_BADGE_MODE_DOT then
    [.lv_draw_rect coords 0xff4757 255 LV_RADIUS_CIRCLE none]
  else
    .lv_draw_rect coords 0xff4757 255
        (Int.tdiv (min (coords.x2 - coords.x1 + 1) (coords.y2 - coords.y1 + 1)) 2) (some 0) ::
      (match b.text with
       | some txt =>
         if txt ≠ "" then [.lv_draw_label coords 0xffffff obj .LV_TEXT_ALIGN_CENTER txt] else []
       | none => [])

/-! ## The text blocks of a trace -/

/-- What a host call does to the number of text blocks alive: a successful lv_malloc adds
one, lv_free releases one. -/
def lv_call_t.blocks : lv_call_t → Int
  | lv_malloc _ true => 1
  | lv_free _ => -1
  | _ => 0

/-- The number of blocks alive after a trace: the blocks allocated less the blocks
released. -/
def live_blocks (log : List lv_call_t) : Int := (log.map lv_call_t.blocks).sum

/-- The ownership of the text in a state, base being the number of blocks alive in the
host before the badge was created: a non-null text is a heap copy (static_txt == 0), and
the blocks alive are those of the host and, if text is non-null, the one text points to. -/
def text_owned (base : Int) (w : lv_world_t) : Prop :=
  (w.badge.text ≠ none → w.badge.static_txt = false) ∧
  live_blocks w.host.log = base + (if w.badge.text = none then 0 else 1)

instance (base : Int) (w : lv_world_t) : Decidable (text_owned base w) := by
  unfold text_owned; exact inferInstance

end LvBadge

/-!
# Skeleton widget (src/widgets/skeleton/lv_skeleton.c)

A shallow embedding of the skeleton widget.  An object is a record of what the host
keeps for it; a skeleton is its structure with that record as first member.  The
functions of lv_skeleton.c act on a skeleton and the host (allocator, animation engine),
the template functions build trees of objects.
-/

namespace LvSkeleton

open LvBadge (lv_obj_t lv_obj_flag_t LV_SIZE_CONTENT LV_OPA_COVER LV_RADIUS_CIRCLE)

/-! ## Types of lv_skeleton.h and lv_skeleton_private.h -/

/-- Skeleton shape types (lv_skeleton_shape_t). -/
inductive lv_skeleton_shape_t where
  | LV_SKELETON_SHAPE_RECT
  | LV_SKELETON_SHAPE_CIRCLE
  | LV_SKELETON_SHAPE_TEXT_LINE
  | LV_SKELETON_SHAPE_AVATAR
  | LV_SKELETON_SHAPE_BUTTON
  | LV_SKELETON_SHAPE_IMAGE
  | LV_SKELETON_SHAPE_CARD
  | LV_SKELETON_SHAPE_CUSTOM
  deriving DecidableEq, Repr

/-- Skeleton animation types (lv_skeleton_anim_t). -/
inductive lv_skeleton_anim_t where
  | LV_SKELETON_ANIM_PULSE
  | LV_SKELETON_ANIM_WAVE
  | LV_SKELETON_ANIM_NONE
  deriving DecidableEq, Repr

/-- Skeleton preset templates (lv_skeleton_template_t). -/
inductive lv_skeleton_template_t where
  | LV_SKELETON_TEMPLATE_NONE
  | LV_SKELETON_TEMPLATE_ARTICLE
  | LV_SKELETON_TEMPLATE_PROFILE
  | LV_SKELETON_TEMPLATE_CARD
  | LV_SKELETON_TEMPLATE_LIST_ITEM
  | LV_SKELETON_TEMPLATE_CONTACT
  | LV_SKELETON_TEMPLATE_PRODUCT
  | LV_SKELETON_TEMPLATE_CUSTOM
  deriving DecidableEq, Repr

/-- A colour, by its 24-bit hexadecimal value (lv_color_hex). -/
abbrev lv_color_t := Nat

/-- The macro LV_SKELETON_DEF_ANIM_TIME of lv_skeleton.h. -/
def LV_SKELETON_DEF_ANIM_TIME : Nat := 1500

/-- The macro LV_SKELETON_DEF_WAVE_LENGTH of lv_skeleton.h. -/
def LV_SKELETON_DEF_WAVE_LENGTH : Nat := 100

/-- The macro LV_SKELETON_DEF_BASE_COLOR of lv_skeleton.c. -/
def LV_SKELETON_DEF_BASE_COLOR : lv_color_t := 0xE2E8F0

/-- The macro LV_SKELETON_DEF_HIGHLIGHT_COLOR of lv_skeleton.c. -/
def LV_SKELETON_DEF_HIGHLIGHT_COLOR : lv_color_t := 0xF1F5F9

/-! ## The host toolkit, as far as the skeleton uses it -/

/-- Modelled from the spec: the host macro LV_OPA_30 is not under src; its value is 76. -/
def LV_OPA_30 : Int := 76

/-- Modelled from the spec: the host macro LV_OPA_50 is not under src; its value is 127. -/
def LV_OPA_50 : Int := 127

/-- Modelled from the spec: the host macro LV_OPA_60 is not under src; its value is 153. -/
def LV_OPA_60 : Int := 153

/-- Modelled from the spec: the host macro LV_TRIGO_SIN_MAX is not under src; the largest
value of lv_trigo_sin, 1 << 15 in the toolkit. -/
def LV_TRIGO_SIN_MAX : Int := 32768

/-- Modelled from the spec: the host macro LV_ANIM_REPEAT_INFINITE is not under src; the
repeat count of an animation that repeats for ever. -/
def LV_ANIM_REPEAT_INFINITE : Nat := 0xFFFFFFFF

/-- Modelled from the spec: the host macro LV_PCT is not under src; it marks a size as a
percentage of the parent, x | 2^29 for x from 0 to 1000. -/
def LV_PCT (x : Int) : Int := x + 536870912

/-- Modelled from the spec: the host macro LV_DPI_DEF is not under src; the default width
and height of an object of the base class. -/
def LV_DPI_DEF : Int := 130

/-- Flex flows of the host (lv_flex_flow_t), as far as used. -/
inductive lv_flex_flow_t where
  | LV_FLEX_FLOW_ROW
  | LV_FLEX_FLOW_COLUMN
  deriving DecidableEq, Repr

/-- Flex alignments of the host (lv_flex_align_t), as far as used. -/
inductive lv_flex_align_t where
  | LV_FLEX_ALIGN_START
  | LV_FLEX_ALIGN_CENTER
  deriving DecidableEq, Repr

/-- One call of the host on an object, without the object and without the selector of a
style setter, which is always 0. -/
inductive lv_obj_call_t where
  | lv_obj_set_layout_flex
  | lv_obj_set_flex_flow (flow : lv_flex_flow_t)
  | lv_obj_set_flex_align (main_place : lv_flex_align_t) (cross_place : lv_flex_align_t)
      (track_place : lv_flex_align_t)
  | lv_obj_set_flex_grow (grow : Nat)
  | lv_obj_remove_style_all
  | lv_obj_set_style_pad_all (value : Int)
  | lv_obj_set_style_radius (value : Int)
  | lv_obj_set_style_bg_color (color : lv_color_t)
  | lv_obj_set_style_bg_opa (opa : Nat)
  | lv_obj_set_style_border_width (value : Int)
  | lv_obj_set_style_border_color (color : lv_color_t)
  | lv_obj_set_style_margin_bottom (value : Int)
  | lv_obj_set_style_margin_right (value : Int)
  | lv_obj_set_size (w : Int) (h : Int)
  | lv_obj_set_width (w : Int)
  | lv_obj_set_height (h : Int)
  | lv_obj_set_pos (x : Int) (y : Int)
  | lv_obj_invalidate
  | lv_obj_remove_flag (flags : List lv_obj_flag_t)
  | lv_obj_add_flag (flags : List lv_obj_flag_t)
  | lv_obj_move_foreground
  deriving DecidableEq, Repr

/-- Modelled from the spec: the host structure lv_obj_t is not under src.  What the host
keeps for an object: its address, its parent, the width and height lv_obj_get_width and
lv_obj_get_height report, the local background opacity (none if no call has set one), the
hidden flag, and every call made on the object, oldest first. -/
structure lv_obj_base_t where
  addr : lv_obj_t
  parent : Option lv_obj_t
  width : Int
  height : Int
  bg_opa : Option Nat
  hidden : Bool
  calls : List lv_obj_call_t
  deriving DecidableEq, Repr

/-- Record a call on an object. -/
def lv_obj_call (c : lv_obj_call_t) (o : lv_obj_base_t) : lv_obj_base_t :=
  { o with calls := o.calls ++ [c] }

/-- Modelled from the spec: host function lv_obj_set_size, not under src. -/
def lv_obj_set_size (w h : Int) (o : lv_obj_base_t) : lv_obj_base_t :=
  lv_obj_call (.lv_obj_set_size w h) { o with width := w, height := h }

/-- Modelled from the spec: host function lv_obj_set_width, not under src. -/
def lv_obj_set_width (w : Int) (o : lv_obj_base_t) : lv_obj_base_t :=
  lv_obj_call (.lv_obj_set_width w) { o with width := w }

/-- Modelled from the spec: host function lv_obj_set_height, not under src. -/
def lv_obj_set_height (h : Int) (o : lv_obj_base_t) : lv_obj_base_t :=
  lv_obj_call (.lv_obj_set_height h) { o with height := h }

/-- Modelled from the spec: host function lv_obj_get_width, not under src; the current
width of the object. -/
def lv_obj_get_width (o : lv_obj_base_t) : Int := o.width

/-- Modelled from the spec: host function lv_obj_get_height, not under src; the current
height of the object. -/
def lv_obj_get_height (o : lv_obj_base_t) : Int := o.height

/-- Modelled from the spec: host function lv_obj_set_style_bg_opa, not under src. -/
def lv_obj_set_style_bg_opa (opa : Nat) (o : lv_obj_base_t) : lv_obj_base_t :=
  lv_obj_call (.lv_obj_set_style_bg_opa opa) { o with bg_opa := some opa }

/-- Modelled from the spec: host function lv_obj_remove_style_all, not under src; the
local styles of the object are gone. -/
def lv_obj_remove_style_all (o : lv_obj_base_t) : lv_obj_base_t :=
  lv_obj_call .lv_obj_remove_style_all { o with bg_opa := none }

/-- Modelled from the spec: host function lv_obj_add_flag, not under src. -/
def lv_obj_add_flag (flags : List lv_obj_flag_t) (o : lv_obj_base_t) : lv_obj_base_t :=
  lv_obj_call (.lv_obj_add_flag flags)
    { o with hidden := o.hidden || decide (lv_obj_flag_t.LV_OBJ_FLAG_HIDDEN ∈ flags) }

/-- Modelled from the spec: host function lv_obj_remove_flag, not under src. -/
def lv_obj_remove_flag (flags : List lv_obj_flag_t) (o : lv_obj_base_t) : lv_obj_base_t :=
  lv_obj_call (.lv_obj_remove_flag flags)
    { o with hidden := o.hidden && !decide (lv_obj_flag_t.LV_OBJ_FLAG_HIDDEN ∈ flags) }

/-- A pointer passed as void *: the address of an object or of a heap block.  Blocks and
objects that are alive at the same time have different addresses. -/
inductive lv_var_t where
  | obj (o : lv_obj_t)
  | block (addr : Nat)
  deriving DecidableEq, Repr

/-- The animation callbacks of lv_skeleton.c. -/
inductive lv_anim_exec_cb_t where
  | pulse_anim_cb
  | wave_anim_cb
  deriving DecidableEq, Repr

/-- Path functions of the host animation engine, as far as used. -/
inductive lv_anim_path_cb_t where
  | lv_anim_path_linear
  | lv_anim_path_ease_in_out
  deriving DecidableEq, Repr

/-- Modelled from the spec: the host structure lv_anim_t is not under src.  The fields of
an animation descriptor that lv_skeleton.c sets. -/
structure lv_anim_t where
  var : Option lv_var_t
  exec_cb : Option lv_anim_exec_cb_t
  path_cb : lv_anim_path_cb_t
  start_value : Int
  end_value : Int
  duration : Nat
  repeat_count : Nat
  deriving DecidableEq, Repr

/-- Modelled from the spec: host function lv_anim_init, not under src; the descriptor
with no variable, no callback, a linear path, values 0 to 100, 500 ms, one run. -/
def lv_anim_init : lv_anim_t :=
  { var := none, exec_cb := none, path_cb := .lv_anim_path_linear, start_value := 0,
    end_value := 100, duration := 500, repeat_count := 1 }

/-- A call of the allocator or of the animation engine. -/
inductive lv_host_call_t where
  | lv_malloc (result : Option Nat)
  | lv_free (addr : Nat)
  | lv_anim_start (a : lv_anim_t)
  | lv_anim_delete (var : lv_var_t)
  deriving DecidableEq, Repr

/-- State of the host besides the objects: the outcomes of the coming lv_malloc calls
(true is success; once the list is used up every allocation succeeds), the address the
next block or object gets, the animations started in the engine and still running, and
the trace of the calls made, oldest first. -/
structure lv_host_t where
  alloc : List Bool
  next_addr : Nat
  anims : List lv_anim_t
  log : List lv_host_call_t
  deriving DecidableEq, Repr

/-- Modelled from the spec: the host allocator lv_malloc is not under src.  It returns the
address of a new block, or NULL when the allocation fails. -/
def lv_malloc (h : lv_host_t) : Option Nat × lv_host_t :=
  match h.alloc with
  | false :: rest =>
    (none, { h with alloc := rest, log := h.log ++ [.lv_malloc none] })
  | true :: rest =>
    (some h.next_addr, { h with alloc := rest, next_addr := h.next_addr + 1,
                                log := h.log ++ [.lv_malloc (some h.next_addr)] })
  | [] =>
    (some h.next_addr, { h with next_addr := h.next_addr + 1,
                                log := h.log ++ [.lv_malloc (some h.next_addr)] })

/-- Modelled from the spec: the host function lv_free is not under src. -/
def lv_free (addr : Nat) (h : lv_host_t) : lv_host_t :=
  { h with log := h.log ++ [.lv_free addr] }

/-- Modelled from the spec: the host function lv_anim_start is not under src.  It
registers the animation in the engine, under the variable lv_anim_set_var gave it. -/
def lv_anim_start (a : lv_anim_t) (h : lv_host_t) : lv_host_t :=
  { h with anims := h.anims ++ [a], log := h.log ++ [.lv_anim_start a] }

/-- Modelled from the spec: the host function lv_anim_delete(var, NULL) is not under src.
It removes from the engine exactly the animations whose variable is var. -/
def lv_anim_delete (var : lv_var_t) (h : lv_host_t) : lv_host_t :=
  { h with anims := h.anims.filter (fun a => decide (a.var ≠ some var)),
           log := h.log ++ [.lv_anim_delete var] }

/-- The conversion of an int32_t to lv_opa_t, an 8-bit unsigned integer. -/
def to_lv_opa_t (value : Int) : Nat := (value % 256).toNat

/-! ## The skeleton structure -/

/-- The block skeleton->anim points to: its address and the descriptor stored in it. -/
structure lv_anim_handle_t where
  addr : Nat
  dsc : lv_anim_t
  deriving DecidableEq, Repr

/-- The struct _lv_skeleton_t; its first member is the base object. -/
structure lv_skeleton_t where
  obj : lv_obj_base_t
  shape : lv_skeleton_shape_t
  base_color : lv_color_t
  highlight_color : lv_color_t
  anim_type : lv_skeleton_anim_t
  anim : Option lv_anim_handle_t
  anim_time : Nat
  wave_length : Nat
  template : lv_skeleton_template_t
  active : Bool
  custom_colors : Bool
  deriving DecidableEq, Repr

/-- A skeleton together with the host it lives in. -/
structure lv_world_t where
  skeleton : lv_skeleton_t
  host : lv_host_t
  deriving DecidableEq, Repr

/-- Apply a host call to the base object of the skeleton. -/
def lv_world_t.on_obj (f : lv_obj_base_t → lv_obj_base_t) (w : lv_world_t) : lv_world_t :=
  { w with skeleton := { w.skeleton with obj := f w.skeleton.obj } }

/-! ## Static functions of lv_skeleton.c -/

/-- The function lv_skeleton_update_appearance. -/
def lv_skeleton_update_appearance (w : lv_world_t) : lv_world_t :=
  w.on_obj (fun o =>
    lv_obj_call .lv_obj_invalidate
      (lv_obj_set_style_bg_opa LV_OPA_COVER
        (lv_obj_call (.lv_obj_set_style_bg_color w.skeleton.base_color) o)))

/-- The function lv_skeleton_stop_animation. -/
def lv_skeleton_stop_animation (w : lv_world_t) : lv_world_t :=
  match w.skeleton.anim with
  | some a =>
    let h1 := lv_anim_delete (.block a.addr) w.host
    let h2 := lv_free a.addr h1
    let o1 := lv_obj_call .lv_obj_invalidate (lv_obj_set_style_bg_opa LV_OPA_COVER w.skeleton.obj)
    { skeleton := { w.skeleton with anim := none, obj := o1 }, host := h2 }
  | none => w

/-- The function lv_skeleton_start_animation. -/
def lv_skeleton_start_animation (w : lv_world_t) : lv_world_t :=
  let w1 := lv_skeleton_stop_animation w
  if w1.skeleton.anim_type = .LV_SKELETON_ANIM_NONE then w1
  else
    let r := lv_malloc w1.host
    match r.1 with
    | none => { skeleton := { w1.skeleton with anim := none }, host := r.2 }
    | some addr =>
      let a1 := { lv_anim_init with var := some (.obj w1.skeleton.obj.addr) }
      let a2 := { a1 with duration := w1.skeleton.anim_time }
      let a3 := { a2 with repeat_count := LV_ANIM_REPEAT_INFINITE }
      let a4 := { a3 with path_cb := .lv_anim_path_ease_in_out }
      let a5 :=
        match w1.skeleton.anim_type with
        | .LV_SKELETON_ANIM_PULSE =>
          { a4 with start_value := LV_OPA_60, end_value := LV_OPA_30,
                    exec_cb := some .pulse_anim_cb }
        | .LV_SKELETON_ANIM_WAVE =>
          { a4 with start_value := 0, end_value := 100, exec_cb := some .wave_anim_cb }
        | .LV_SKELETON_ANIM_NONE => a4
      { skeleton := { w1.skeleton with anim := some { addr := addr, dsc := a5 } },
        host := lv_anim_start a5 r.2 }

/-- The function pulse_anim_cb, on the object passed as var. -/
def pulse_anim_cb (value : Int) (o : lv_obj_base_t) : lv_obj_base_t :=
  lv_obj_set_style_bg_opa (to_lv_opa_t value) o

/-- The function wave_anim_cb, on the object passed as var.  The host function
lv_trigo_sin is a parameter; the division truncates. -/
def wave_anim_cb (lv_trigo_sin : Int → Int) (value : Int) (o : lv_obj_base_t) : lv_obj_base_t :=
  let opa := to_lv_opa_t (LV_OPA_50 + Int.tdiv (LV_OPA_30 * lv_trigo_sin (value * 36)) LV_TRIGO_SIN_MAX)
  lv_obj_set_style_bg_opa opa o

/-- The default size of a shape, in the words of the specification: TEXT_LINE 120 x 16,
CIRCLE 40 x 40, AVATAR 64 x 64, BUTTON 100 x 40, IMAGE 200 x 150, CARD 250 x 300, none
for RECT and CUSTOM. -/
def shape_default_size : lv_skeleton_shape_t → Option (Int × Int)
  | .LV_SKELETON_SHAPE_TEXT_LINE => some (120, 16)
  | .LV_SKELETON_SHAPE_CIRCLE => some (40, 40)
  | .LV_SKELETON_SHAPE_AVATAR => some (64, 64)
  | .LV_SKELETON_SHAPE_BUTTON => some (100, 40)
  | .LV_SKELETON_SHAPE_IMAGE => some (200, 150)
  | .LV_SKELETON_SHAPE_CARD => some (250, 300)
  | _ => none

/-- The function apply_shape_defaults: in each case of the switch, the width and then the
height are set if they are LV_SIZE_CONTENT. -/
def apply_shape_defaults (w : lv_world_t) : lv_world_t :=
  match w.skeleton.shape with
  | .LV_SKELETON_SHAPE_TEXT_LINE =>
    let w1 := if lv_obj_get_width w.skeleton.obj = LV_SIZE_CONTENT
      then w.on_obj (lv_obj_set_width 120) else w
    if lv_obj_get_height w1.skeleton.obj = LV_SIZE_CONTENT
      then w1.on_obj (lv_obj_set_height 16) else w1
  | .LV_SKELETON_SHAPE_CIRCLE =>
    let w1 := if lv_obj_get_width w.skeleton.obj = LV_SIZE_CONTENT
      then w.on_obj (lv_obj_set_width 40) else w
    if lv_obj_get_height w1.skeleton.obj = LV_SIZE_CONTENT
      then w1.on_obj (lv_obj_set_height 40) else w1
  | .LV_SKELETON_SHAPE_AVATAR =>
    let w1 := if lv_obj_get_width w.skeleton.obj = LV_SIZE_CONTENT
      then w.on_obj (lv_obj_set_width 64) else w
    if lv_obj_get_height w1.skeleton.obj = LV_SIZE_CONTENT
      then w1.on_obj (lv_obj_set_height 64) else w1
  | .LV_SKELETON_SHAPE_BUTTON =>
    let w1 := if lv_obj_get_width w.skeleton.obj = LV_SIZE_CONTENT
      then w.on_obj (lv_obj_set_width 100) else w
    if lv_obj_get_height w1.skeleton.obj = LV_SIZE_CONTENT
      then w1.on_obj (lv_obj_set_height 40) else w1
  | .LV_SKELETON_SHAPE_IMAGE =>
    let w1 := if lv_obj_get_width w.skeleton.obj = LV_SIZE_CONTENT
      then w.on_obj (lv_obj_set_width 200) else w
    if lv_obj_get_height w1.skeleton.obj = LV_SIZE_CONTENT
      then w1.on_obj (lv_obj_set_height 150) else w1
  | .LV_SKELETON_SHAPE_CARD =>
    let w1 := if lv_obj_get_width w.skeleton.obj = LV_SIZE_CONTENT
      then w.on_obj (lv_obj_set_width 250) else w
    if lv_obj_get_height w1.skeleton.obj = LV_SIZE_CONTENT
      then w1.on_obj (lv_obj_set_height 300) else w1
  | _ => w

/-- The function apply_template_layout, whose body does nothing. -/
def apply_template_layout (w : lv_world_t) : lv_world_t := w

/-! ## Setters and getters of lv_skeleton.c -/

/-- The function lv_skeleton_set_shape. -/
def lv_skeleton_set_shape (shape : lv_skeleton_shape_t) (w : lv_world_t) : lv_world_t :=
  if w.skeleton.shape ≠ shape then
    let w1 := apply_shape_defaults { w with skeleton := { w.skeleton with shape := shape } }
    w1.on_obj (lv_obj_call .lv_obj_invalidate)
  else w

/-- The function lv_skeleton_set_animation_type. -/
def lv_skeleton_set_animation_type (anim_type : lv_skeleton_anim_t) (w : lv_world_t) :
    lv_world_t :=
  if w.skeleton.anim_type ≠ anim_type then
    let w1 := lv_skeleton_stop_animation w
    let w2 := { w1 with skeleton := { w1.skeleton with anim_type := anim_type } }
    if w2.skeleton.active then lv_skeleton_start_animation w2 else w2
  else w

/-- The function lv_skeleton_set_anim_time; lv_anim_set_duration writes the duration into
the descriptor skeleton->anim points to. -/
def lv_skeleton_set_anim_time (anim_time : Nat) (w : lv_world_t) : lv_world_t :=
  let w1 := { w with skeleton := { w.skeleton with anim_time := anim_time } }
  match w1.skeleton.active, w1.skeleton.anim with
  | true, some a =>
    { w1 with skeleton :=
        { w1.skeleton with anim := some { a with dsc := { a.dsc with duration := anim_time } } } }
  | _, _ => w1

/-- The function lv_skeleton_set_wave_length. -/
def lv_skeleton_set_wave_length (wave_len : Nat) (w : lv_world_t) : lv_world_t :=
  { w with skeleton := { w.skeleton with wave_length := wave_len } }

/-- The function lv_skeleton_set_active. -/
def lv_skeleton_set_active (active : Bool) (w : lv_world_t) : lv_world_t :=
  if w.skeleton.active ≠ active then
    let w1 := { w with skeleton := { w.skeleton with active := if active then true else false } }
    if active then lv_skeleton_start_animation w1 else lv_skeleton_stop_animation w1
  else w

/-- The function lv_skeleton_set_base_color. -/
def lv_skeleton_set_base_color (color : lv_color_t) (w : lv_world_t) : lv_world_t :=
  lv_skeleton_update_appearance
    { w with skeleton := { w.skeleton with base_color := color, custom_colors := true } }

/-- The function lv_skeleton_set_highlight_color. -/
def lv_skeleton_set_highlight_color (color : lv_color_t) (w : lv_world_t) : lv_world_t :=
  lv_skeleton_update_appearance
    { w with skeleton := { w.skeleton with highlight_color := color, custom_colors := true } }

/-- The function lv_skeleton_set_template. -/
def lv_skeleton_set_template (template : lv_skeleton_template_t) (w : lv_world_t) : lv_world_t :=
  if w.skeleton.template ≠ template then
    apply_template_layout { w with skeleton := { w.skeleton with template := template } }
  else w

/-- The function lv_skeleton_set_size. -/
def lv_skeleton_set_size (width height : Int) (w : lv_world_t) : lv_world_t :=
  w.on_obj (lv_obj_set_size width height)

/-- The function lv_skeleton_get_shape. -/
def lv_skeleton_get_shape (w : lv_world_t) : lv_skeleton_shape_t := w.skeleton.shape

/-- The function lv_skeleton_get_animation_type. -/
def lv_skeleton_get_animation_type (w : lv_world_t) : lv_skeleton_anim_t := w.skeleton.anim_type

/-- The function lv_skeleton_get_active. -/
def lv_skeleton_get_active (w : lv_world_t) : Bool := w.skeleton.active

/-- The function lv_skeleton_constructor, on the object the host has allocated: every
field of the skeleton is assigned. -/
def lv_skeleton_constructor (o : lv_obj_base_t) (h : lv_host_t) : lv_world_t :=
  let o1 := lv_obj_remove_flag [.LV_OBJ_FLAG_SCROLLABLE, .LV_OBJ_FLAG_CLICK_FOCUSABLE] o
  let o2 := lv_obj_set_size 100 20 o1
  lv_skeleton_update_appearance
    { skeleton :=
        { obj := o2, shape := .LV_SKELETON_SHAPE_RECT,
          anim_type := .LV_SKELETON_ANIM_PULSE, anim_time := LV_SKELETON_DEF_ANIM_TIME,
          wave_length := LV_SKELETON_DEF_WAVE_LENGTH,
          template := .LV_SKELETON_TEMPLATE_NONE, base_color := LV_SKELETON_DEF_BASE_COLOR,
          highlight_color := LV_SKELETON_DEF_HIGHLIGHT_COLOR, anim := none, active := false,
          custom_colors := false },
      host := h }

/-- Modelled from the spec: the host function lv_obj_class_create_obj is not under src.  It
gives a new object of a class a fresh address, the parent, and the default width and
height of the class. -/
def lv_obj_class_create_obj (width_def height_def : Int) (parent : Option lv_obj_t)
    (h : lv_host_t) : lv_obj_base_t × lv_host_t :=
  ({ addr := h.next_addr, parent := parent, width := width_def, height := height_def,
     bg_opa := none, hidden := false, calls := [] },
   { h with next_addr := h.next_addr + 1 })

/-- The function lv_skeleton_create: an object of lv_skeleton_class, whose width_def and
height_def are LV_SIZE_CONTENT, initialised by the constructor. -/
def lv_skeleton_create (parent : Option lv_obj_t) (h : lv_host_t) : lv_world_t :=
  let r := lv_obj_class_create_obj LV_SIZE_CONTENT LV_SIZE_CONTENT parent h
  lv_skeleton_constructor r.1 r.2

/-- The function lv_skeleton_destructor. -/
def lv_skeleton_destructor (w : lv_world_t) : lv_world_t := lv_skeleton_stop_animation w

/-- A host in which nothing is allocated or animated and no allocation fails; addresses
start at 1. -/
def lv_host_t.fresh : lv_host_t := { alloc := [], next_addr := 1, anims := [], log := [] }

/-! ## The animation engine at work, and sequences of calls on one skeleton -/

/-- Modelled from the spec: the host animation engine is not under src.  On a tick it
calls the callback of a running animation with the variable of the animation and a
value; here the animation is the i-th of the engine and the skeleton is the object it
may drive. -/
def lv_anim_tick (lv_trigo_sin : Int → Int) (i : Nat) (value : Int) (w : lv_world_t) :
    lv_world_t :=
  match w.host.anims.get? i with
  | some a =>
    if a.var = some (.obj w.skeleton.obj.addr) then
      match a.exec_cb with
      | some .pulse_anim_cb => w.on_obj (pulse_anim_cb value)
      | some .wave_anim_cb => w.on_obj (wave_anim_cb lv_trigo_sin value)
      | none => w
    else w
  | none => w

/-- The animations of the engine that drive the object: those whose variable it is. -/
def running_on (o : lv_obj_t) (h : lv_host_t) : List lv_anim_t :=
  h.anims.filter (fun a => decide (a.var = some (.obj o)))

/-- A call of the skeleton interface, or a tick of the animation engine. -/
inductive lv_skeleton_op_t where
  | set_shape (shape : lv_skeleton_shape_t)
  | set_animation_type (anim_type : lv_skeleton_anim_t)
  | set_anim_time (anim_time : Nat)
  | set_wave_length (wave_len : Nat)
  | set_active (active : Bool)
  | set_base_color (color : lv_color_t)
  | set_highlight_color (color : lv_color_t)
  | set_template (template : lv_skeleton_template_t)
  | set_size (width : Int) (height : Int)
  | anim_tick (i : Nat) (value : Int)
  deriving DecidableEq, Repr

/-- Run one operation on the skeleton. -/
def lv_skeleton_op_t.run (lv_trigo_sin : Int → Int) : lv_skeleton_op_t → lv_world_t → lv_world_t
  | set_shape s, w => lv_skeleton_set_shape s w
  | set_animation_type t, w => lv_skeleton_set_animation_type t w
  | set_anim_time n, w => lv_skeleton_set_anim_time n w
  | set_wave_length n, w => lv_skeleton_set_wave_length n w
  | set_active a, w => lv_skeleton_set_active a w
  | set_base_color c, w => lv_skeleton_set_base_color c w
  | set_highlight_color c, w => lv_skeleton_set_highlight_color c w
  | set_template t, w => lv_skeleton_set_template t w
  | set_size width height, w => lv_skeleton_set_size width height w
  | anim_tick i value, w => lv_anim_tick lv_trigo_sin i value w

/-- Run a sequence of operations, first to last. -/
def run_ops (lv_trigo_sin : Int → Int) : List lv_skeleton_op_t → lv_world_t → lv_world_t
  | [], w => w
  | op :: rest, w => run_ops lv_trigo_sin rest (op.run lv_trigo_sin w)

/-- Every allocation of the host succeeds. -/
def allocations_succeed (h : lv_host_t) : Prop := ∀ b ∈ h.alloc, b = true

/-! ## Trees of objects and the template functions -/

/-- An object of the screen with its children, first created first: of the base class,
or of lv_skeleton_class (what lv_obj_check_type tells apart). -/
inductive lv_object_t where
  | plain (obj : lv_obj_base_t) (children : List lv_object_t)
  | skeleton (sk : lv_skeleton_t) (children : List lv_object_t)
  deriving Repr

/-- The base object of an object of the tree. -/
def lv_object_t.base : lv_object_t → lv_obj_base_t
  | plain o _ => o
  | skeleton sk _ => sk.obj

/-- The children of an object of the tree. -/
def lv_object_t.children : lv_object_t → List lv_object_t
  | plain _ cs => cs
  | skeleton _ cs => cs

/-- Apply a host call to the base object of an object of the tree. -/
def lv_object_t.on_obj (f : lv_obj_base_t → lv_obj_base_t) : lv_object_t → lv_object_t
  | plain o cs => plain (f o) cs
  | skeleton sk cs => skeleton { sk with obj := f sk.obj } cs

/-- Modelled from the spec: the host function lv_obj_create is not under src; a new object
of the base class under the parent. -/
def lv_obj_create (parent : Option lv_obj_t) (h : lv_host_t) : lv_obj_base_t × lv_host_t :=
  lv_obj_class_create_obj LV_DPI_DEF LV_DPI_DEF parent h

/-- The skeleton a world holds, as a leaf of the tree. -/
def lv_world_t.leaf (w : lv_world_t) : lv_object_t := .skeleton w.skeleton []

/-- The body of the loop of lv_skeleton_create_article, for the index i. -/
def lv_skeleton_create_article_line (container : lv_obj_t) (i : Nat) (h : lv_host_t) :
    lv_world_t :=
  let l1 := lv_skeleton_set_shape .LV_SKELETON_SHAPE_TEXT_LINE
    (lv_skeleton_create (some container) h)
  let l2 := l1.on_obj (lv_obj_set_size (if i = 2 then 180 else 200) 18)
  let l3 := lv_skeleton_set_active true l2
  if i < 2 then l3.on_obj (lv_obj_call (.lv_obj_set_style_margin_bottom 8)) else l3

/-- The function lv_skeleton_create_article. -/
def lv_skeleton_create_article (parent : Option lv_obj_t) (h : lv_host_t) :
    lv_object_t × lv_host_t :=
  let c := lv_obj_create parent h
  let container :=
    lv_obj_call (.lv_obj_set_style_pad_all 0)
      (lv_obj_remove_style_all
        (lv_obj_call (.lv_obj_set_flex_align .LV_FLEX_ALIGN_START .LV_FLEX_ALIGN_START
            .LV_FLEX_ALIGN_START)
          (lv_obj_call (.lv_obj_set_flex_flow .LV_FLEX_FLOW_COLUMN)
            (lv_obj_call .lv_obj_set_layout_flex c.1))))
  let t1 := lv_skeleton_set_shape .LV_SKELETON_SHAPE_TEXT_LINE
    (lv_skeleton_create (some container.addr) c.2)
  let t2 := t1.on_obj (lv_obj_set_size 250 24)
  let t3 := lv_skeleton_set_active true t2
  let title := t3.on_obj (lv_obj_call (.lv_obj_set_style_margin_bottom 12))
  let line0 := lv_skeleton_create_article_line container.addr 0 title.host
  let line1 := lv_skeleton_create_article_line container.addr 1 line0.host
  let line2 := lv_skeleton_create_article_line container.addr 2 line1.host
  (.plain container [title.leaf, line0.leaf, line1.leaf, line2.leaf], line2.host)

/-- The function lv_skeleton_create_profile. -/
def lv_skeleton_create_profile (parent : Option lv_obj_t) (h : lv_host_t) :
    lv_object_t × lv_host_t :=
  let c := lv_obj_create parent h
  let container :=
    lv_obj_call (.lv_obj_set_style_pad_all 0)
      (lv_obj_remove_style_all
        (lv_obj_call (.lv_obj_set_flex_align .LV_FLEX_ALIGN_START .LV_FLEX_ALIGN_CENTER
            .LV_FLEX_ALIGN_START)
          (lv_obj_call (.lv_obj_set_flex_flow .LV_FLEX_FLOW_ROW)
            (lv_obj_call .lv_obj_set_layout_flex c.1))))
  let a1 := lv_skeleton_set_shape .LV_SKELETON_SHAPE_AVATAR
    (lv_skeleton_create (some container.addr) c.2)
  let a2 := a1.on_obj (lv_obj_set_size 64 64)
  let a3 := lv_skeleton_set_active true a2
  let avatar := a3.on_obj (lv_obj_call (.lv_obj_set_style_margin_right 16))
  let i0 := lv_obj_create (some container.addr) avatar.host
  let info :=
    lv_obj_call (.lv_obj_set_flex_grow 1)
      (lv_obj_call (.lv_obj_set_style_pad_all 0)
        (lv_obj_remove_style_all
          (lv_obj_call (.lv_obj_set_flex_align .LV_FLEX_ALIGN_START .LV_FLEX_ALIGN_START
              .LV_FLEX_ALIGN_START)
            (lv_obj_call (.lv_obj_set_flex_flow .LV_FLEX_FLOW_COLUMN)
              (lv_obj_call .lv_obj_set_layout_flex i0.1)))))
  let n1 := lv_skeleton_set_shape .LV_SKELETON_SHAPE_TEXT_LINE
    (lv_skeleton_create (some info.addr) i0.2)
  let n2 := n1.on_obj (lv_obj_set_size 120 20)
  let n3 := lv_skeleton_set_active true n2
  let name := n3.on_obj (lv_obj_call (.lv_obj_set_style_margin_bottom 8))
  let s1 := lv_skeleton_set_shape .LV_SKELETON_SHAPE_TEXT_LINE
    (lv_skeleton_create (some info.addr) name.host)
  let s2 := s1.on_obj (lv_obj_set_size 80 16)
  let status := lv_skeleton_set_active true s2
  (.plain container [avatar.leaf, .plain info [name.leaf, status.leaf]], status.host)

/-- The body of the loop of lv_skeleton_create_card, for the index i. -/
def lv_skeleton_create_card_line (container : lv_obj_t) (i : Nat) (h : lv_host_t) :
    lv_world_t :=
  let l1 := lv_skeleton_set_shape .LV_SKELETON_SHAPE_TEXT_LINE
    (lv_skeleton_create (some container) h)
  let l2 := l1.on_obj (lv_obj_set_size (if i = 1 then LV_PCT 60 else LV_PCT 100) 16)
  let l3 := lv_skeleton_set_active true l2
  if i = 0 then l3.on_obj (lv_obj_call (.lv_obj_set_style_margin_bottom 4)) else l3

/-- The function lv_skeleton_create_card. -/
def lv_skeleton_create_card (parent : Option lv_obj_t) (h : lv_host_t) :
    lv_object_t × lv_host_t :=
  let c := lv_obj_create parent h
  let container :=
    lv_obj_call (.lv_obj_set_style_border_color 0xE2E8F0)
      (lv_obj_call (.lv_obj_set_style_border_width 1)
        (lv_obj_set_style_bg_opa LV_OPA_COVER
          (lv_obj_call (.lv_obj_set_style_bg_color 0xffffff)
            (lv_obj_call (.lv_obj_set_style_radius 8)
              (lv_obj_call (.lv_obj_set_style_pad_all 16)
                (lv_obj_remove_style_all
                  (lv_obj_call (.lv_obj_set_flex_align .LV_FLEX_ALIGN_START
                      .LV_FLEX_ALIGN_START .LV_FLEX_ALIGN_START)
                    (lv_obj_call (.lv_obj_set_flex_flow .LV_FLEX_FLOW_COLUMN)
                      (lv_obj_call .lv_obj_set_layout_flex c.1)))))))))
  let m1 := lv_skeleton_set_shape .LV_SKELETON_SHAPE_IMAGE
    (lv_skeleton_create (some container.addr) c.2)
  let m2 := m1.on_obj (lv_obj_set_size (LV_PCT 100) 120)
  let m3 := lv_skeleton_set_active true m2
  let image := m3.on_obj (lv_obj_call (.lv_obj_set_style_margin_bottom 16))
  let t1 := lv_skeleton_set_shape .LV_SKELETON_SHAPE_TEXT_LINE
    (lv_skeleton_create (some container.addr) image.host)
  let t2 := t1.on_obj (lv_obj_set_size (LV_PCT 80) 20)
  let t3 := lv_skeleton_set_active true t2
  let title := t3.on_obj (lv_obj_call (.lv_obj_set_style_margin_bottom 8))
  let line0 := lv_skeleton_create_card_line container.addr 0 title.host
  let line1 := lv_skeleton_create_card_line container.addr 1 line0.host
  (.plain container [image.leaf, title.leaf, line0.leaf, line1.leaf], line1.host)

/-- The function lv_skeleton_create_list_item. -/
def lv_skeleton_create_list_item (parent : Option lv_obj_t) (h : lv_host_t) :
    lv_object_t × lv_host_t :=
  let c := lv_obj_create parent h
  let container :=
    lv_obj_call (.lv_obj_set_style_pad_all 12)
      (lv_obj_remove_style_all
        (lv_obj_call (.lv_obj_set_flex_align .LV_FLEX_ALIGN_START .LV_FLEX_ALIGN_CENTER
            .LV_FLEX_ALIGN_START)
          (lv_obj_call (.lv_obj_set_flex_flow .LV_FLEX_FLOW_ROW)
            (lv_obj_call .lv_obj_set_layout_flex c.1))))
  let c1 := lv_skeleton_set_shape .LV_SKELETON_SHAPE_CIRCLE
    (lv_skeleton_create (some container.addr) c.2)
  let c2 := c1.on_obj (lv_obj_set_size 32 32)
  let c3 := lv_skeleton_set_active true c2
  let icon := c3.on_obj (lv_obj_call (.lv_obj_set_style_margin_right 12))
  let x0 := lv_obj_create (some container.addr) icon.host
  let text_cont :=
    lv_obj_call (.lv_obj_set_flex_grow 1)
      (lv_obj_call (.lv_obj_set_style_pad_all 0)
        (lv_obj_remove_style_all
          (lv_obj_call (.lv_obj_set_flex_align .LV_FLEX_ALIGN_START .LV_FLEX_ALIGN_START
              .LV_FLEX_ALIGN_START)
            (lv_obj_call (.lv_obj_set_flex_flow .LV_FLEX_FLOW_COLUMN)
              (lv_obj_call .lv_obj_set_layout_flex x0.1)))))
  let p1 := lv_skeleton_set_shape .LV_SKELETON_SHAPE_TEXT_LINE
    (lv_skeleton_create (some text_cont.addr) x0.2)
  let p2 := p1.on_obj (lv_obj_set_size 140 18)
  let p3 := lv_skeleton_set_active true p2
  let primary := p3.on_obj (lv_obj_call (.lv_obj_set_style_margin_bottom 4))
  let s1 := lv_skeleton_set_shape .LV_SKELETON_SHAPE_TEXT_LINE
    (lv_skeleton_create (some text_cont.addr) primary.host)
  let s2 := s1.on_obj (lv_obj_set_size 100 14)
  let secondary := lv_skeleton_set_active true s2
  (.plain container [icon.leaf, .plain text_cont [primary.leaf, secondary.leaf]],
   secondary.host)

/-- The function lv_skeleton_create_contact. -/
def lv_skeleton_create_contact (parent : Option lv_obj_t) (h : lv_host_t) :
    lv_object_t × lv_host_t :=
  lv_skeleton_create_profile parent h

/-- The function lv_skeleton_create_product. -/
def lv_skeleton_create_product (parent : Option lv_obj_t) (h : lv_host_t) :
    lv_object_t × lv_host_t :=
  let c := lv_obj_create parent h
  let container :=
    lv_obj_call (.lv_obj_set_style_pad_all 12)
      (lv_obj_remove_style_all
        (lv_obj_call (.lv_obj_set_flex_align .LV_FLEX_ALIGN_START .LV_FLEX_ALIGN_START
            .LV_FLEX_ALIGN_START)
          (lv_obj_call (.lv_obj_set_flex_flow .LV_FLEX_FLOW_COLUMN)
            (lv_obj_call .lv_obj_set_layout_flex c.1))))
  let m1 := lv_skeleton_set_shape .LV_SKELETON_SHAPE_IMAGE
    (lv_skeleton_create (some container.addr) c.2)
  let m2 := m1.on_obj (lv_obj_set_size (LV_PCT 100) 150)
  let m3 := lv_skeleton_set_active true m2
  let image := m3.on_obj (lv_obj_call (.lv_obj_set_style_margin_bottom 12))
  let n1 := lv_skeleton_set_shape .LV_SKELETON_SHAPE_TEXT_LINE
    (lv_skeleton_create (some container.addr) image.host)
  let n2 := n1.on_obj (lv_obj_set_size (LV_PCT 85) 18)
  let n3 := lv_skeleton_set_active true n2
  let name := n3.on_obj (lv_obj_call (.lv_obj_set_style_margin_bottom 8))
  let p1 := lv_skeleton_set_shape .LV_SKELETON_SHAPE_TEXT_LINE
    (lv_skeleton_create (some container.addr) name.host)
  let p2 := p1.on_obj (lv_obj_set_size 60 20)
  let price := lv_skeleton_set_active true p2
  (.plain container [image.leaf, name.leaf, price.leaf], price.host)

/-- The subtraction count - 1 of uint32_t in the loop of lv_skeleton_create_list. -/
def uint32_pred (count : Nat) : Nat := (count + 4294967296 - 1) % 4294967296

/-- The body of the loop of lv_skeleton_create_list for the index i: the item the switch
creates under the container, with its bottom margin if i < count - 1, and the host. -/
def lv_skeleton_create_list_body (container : lv_obj_t) (template : lv_skeleton_template_t)
    (count : Nat) (spacing : Int) (i : Nat) (h : lv_host_t) : lv_object_t × lv_host_t :=
  let r : lv_object_t × lv_host_t :=
    match template with
    | .LV_SKELETON_TEMPLATE_ARTICLE => lv_skeleton_create_article (some container) h
    | .LV_SKELETON_TEMPLATE_PROFILE => lv_skeleton_create_profile (some container) h
    | .LV_SKELETON_TEMPLATE_CARD => lv_skeleton_create_card (some container) h
    | .LV_SKELETON_TEMPLATE_LIST_ITEM => lv_skeleton_create_list_item (some container) h
    | .LV_SKELETON_TEMPLATE_CONTACT => lv_skeleton_create_contact (some container) h
    | .LV_SKELETON_TEMPLATE_PRODUCT => lv_skeleton_create_product (some container) h
    | _ => ((lv_skeleton_create (some container) h).leaf,
            (lv_skeleton_create (some container) h).host)
  if i < uint32_pred count then
    (r.1.on_obj (lv_obj_call (.lv_obj_set_style_margin_bottom spacing)), r.2)
  else r

/-- The loop of lv_skeleton_create_list: n iterations are left, i is the index; the items
created so far and the host are threaded through. -/
def lv_skeleton_create_list_loop (container : lv_obj_t) (template : lv_skeleton_template_t)
    (count : Nat) (spacing : Int) :
    Nat → Nat → List lv_object_t × lv_host_t → List lv_object_t × lv_host_t
  | 0, _, st => st
  | n + 1, i, st =>
    lv_skeleton_create_list_loop container template count spacing n (i + 1)
      (st.1 ++ [(lv_skeleton_create_list_body container template count spacing i st.2).1],
       (lv_skeleton_create_list_body container template count spacing i st.2).2)

/-- The function lv_skeleton_create_list; count is a uint32_t. -/
def lv_skeleton_create_list (parent : Option lv_obj_t) (template : lv_skeleton_template_t)
    (count : Nat) (spacing : Int) (h : lv_host_t) : lv_object_t × lv_host_t :=
  let c := lv_obj_create parent h
  let container :=
    lv_obj_call (.lv_obj_set_style_pad_all 0)
      (lv_obj_remove_style_all
        (lv_obj_call (.lv_obj_set_flex_align .LV_FLEX_ALIGN_START .LV_FLEX_ALIGN_START
            .LV_FLEX_ALIGN_START)
          (lv_obj_call (.lv_obj_set_flex_flow .LV_FLEX_FLOW_COLUMN)
            (lv_obj_call .lv_obj_set_layout_flex c.1))))
  let r := lv_skeleton_create_list_loop container.addr template count spacing count 0 ([], c.2)
  (.plain container r.1, r.2)

/-- The state lv_skeleton_set_loading works on: its static variable skeleton_obj, with
the tree it points to (none is NULL), and the host. -/
structure lv_loading_t where
  skeleton_obj : Option lv_object_t
  host : lv_host_t

/-- The function lv_skeleton_set_loading; the content object is returned as the call
leaves it. -/
def lv_skeleton_set_loading (content : lv_object_t) (template : lv_skeleton_template_t)
    (loading : Bool) (st : lv_loading_t) : lv_object_t × lv_loading_t :=
  if loading then
    let st1 : lv_loading_t :=
      match st.skeleton_obj with
      | none =>
        let parent := content.base.parent
        let r := lv_skeleton_create_list parent template 1 0 st.host
        { skeleton_obj := some (r.1.on_obj (lv_obj_call .lv_obj_move_foreground)), host := r.2 }
      | some _ => st
    (content.on_obj (lv_obj_add_flag [.LV_OBJ_FLAG_HIDDEN]),
     { st1 with skeleton_obj :=
         st1.skeleton_obj.map (lv_object_t.on_obj (lv_obj_remove_flag [.LV_OBJ_FLAG_HIDDEN])) })
  else
    (content.on_obj (lv_obj_remove_flag [.LV_OBJ_FLAG_HIDDEN]),
     { st with skeleton_obj :=
         st.skeleton_obj.map (lv_object_t.on_obj (lv_obj_add_flag [.LV_OBJ_FLAG_HIDDEN])) })

mutual
/-- The function lv_skeleton_set_container_active: the children of the container are
gone through in order. -/
def lv_skeleton_set_container_active (active : Bool) :
    lv_object_t → lv_host_t → lv_object_t × lv_host_t
  | .plain o cs, h =>
    ((lv_object_t.plain o (lv_skeleton_set_container_active_loop active cs h).1),
     (lv_skeleton_set_container_active_loop active cs h).2)
  | .skeleton sk cs, h =>
    ((lv_object_t.skeleton sk (lv_skeleton_set_container_active_loop active cs h).1),
     (lv_skeleton_set_container_active_loop active cs h).2)
/-- The loop of lv_skeleton_set_container_active over the children that are left: a child
of lv_skeleton_class gets lv_skeleton_set_active, any other child the recursive call. -/
def lv_skeleton_set_container_active_loop (active : Bool) :
    List lv_object_t → lv_host_t → List lv_object_t × lv_host_t
  | [], h => ([], h)
  | .skeleton sk cs :: rest, h =>
    ((lv_object_t.skeleton
        (lv_skeleton_set_active active { skeleton := sk, host := h }).skeleton cs) ::
      (lv_skeleton_set_container_active_loop active rest
        (lv_skeleton_set_active active { skeleton := sk, host := h }).host).1,
     (lv_skeleton_set_container_active_loop active rest
        (lv_skeleton_set_active active { skeleton := sk, host := h }).host).2)
  | .plain o cs :: rest, h =>
    ((lv_skeleton_set_container_active active (.plain o cs) h).1 ::
      (lv_skeleton_set_container_active_loop active rest
        (lv_skeleton_set_container_active active (.plain o cs) h).2).1,
     (lv_skeleton_set_container_active_loop active rest
        (lv_skeleton_set_container_active active (.plain o cs) h).2).2)
end

mutual
/-- Every skeleton in the subtree, its root included, has the active flag a. -/
def lv_object_t.skeletons_active (a : Bool) : lv_object_t → Bool
  | .plain _ cs => lv_object_t.skeletons_active_list a cs
  | .skeleton sk cs => (sk.active == a) && lv_object_t.skeletons_active_list a cs
/-- Every skeleton in the subtrees of the list has the active flag a. -/
def lv_object_t.skeletons_active_list (a : Bool) : List lv_object_t → Bool
  | [] => true
  | c :: rest => lv_object_t.skeletons_active a c && lv_object_t.skeletons_active_list a rest
end

mutual
/-- The active flags of the skeletons of the subtree, the root first, then the children in
order. -/
def lv_object_t.active_flags : lv_object_t → List Bool
  | .plain _ cs => lv_object_t.active_flags_list cs
  | .skeleton sk cs => sk.active :: lv_object_t.active_flags_list cs
/-- The active flags of the skeletons of the subtrees of the list. -/
def lv_object_t.active_flags_list : List lv_object_t → List Bool
  | [] => []
  | c :: rest => lv_object_t.active_flags c ++ lv_object_t.active_flags_list rest
end

/-- Every skeleton that is a proper descendant of the container has the active flag a. -/
def lv_object_t.descendants_active (a : Bool) (container : lv_object_t) : Bool :=
  lv_object_t.skeletons_active_list a container.children

/-! ## Example trees -/

/-- A container of the base class (object 1) that holds a skeleton (object 2) that holds a
skeleton (object 3), all freshly created, and the host after their creation. -/
def example_nested : lv_object_t × lv_host_t :=
  let c := lv_obj_create none .fresh
  let s1 := lv_skeleton_create (some c.1.addr) c.2
  let s2 := lv_skeleton_create (some s1.skeleton.obj.addr) s1.host
  (.plain c.1 [.skeleton s1.skeleton [.skeleton s2.skeleton []]], s2.host)

/-- A content object of the base class with the given address and parent, as the host
creates it. -/
def example_content (addr : lv_obj_t) (parent : lv_obj_t) : lv_object_t :=
  .plain { addr := addr, parent := some parent, width := LV_DPI_DEF, height := LV_DPI_DEF,
           bg_opa := none, hidden := false, calls := [] } []

/-- The state of lv_skeleton_set_loading before its first call: skeleton_obj is NULL; the
addresses below 100 are taken. -/
def lv_loading_t.initial : lv_loading_t :=
  { skeleton_obj := none, host := { alloc := [], next_addr := 100, anims := [], log := [] } }

/-! ## The template of an item, in the words of the specification -/

/-- The factory lv_skeleton_create_list uses for a template: the create function of the
template, a plain skeleton for NONE and CUSTOM. -/
def spec_item_factory (template : lv_skeleton_template_t) (parent : Option lv_obj_t)
    (h : lv_host_t) : lv_object_t × lv_host_t :=
  match template with
  | .LV_SKELETON_TEMPLATE_NONE =>
    ((lv_skeleton_create parent h).leaf, (lv_skeleton_create parent h).host)
  | .LV_SKELETON_TEMPLATE_ARTICLE => lv_skeleton_create_article parent h
  | .LV_SKELETON_TEMPLATE_PROFILE => lv_skeleton_create_profile parent h
  | .LV_SKELETON_TEMPLATE_CARD => lv_skeleton_create_card parent h
  | .LV_SKELETON_TEMPLATE_LIST_ITEM => lv_skeleton_create_list_item parent h
  | .LV_SKELETON_TEMPLATE_CONTACT => lv_skeleton_create_contact parent h
  | .LV_SKELETON_TEMPLATE_PRODUCT => lv_skeleton_create_product parent h
  | .LV_SKELETON_TEMPLATE_CUSTOM =>
    ((lv_skeleton_create parent h).leaf, (lv_skeleton_create parent h).host)

/-- The item lv_skeleton_create_list makes at index i from the host hi, in the words of
the specification: the factory of the template, and the bottom margin spacing unless the
item is the last. -/
def spec_list_item (container : lv_obj_t) (template : lv_skeleton_template_t) (count : Nat)
    (spacing : Int) (i : Nat) (hi : lv_host_t) : lv_object_t :=
  if i + 1 < count then
    (spec_item_factory template (some container) hi).1.on_obj
      (lv_obj_call (.lv_obj_set_style_margin_bottom spacing))
  else (spec_item_factory template (some container) hi).1

/-! ## Drawing -/

/-- The function draw_main of lv_skeleton.c: the draw commands it issues for the skeleton,
whose bounding box is G of its address. -/
def draw_main (G : lv_obj_t → LvBadge.lv_area_t) (skeleton : lv_skeleton_t) :
    List LvBadge.lv_draw_t :=
  let obj_coords := G skeleton.obj.addr
  let radius : Int :=
    match skeleton.shape with
    | .LV_SKELETON_SHAPE_CIRCLE => LV_RADIUS_CIRCLE
    | .LV_SKELETON_SHAPE_AVATAR => LV_RADIUS_CIRCLE
    | .LV_SKELETON_SHAPE_BUTTON => 6
    | .LV_SKELETON_SHAPE_CARD => 6
    | .LV_SKELETON_SHAPE_TEXT_LINE => 4
    | .LV_SKELETON_SHAPE_IMAGE => 8
    | _ => 4
  [.lv_draw_rect obj_coords skeleton.base_color LV_OPA_COVER radius (some 0)]

/-- The function lv_skeleton_event, once the base class has handled the event with
LV_RESULT_OK: it draws on LV_EVENT_DRAW_MAIN and does nothing otherwise. -/
def lv_skeleton_event (G : lv_obj_t → LvBadge.lv_area_t) (code : LvBadge.lv_event_code_t)
    (skeleton : lv_skeleton_t) : List LvBadge.lv_draw_t :=
  if code = .LV_EVENT_DRAW_MAIN then draw_main G skeleton else []

/-- The corner radius of a shape, in the words of the specification: fully round for
CIRCLE and AVATAR, 6 for BUTTON and CARD, 4 for TEXT_LINE, 8 for IMAGE, 4 for every other
shape. -/
def spec_radius (shape : lv_skeleton_shape_t) : Int :=
  if shape = .LV_SKELETON_SHAPE_CIRCLE ∨ shape = .LV_SKELETON_SHAPE_AVATAR then 0x7FFF
  else if shape = .LV_SKELETON_SHAPE_BUTTON ∨ shape = .LV_SKELETON_SHAPE_CARD then 6
  else if shape = .LV_SKELETON_SHAPE_TEXT_LINE then 4
  else if shape = .LV_SKELETON_SHAPE_IMAGE then 8
  else 4

/-! ## The type check of the accessors, and example 10 -/

/-- Modelled from the spec: the host macro LV_ASSERT_OBJ is not under src.  With MY_CLASS
the skeleton class, LV_ASSERT_OBJ(obj, MY_CLASS) passes for an object of lv_skeleton_class
and halts the program for an object of another class. -/
def LV_ASSERT_OBJ : lv_object_t → Bool
  | .skeleton _ _ => true
  | .plain _ _ => false

/-- The function lv_skeleton_get_active on an object of a tree, with its assertion: none
when LV_ASSERT_OBJ halts. -/
def lv_skeleton_get_active_obj (obj : lv_object_t) (h : lv_host_t) : Option Bool :=
  if LV_ASSERT_OBJ obj then
    match obj with
    | .skeleton sk _ => some (lv_skeleton_get_active { skeleton := sk, host := h })
    | .plain _ _ => none
  else none

/-- The function lv_skeleton_set_active on an object of a tree, with its assertion: none
when LV_ASSERT_OBJ halts. -/
def lv_skeleton_set_active_obj (active : Bool) (obj : lv_object_t) (h : lv_host_t) :
    Option (lv_object_t × lv_host_t) :=
  if LV_ASSERT_OBJ obj then
    match obj with
    | .skeleton sk cs =>
      some (.skeleton (lv_skeleton_set_active active { skeleton := sk, host := h }).skeleton cs,
            (lv_skeleton_set_active active { skeleton := sk, host := h }).host)
    | .plain _ _ => none
  else none

/-- The function btn_event_handler of lv_skeleton_examples.c on LV_EVENT_CLICKED, as far
as the skeleton passed as user data is concerned. -/
def btn_event_handler (skeleton : lv_object_t) (h : lv_host_t) :
    Option (lv_object_t × lv_host_t) :=
  match lv_skeleton_get_active_obj skeleton h with
  | some active => lv_skeleton_set_active_obj (!active) skeleton h
  | none => none

/-- The function lv_example_skeleton_10 as far as its variable skeleton is concerned (the
button and the labels it creates are other objects): the object lv_skeleton_create_profile
returns is positioned, given its width and passed to lv_skeleton_set_active.  The screen
is the active screen; none when an assertion halts. -/
def lv_example_skeleton_10 (screen : lv_obj_t) (h : lv_host_t) :
    Option (lv_object_t × lv_host_t) :=
  let r := lv_skeleton_create_profile (some screen) h
  let skeleton :=
    (r.1.on_obj (lv_obj_call (.lv_obj_set_pos 20 20))).on_obj (lv_obj_set_width 300)
  lv_skeleton_set_active_obj true skeleton r.2

/-! ## The animation of a type, in the words of the specification -/

/-- The animation configured on the handle for a type, in the words of the specification:
for PULSE the values LV_OPA_60 to LV_OPA_30 with the pulse callback, for WAVE the values 0
to 100 with the wave callback, both on the object, with the duration anim_time, infinite
repeat and the ease-in-out path; no animation for NONE. -/
def spec_anim (t : lv_skeleton_anim_t) (obj : lv_obj_t) (anim_time : Nat) : Option lv_anim_t :=
  match t with
  | .LV_SKELETON_ANIM_PULSE =>
    some { var := some (.obj obj), exec_cb := some .pulse_anim_cb,
           path_cb := .lv_anim_path_ease_in_out, start_value := LV_OPA_60,
           end_value := LV_OPA_30, duration := anim_time,
           repeat_count := LV_ANIM_REPEAT_INFINITE }
  | .LV_SKELETON_ANIM_WAVE =>
    some { var := some (.obj obj), exec_cb := some .wave_anim_cb,
           path_cb := .lv_anim_path_ease_in_out, start_value := 0, end_value := 100,
           duration := anim_time, repeat_count := LV_ANIM_REPEAT_INFINITE }
  | .LV_SKELETON_ANIM_NONE => none

end LvSkeleton

namespace LvBadge

/-! ## Lemmas on the text functions -/

theorem lv_strlen_pos (s : String) (h : s.data ≠ []) : 0 < lv_strlen s := by
  unfold lv_strlen
  cases s with
  | mk cs =>
    cases cs with
    | nil => exact absurd rfl h
    | cons c rest =>
      simp only [String.utf8ByteSize_mk, String.utf8Len_cons]
      have := Char.utf8Size_pos c
      omega

theorem nat_repr_data_ne_nil (n : Nat) : (Nat.repr n).data ≠ [] := by
  intro h
  have hlen : (Nat.toDigits 10 n).length = 0 := by
    have : (Nat.repr n).data = Nat.toDigits 10 n := rfl
    rw [← this, h]; rfl
  unfold Nat.toDigits at hlen
  rw [Nat.toDigitsCore] at hlen
  split at hlen
  · simp at hlen
  · rw [Nat.toDigitsCore_lens_eq] at hlen
    omega

theorem fmt_d_data_ne_nil (v : Int) : (fmt_d v).data ≠ [] := by
  unfold fmt_d
  cases v with
  | ofNat n => exact nat_repr_data_ne_nil n
  | negSucc n =>
    show ("-" ++ Nat.repr (n + 1)).data ≠ []
    rw [String.data_append]
    simp

theorem lv_strlen_spec_numeric_text_pos (b : lv_badge_t) : 0 < lv_strlen (spec_numeric_text b) := by
  apply lv_strlen_pos
  unfold spec_numeric_text
  split
  · rw [String.data_append]
    intro h
    exact fmt_d_data_ne_nil _ (List.append_eq_nil.mp h).1
  · exact fmt_d_data_ne_nil _

theorem same_but_text_refl (b : lv_badge_t) : b.same_but_text b := rfl

theorem same_but_text_trans (b b1 b2 : lv_badge_t) (h1 : b.same_but_text b1)
    (h2 : b1.same_but_text b2) : b.same_but_text b2 := by
  unfold lv_badge_t.same_but_text at *
  rw [h2, h1]

theorem same_but_text_visible_mode (b b1 : lv_badge_t) (h : b.same_but_text b1) :
    b1.visible = b.visible ∧ b1.mode = b.mode := by
  unfold lv_badge_t.same_but_text at h
  rw [h]
  exact ⟨rfl, rfl⟩

theorem free_dynamic_text_same (w : lv_world_t) :
    w.badge.same_but_text (free_dynamic_text w).badge := by
  unfold free_dynamic_text
  split
  · split <;> rfl
  · rfl

theorem copy_text_to_badge_same (text : Option String) (w : lv_world_t) :
    w.badge.same_but_text (copy_text_to_badge text w).badge := by
  have hf := free_dynamic_text_same w
  unfold copy_text_to_badge
  cases text with
  | none => exact same_but_text_trans _ _ _ hf rfl
  | some t =>
    simp only
    split <;> exact same_but_text_trans _ _ _ hf rfl

theorem refr_text_same (obj : lv_obj_t) (w : lv_world_t) :
    w.badge.same_but_text (lv_badge_refr_text obj w).badge := by
  unfold lv_badge_refr_text
  split
  · rfl
  · simp only
    split
    · rfl
    · split <;> exact copy_text_to_badge_same _ w

theorem set_text_same (obj : lv_obj_t) (text : Option String) (w : lv_world_t) :
    w.badge.same_but_text (lv_badge_set_text obj text w).badge := by
  have hf := free_dynamic_text_same w
  unfold lv_badge_set_text
  cases text with
  | none =>
    have h1 : (free_dynamic_text w).badge.same_but_text
        { (free_dynamic_text w).badge with static_txt := true, text := none } := rfl
    exact same_but_text_trans _ _ _ (same_but_text_trans _ _ _ hf h1) (refr_text_same obj _)
  | some t =>
    exact same_but_text_trans _ _ _ (same_but_text_trans _ _ _ hf
      (copy_text_to_badge_same (some t) (free_dynamic_text w))) (refr_text_same obj _)

/-- Outside DOT mode draw_main draws a non-empty text of a visible badge as its only
label, and no label for a hidden badge. -/
theorem drawn_texts_of_text (G : lv_obj_t → lv_area_t) (obj : lv_obj_t) (b : lv_badge_t)
    (s : String) (ht : b.text = some s) (hs : 0 < lv_strlen s)
    (hmode : b.mode ≠ .LV_BADGE_MODE_DOT) :
    drawn_texts (draw_main G obj b) = if b.visible then [s] else [] := by
  unfold draw_main
  cases hv : b.visible <;> simp [ht, hs, hmode, drawn_texts]

theorem lv_snprintf_of_length_le (size : Nat) (s : String) (h : s.length ≤ size - 1) :
    lv_snprintf size s = s := by
  unfold lv_snprintf
  rw [String.take_eq]
  have : s.data.length ≤ size - 1 := h
  rw [List.take_of_length_le this]

theorem fmt_d_length_le (v : Int) (hv : is_int32 v) : (fmt_d v).length ≤ 11 := by
  obtain ⟨hlo, hhi⟩ := hv
  unfold INT32_MIN at hlo
  unfold INT32_MAX at hhi
  unfold fmt_d
  cases v with
  | ofNat n =>
    have hn : n < 10 ^ 10 := by
      have : (n : Int) ≤ 2147483647 := hhi
      omega
    have := Nat.repr_length n 10 (by decide) hn
    show (Nat.repr n).length ≤ 11
    omega
  | negSucc n =>
    have hn : n + 1 < 10 ^ 10 := by
      have : Int.negSucc n = -((n : Int) + 1) := rfl
      rw [this] at hlo
      omega
    have := Nat.repr_length (n + 1) 10 (by decide) hn
    show ("-" ++ Nat.repr (n + 1)).length ≤ 11
    rw [String.length_append]
    have h1 : ("-" : String).length = 1 := by decide
    omega

theorem lv_snprintf_fmt_d (v : Int) (hv : is_int32 v) : lv_snprintf 16 (fmt_d v) = fmt_d v := by
  apply lv_snprintf_of_length_le
  have := fmt_d_length_le v hv
  omega

theorem lv_snprintf_fmt_d_plus (v : Int) (hv : is_int32 v) :
    lv_snprintf 16 (fmt_d v ++ "+") = fmt_d v ++ "+" := by
  apply lv_snprintf_of_length_le
  have := fmt_d_length_le v hv
  rw [String.length_append]
  have h1 : ("+" : String).length = 1 := by decide
  omega

theorem refr_text_of_text_some (obj : lv_obj_t) (w : lv_world_t) (s : String)
    (h : w.badge.text = some s) :
    lv_badge_refr_text obj w = { w with host := lv_call (.lv_obj_invalidate obj) w.host } := by
  unfold lv_badge_refr_text
  simp [h]

theorem lv_malloc_fst (size : Nat) (h : lv_host_t) : (lv_malloc size h).1 = next_alloc_ok h := by
  unfold lv_malloc next_alloc_ok
  cases h.alloc <;> rfl

theorem lv_malloc_snd_log (size : Nat) (h : lv_host_t) :
    (lv_malloc size h).2.log = h.log ++ [.lv_malloc size (next_alloc_ok h)] := by
  unfold lv_malloc next_alloc_ok lv_call
  cases h.alloc <;> rfl

theorem lv_malloc_snd_events (size : Nat) (h : lv_host_t) :
    (lv_malloc size h).2.events = h.events := by
  unfold lv_malloc lv_call
  cases h.alloc <;> rfl

theorem copy_text_to_badge_text_of_ok (t : String) (w : lv_world_t)
    (hok : next_alloc_ok (free_dynamic_text w).host = true) :
    (copy_text_to_badge (some t) w).badge.text = some t := by
  unfold copy_text_to_badge
  simp [lv_malloc_fst, hok]

theorem copy_text_to_badge_text_of_fail (t : String) (w : lv_world_t)
    (hok : next_alloc_ok (free_dynamic_text w).host = false) :
    (copy_text_to_badge (some t) w).badge.text = none := by
  unfold copy_text_to_badge
  simp [lv_malloc_fst, hok]

theorem free_dynamic_text_alloc (w : lv_world_t) :
    (free_dynamic_text w).host.alloc = w.host.alloc := by
  unfold free_dynamic_text
  split
  · split <;> simp [lv_free, lv_call]
  · rfl

theorem free_dynamic_text_idem (w : lv_world_t) :
    free_dynamic_text (free_dynamic_text w) = free_dynamic_text w := by
  unfold free_dynamic_text
  cases ht : w.badge.text with
  | none => simp [ht]
  | some old =>
    cases hs : w.badge.static_txt <;> simp [ht, hs]

theorem next_alloc_ok_free (w : lv_world_t) :
    next_alloc_ok (free_dynamic_text w).host = next_alloc_ok w.host := by
  unfold next_alloc_ok
  rw [free_dynamic_text_alloc]

theorem set_value_badge_of_some (obj : lv_obj_t) (v : Int) (w : lv_world_t) (s : String)
    (h : w.badge.text = some s) :
    (lv_badge_set_value obj v w).badge = { w.badge with value := v } := by
  unfold lv_badge_set_value
  split
  · rw [refr_text_of_text_some obj _ s (by simpa using h)]
  · rename_i hv
    simp only [ne_eq, not_not] at hv
    simp [← hv]

theorem set_max_value_badge_of_some (obj : lv_obj_t) (m : Int) (w : lv_world_t) (s : String)
    (h : w.badge.text = some s) :
    (lv_badge_set_max_value obj m w).badge = { w.badge with max_value := m } := by
  unfold lv_badge_set_max_value
  split
  · rw [refr_text_of_text_some obj _ s (by simpa using h)]
  · rename_i hv
    simp only [ne_eq, not_not] at hv
    simp [← hv]

theorem set_mode_badge_of_some (obj : lv_obj_t) (m : lv_badge_mode_t) (w : lv_world_t) (s : String)
    (h : w.badge.text = some s) :
    (lv_badge_set_mode obj m w).badge = { w.badge with mode := m } := by
  unfold lv_badge_set_mode
  split
  · rw [refr_text_of_text_some obj _ s (by simpa using h)]
  · rename_i hv
    simp only [ne_eq, not_not] at hv
    simp [← hv]

theorem create_badge_of_ok (obj : lv_obj_t) (h : lv_host_t) (hok : next_alloc_ok h = true) :
    (lv_badge_create obj h).badge =
      { value := 0, max_value := 99, text := some "0", target := none,
        attach_pos := .LV_BADGE_ATTACH_TOP_RIGHT, offset_x := 0, offset_y := 0,
        mode := .LV_BADGE_MODE_NUMBER, static_txt := false, visible := true, attached := false } := by
  have h0 : lv_snprintf 16 (fmt_d 0) = "0" := by decide
  unfold lv_badge_create lv_badge_constructor lv_badge_refr_text
  simp only [h0]
  have hok2 : next_alloc_ok (lv_call (.lv_obj_set_size obj LV_SIZE_CONTENT LV_SIZE_CONTENT)
      (lv_call (.lv_obj_add_flag obj [.LV_OBJ_FLAG_FLOATING])
        (lv_call (.lv_obj_remove_flag obj [.LV_OBJ_FLAG_SCROLLABLE, .LV_OBJ_FLAG_CLICK_FOCUSABLE])
          h))) = true := hok
  simp [copy_text_to_badge, free_dynamic_text, lv_malloc_fst, hok2]

theorem create_text_of_ok (obj : lv_obj_t) (h : lv_host_t) (hok : next_alloc_ok h = true) :
    (lv_badge_create obj h).badge.text = some "0" := by
  rw [create_badge_of_ok obj h hok]

/-- C1, evaluated on the code: on a freshly created badge the text generated by the
constructor stays in badge->text, so after lv_badge_set_value(v), lv_badge_set_max_value(m)
and lv_badge_set_mode(LV_BADGE_MODE_MAX) the text returned by lv_badge_get_text and the
label drawn by draw_main are still the initial "0", for every v and m (150 and 99 too). -/
theorem C1_max_mode_text_stays_initial (G : lv_obj_t → lv_area_t) (obj : lv_obj_t) (v m : Int) :
    lv_badge_get_text (lv_badge_set_mode obj .LV_BADGE_MODE_MAX (lv_badge_set_max_value obj m
      (lv_badge_set_value obj v (lv_badge_create obj .fresh)))) = some "0" ∧
    drawn_texts (draw_main G obj (lv_badge_set_mode obj .LV_BADGE_MODE_MAX
      (lv_badge_set_max_value obj m (lv_badge_set_value obj v
        (lv_badge_create obj .fresh)))).badge) = ["0"] := by
  have hb : (lv_badge_set_mode obj .LV_BADGE_MODE_MAX (lv_badge_set_max_value obj m
      (lv_badge_set_value obj v (lv_badge_create obj .fresh)))).badge =
      { value := v, max_value := m, text := some "0", target := none,
        attach_pos := .LV_BADGE_ATTACH_TOP_RIGHT, offset_x := 0, offset_y := 0,
        mode := .LV_BADGE_MODE_MAX, static_txt := false, visible := true, attached := false } := by
    have h0 := create_badge_of_ok obj .fresh rfl
    have h1 := set_value_badge_of_some obj v (lv_badge_create obj .fresh) "0" (by rw [h0])
    rw [h0] at h1
    have h2 := set_max_value_badge_of_some obj m _ "0" (by rw [h1])
    rw [h1] at h2
    have h3 := set_mode_badge_of_some obj .LV_BADGE_MODE_MAX _ "0" (by rw [h2])
    rw [h2] at h3
    exact h3
  have hlen : lv_strlen "0" > 0 := by decide
  unfold lv_badge_get_text
  rw [hb]
  simp [draw_main, drawn_texts, hlen]

theorem free_dynamic_text_of_none (w : lv_world_t) (h : w.badge.text = none) :
    free_dynamic_text w = w := by
  unfold free_dynamic_text
  simp [h]

theorem spec_numeric_text_congr (b b1 : lv_badge_t) (hmode : b1.mode = b.mode)
    (hv : b1.value = b.value) (hm : b1.max_value = b.max_value) :
    spec_numeric_text b1 = spec_numeric_text b := by
  unfold spec_numeric_text
  rw [hmode, hv, hm]

/-- With no text set, no DOT mode, int32 fields and a successful allocation,
lv_badge_refr_text stores the numeric rendering. -/
theorem refr_text_text_of_none (obj : lv_obj_t) (w : lv_world_t) (ht : w.badge.text = none)
    (hmode : w.badge.mode ≠ .LV_BADGE_MODE_DOT) (hv : is_int32 w.badge.value)
    (hm : is_int32 w.badge.max_value) (hok : next_alloc_ok w.host = true) :
    (lv_badge_refr_text obj w).badge.text = some (spec_numeric_text w.badge) := by
  have hfree : next_alloc_ok (free_dynamic_text w).host = true := by
    rw [next_alloc_ok_free]; exact hok
  unfold lv_badge_refr_text spec_numeric_text
  simp only [ht, ne_eq, not_true_eq_false, if_false, hmode]
  split
  · simp only [lv_snprintf_fmt_d_plus _ hm]
    exact copy_text_to_badge_text_of_ok _ w hfree
  · simp only [lv_snprintf_fmt_d _ hv]
    exact copy_text_to_badge_text_of_ok _ w hfree

/-- With int32 fields, outside DOT mode and with a successful allocation,
lv_badge_set_text(obj, NULL) leaves the numeric rendering in badge->text. -/
theorem set_text_none_text (obj : lv_obj_t) (w : lv_world_t)
    (hnd : w.badge.mode ≠ .LV_BADGE_MODE_DOT)
    (hv : is_int32 w.badge.value) (hm : is_int32 w.badge.max_value)
    (hok : next_alloc_ok w.host = true) :
    (lv_badge_set_text obj none w).badge.text = some (spec_numeric_text w.badge) := by
  have hfb : (free_dynamic_text w).badge.mode = w.badge.mode ∧
      (free_dynamic_text w).badge.value = w.badge.value ∧
      (free_dynamic_text w).badge.max_value = w.badge.max_value := by
    unfold free_dynamic_text
    split
    · split <;> simp
    · simp
  obtain ⟨h1, h2, h3⟩ := hfb
  unfold lv_badge_set_text
  simp only
  rw [refr_text_text_of_none obj _ rfl (by simpa [h1] using hnd) (by simpa [h2] using hv)
    (by simpa [h3] using hm) (by simpa [next_alloc_ok_free] using hok)]
  exact congrArg some (spec_numeric_text_congr _ _ h1 h2 h3)

/-- For every badge state and every string t held by the caller, if the allocation of
the copy succeeds, lv_badge_set_text(obj, t) followed by lv_badge_get_text(obj) returns a
string with the content of t. -/
theorem set_text_then_get_text (obj : lv_obj_t) (w : lv_world_t) (t : String)
    (hok : next_alloc_ok w.host = true) :
    lv_badge_get_text (lv_badge_set_text obj (some t) w) = some t := by
  have hfree : next_alloc_ok (free_dynamic_text (free_dynamic_text w)).host = true := by
    rw [next_alloc_ok_free, next_alloc_ok_free]; exact hok
  have hcopy := copy_text_to_badge_text_of_ok t (free_dynamic_text w) hfree
  unfold lv_badge_get_text lv_badge_set_text
  simp only
  rw [refr_text_of_text_some obj _ t hcopy]
  exact hcopy

/-- C3 as stated fails when the allocation of the generated text fails: a badge with
value 0 in NUMBER mode and custom text NEW, on a host whose third allocation fails, has
no text at all after lv_badge_set_text(obj, NULL), and nothing is drawn as text. -/
theorem C3_counterexample :
    (lv_badge_set_text 1 (some "NEW")
      (lv_badge_create 1 { events := [], alloc := [true, true, false], log := [] })).badge.mode
        = .LV_BADGE_MODE_NUMBER ∧
    lv_badge_get_text (lv_badge_set_text 1 none (lv_badge_set_text 1 (some "NEW")
      (lv_badge_create 1 { events := [], alloc := [true, true, false], log := [] }))) = none ∧
    spec_numeric_text (lv_badge_set_text 1 (some "NEW")
      (lv_badge_create 1 { events := [], alloc := [true, true, false], log := [] })).badge = "0" ∧
    drawn_texts (draw_main (fun _ => ⟨0, 0, 19, 19⟩) 1 (lv_badge_set_text 1 none
      (lv_badge_set_text 1 (some "NEW")
        (lv_badge_create 1 { events := [], alloc := [true, true, false], log := [] }))).badge) = [] := by
  decide

/-- C3, amended: for every badge state in NUMBER or MAX mode with int32 value and
max_value, whatever custom text was set before, if the allocation of the generated text
succeeds then after lv_badge_set_text(obj, NULL) the displayed text is the numeric
rendering: the decimal of max_value followed by a plus sign when the mode is MAX and
value > max_value, the decimal of value otherwise.  It is the text lv_badge_get_text
returns and the one label draw_main draws for a visible badge. -/
theorem C3_set_text_null_numeric (G : lv_obj_t → lv_area_t) (obj : lv_obj_t) (w : lv_world_t)
    (hmode : w.badge.mode = .LV_BADGE_MODE_NUMBER ∨ w.badge.mode = .LV_BADGE_MODE_MAX)
    (hv : is_int32 w.badge.value) (hm : is_int32 w.badge.max_value)
    (hok : next_alloc_ok w.host = true) :
    lv_badge_get_text (lv_badge_set_text obj none w) =
      some (if w.badge.mode = .LV_BADGE_MODE_MAX ∧ w.badge.value > w.badge.max_value
        then fmt_d w.badge.max_value ++ "+" else fmt_d w.badge.value) ∧
    drawn_texts (draw_main G obj (lv_badge_set_text obj none w).badge) =
      if w.badge.visible then
        [if w.badge.mode = .LV_BADGE_MODE_MAX ∧ w.badge.value > w.badge.max_value
          then fmt_d w.badge.max_value ++ "+" else fmt_d w.badge.value]
      else [] := by
  have hnd : w.badge.mode ≠ .LV_BADGE_MODE_DOT := by
    rcases hmode with h | h <;> rw [h] <;> decide
  have ht := set_text_none_text obj w hnd hv hm hok
  obtain ⟨hvis, hmd⟩ := same_but_text_visible_mode _ _ (set_text_same obj none w)
  refine ⟨ht, ?_⟩
  rw [drawn_texts_of_text G obj _ _ ht (lv_strlen_spec_numeric_text_pos w.badge)
    (by rw [hmd]; exact hnd), hvis]
  rfl

/-- Witness of C3: value 150 over max_value 99 in MAX mode, custom text NEW set before. -/
theorem C3_set_text_null_numeric_witness :
    (((lv_world_t.mk (lv_badge_t.mk 150 99 (some "NEW") none .LV_BADGE_ATTACH_TOP_RIGHT 0 0
        .LV_BADGE_MODE_MAX false true false) .fresh).badge.mode = .LV_BADGE_MODE_NUMBER ∨
      (lv_world_t.mk (lv_badge_t.mk 150 99 (some "NEW") none .LV_BADGE_ATTACH_TOP_RIGHT 0 0
        .LV_BADGE_MODE_MAX false true false) .fresh).badge.mode = .LV_BADGE_MODE_MAX) ∧
     is_int32 150 ∧ is_int32 99 ∧ next_alloc_ok lv_host_t.fresh = true) ∧
    (lv_badge_get_text (lv_badge_set_text 1 none
        (lv_world_t.mk (lv_badge_t.mk 150 99 (some "NEW") none .LV_BADGE_ATTACH_TOP_RIGHT 0 0
          .LV_BADGE_MODE_MAX false true false) .fresh)) = some "99+" ∧
      drawn_texts (draw_main example_coords 1 (lv_badge_set_text 1 none
        (lv_world_t.mk (lv_badge_t.mk 150 99 (some "NEW") none .LV_BADGE_ATTACH_TOP_RIGHT 0 0
          .LV_BADGE_MODE_MAX false true false) .fresh)).badge) = ["99+"]) :=
  ⟨⟨Or.inr rfl, by decide, by decide, rfl⟩,
   C3_set_text_null_numeric example_coords 1 _ (Or.inr rfl) (by decide) (by decide) rfl⟩

/-- C4, evaluated on the code: lv_badge_get_text does not return NULL for a badge that
uses its numeric value.  For a freshly created badge, and again after
lv_badge_set_text(obj, NULL), it returns the generated text "0". -/
theorem C4_get_text_returns_generated_text (obj : lv_obj_t) :
    lv_badge_get_text (lv_badge_create obj .fresh) = some "0" ∧
    lv_badge_get_text (lv_badge_set_text obj none (lv_badge_create obj .fresh)) = some "0" := by
  have h0 := create_badge_of_ok obj .fresh rfl
  refine ⟨by unfold lv_badge_get_text; rw [h0], ?_⟩
  have h := set_text_none_text obj (lv_badge_create obj .fresh)
    (by rw [h0]; decide) (by rw [h0]; decide) (by rw [h0]; decide) ?_
  · unfold lv_badge_get_text
    rw [h, h0]
    decide
  · show next_alloc_ok (lv_badge_constructor obj .fresh).host = true
    unfold lv_badge_constructor lv_badge_refr_text
    simp [copy_text_to_badge, free_dynamic_text, lv_malloc, lv_call, lv_host_t.fresh, next_alloc_ok]

/-! ## Lemmas on attachment and position -/

theorem update_position_log_of_attached (G : lv_obj_t → lv_area_t) (obj t : lv_obj_t)
    (w : lv_world_t) (hatt : w.badge.attached = true) (htgt : w.badge.target = some t) :
    (lv_badge_update_position G obj w).host.log =
      w.host.log ++ [.lv_obj_get_coords t, .lv_obj_get_coords obj,
        spec_set_pos G obj t w.badge.attach_pos w.badge.offset_x w.badge.offset_y] := by
  unfold lv_badge_update_position spec_set_pos spec_position
  simp only [hatt, htgt, lv_call, lv_area_get_width, lv_area_get_height]
  cases w.badge.attach_pos <;> simp

theorem update_position_badge (G : lv_obj_t → lv_area_t) (obj : lv_obj_t) (w : lv_world_t) :
    (lv_badge_update_position G obj w).badge = w.badge := by
  unfold lv_badge_update_position
  split <;> rfl

theorem update_position_of_detached (G : lv_obj_t → lv_area_t) (obj : lv_obj_t) (w : lv_world_t)
    (h : w.badge.attached = false) : lv_badge_update_position G obj w = w := by
  unfold lv_badge_update_position
  split
  · rename_i h1 _
    rw [h] at h1
    cases h1
  · rfl

theorem position_steps_spec (G : lv_obj_t → lv_area_t) (obj target : lv_obj_t)
    (pos : lv_badge_attach_pos_t) (ox oy : Int) (hfit : position_fits G obj target pos ox oy) :
    is_int32 (spec_position pos (G target).x1 (G target).y1 (G target).x2 (G target).y2
      (lv_area_get_width (G obj)) (lv_area_get_height (G obj)) ox oy).1 ∧
    is_int32 (spec_position pos (G target).x1 (G target).y1 (G target).x2 (G target).y2
      (lv_area_get_width (G obj)) (lv_area_get_height (G obj)) ox oy).2 := by
  unfold position_fits position_steps at hfit
  unfold spec_position
  cases pos <;> exact ⟨hfit _ (by simp [lv_area_get_width]), hfit _ (by simp [lv_area_get_height])⟩

theorem detach_of_not_attached (w : lv_world_t) (h : w.badge.attached = false) :
    lv_badge_detach w = w := by
  unfold lv_badge_detach
  split
  · rename_i _ h1
    rw [h] at h1
    cases h1
  · rfl

theorem detach_of_attached (w : lv_world_t) (t : lv_obj_t) (hatt : w.badge.attached = true)
    (htgt : w.badge.target = some t) :
    lv_badge_detach w =
      { badge := { w.badge with target := none, attached := false },
        host := lv_obj_remove_event_cb t .target_event_handler w.host } := by
  unfold lv_badge_detach
  simp [hatt, htgt]

theorem detach_attached (w : lv_world_t) :
    (lv_badge_detach w).badge.attached = true →
      (lv_badge_detach w).badge.target = w.badge.target ∧ w.badge.attached = true := by
  unfold lv_badge_detach
  split
  · simp
  · intro h
    exact ⟨rfl, h⟩

theorem free_dynamic_text_frame (w : lv_world_t) :
    (free_dynamic_text w).badge.attached = w.badge.attached ∧
    (free_dynamic_text w).badge.target = w.badge.target ∧
    ∃ calls, (free_dynamic_text w).host.log = w.host.log ++ calls ∧
      ∀ c ∈ calls, c.object = none := by
  unfold free_dynamic_text
  split
  · split
    · refine ⟨rfl, rfl, [.lv_free _], rfl, ?_⟩
      intro c hc
      simp at hc
      rw [hc]
      rfl
    · exact ⟨rfl, rfl, [], by simp, by simp⟩
  · exact ⟨rfl, rfl, [], by simp, by simp⟩

/-- On a badge that is not attached and has no target, each of lv_badge_set_offset,
lv_badge_detach, a target event and the destructor leaves it so, and calls the host on
no object. -/
theorem after_delete_run (G : lv_obj_t → lv_area_t) (obj : lv_obj_t) (op : lv_badge_op_t)
    (w : lv_world_t) (hop : op.after_delete = true) (ha : w.badge.attached = false)
    (ht : w.badge.target = none) :
    (op.run G obj w).badge.attached = false ∧ (op.run G obj w).badge.target = none ∧
    ∃ calls, (op.run G obj w).host.log = w.host.log ++ calls ∧
      ∀ c ∈ calls, c.object = none := by
  cases op with
  | set_offset x y =>
    refine ⟨?_, ?_, [], ?_, by simp⟩ <;>
      simp [lv_badge_op_t.run, lv_badge_set_offset, ha, ht]
  | detach =>
    simp only [lv_badge_op_t.run, detach_of_not_attached w ha]
    exact ⟨ha, ht, [], by simp, by simp⟩
  | target_event code =>
    have h1 : target_event_handler G obj code w = w := by
      unfold target_event_handler
      split
      · exact update_position_of_detached G obj w ha
      · split
        · exact detach_of_not_attached w ha
        · rfl
    simp only [lv_badge_op_t.run, h1]
    exact ⟨ha, ht, [], by simp, by simp⟩
  | destructor =>
    have h1 : lv_badge_destructor w = free_dynamic_text w := by
      unfold lv_badge_destructor
      simp [ha]
    simp only [lv_badge_op_t.run, h1]
    obtain ⟨f1, f2, f3⟩ := free_dynamic_text_frame w
    exact ⟨f1.trans ha, f2.trans ht, f3⟩
  | set_value _ => cases hop
  | set_max_value _ => cases hop
  | set_text _ => cases hop
  | set_mode _ => cases hop
  | set_visible _ => cases hop
  | attach_to _ _ => cases hop

theorem after_delete_run_ops (G : Nat → lv_obj_t → lv_area_t) (obj : lv_obj_t)
    (ops : List lv_badge_op_t) (w : lv_world_t) (hops : ∀ op ∈ ops, op.after_delete = true)
    (ha : w.badge.attached = false) (ht : w.badge.target = none) :
    (run_ops G obj ops w).badge.attached = false ∧ (run_ops G obj ops w).badge.target = none ∧
    ∃ calls, (run_ops G obj ops w).host.log = w.host.log ++ calls ∧
      ∀ c ∈ calls, c.object = none := by
  induction ops generalizing w with
  | nil => exact ⟨ha, ht, [], by simp [run_ops], by simp⟩
  | cons op rest ih =>
    obtain ⟨a1, t1, c1, l1, o1⟩ := after_delete_run (G w.host.log.length) obj op w
      (hops op (List.mem_cons_self _ _)) ha ht
    obtain ⟨a2, t2, c2, l2, o2⟩ := ih (op.run (G w.host.log.length) obj w)
      (fun o ho => hops o (List.mem_cons_of_mem _ ho)) a1 t1
    refine ⟨a2, t2, c1 ++ c2, ?_, ?_⟩
    · show (run_ops G obj rest _).host.log = _
      rw [l2, l1, List.append_assoc]
    · intro c hc
      rcases List.mem_append.mp hc with h | h
      · exact o1 c h
      · exact o2 c h

/-- C6: when LV_EVENT_DELETE of the target reaches target_event_handler for an attached
badge, the badge ends with attached == 0 and target == NULL and lv_badge_get_target
returns NULL; after any later lv_badge_set_offset, lv_badge_detach, target events and
destructor this is still so, and none of the host calls they make is on the old target. -/
theorem C6_target_delete_detaches (G0 : lv_obj_t → lv_area_t) (G : Nat → lv_obj_t → lv_area_t)
    (obj t : lv_obj_t) (w : lv_world_t) (ops : List lv_badge_op_t)
    (hatt : w.badge.attached = true) (htgt : w.badge.target = some t)
    (hops : ∀ op ∈ ops, op.after_delete = true) :
    (target_event_handler G0 obj .LV_EVENT_DELETE w).badge.attached = false ∧
    (target_event_handler G0 obj .LV_EVENT_DELETE w).badge.target = none ∧
    lv_badge_get_target (target_event_handler G0 obj .LV_EVENT_DELETE w) = none ∧
    (run_ops G obj ops (target_event_handler G0 obj .LV_EVENT_DELETE w)).badge.attached = false ∧
    (run_ops G obj ops (target_event_handler G0 obj .LV_EVENT_DELETE w)).badge.target = none ∧
    lv_badge_get_target (run_ops G obj ops (target_event_handler G0 obj .LV_EVENT_DELETE w))
      = none ∧
    ∃ calls, (run_ops G obj ops (target_event_handler G0 obj .LV_EVENT_DELETE w)).host.log =
        (target_event_handler G0 obj .LV_EVENT_DELETE w).host.log ++ calls ∧
      ∀ c ∈ calls, c.object ≠ some t := by
  have h1 : target_event_handler G0 obj .LV_EVENT_DELETE w =
      { badge := { w.badge with target := none, attached := false },
        host := lv_obj_remove_event_cb t .target_event_handler w.host } := by
    unfold target_event_handler
    simp only [reduceCtorEq, or_self, if_false, if_true]
    exact detach_of_attached w t hatt htgt
  rw [h1]
  obtain ⟨a2, t2, calls, l2, o2⟩ := after_delete_run_ops G obj ops
    { badge := { w.badge with target := none, attached := false },
      host := lv_obj_remove_event_cb t .target_event_handler w.host } hops rfl rfl
  refine ⟨rfl, rfl, rfl, a2, t2, ?_, calls, l2, ?_⟩
  · unfold lv_badge_get_target
    simp [a2]
  · intro c hc hct
    rw [o2 c hc] at hct
    cases hct


/-- Witness of C6: the button of example 1 is deleted; then the offset is set, the
button sends one more event, the badge is detached and destroyed. -/
theorem C6_target_delete_detaches_witness :
    (lv_example_badge_1.badge.attached = true ∧ lv_example_badge_1.badge.target = some 2 ∧
      ∀ op ∈ [lv_badge_op_t.set_offset 5 (-5), .target_event .LV_EVENT_SIZE_CHANGED, .detach,
        .destructor], op.after_delete = true) ∧
    ((target_event_handler example_coords 1 .LV_EVENT_DELETE lv_example_badge_1).badge.attached
        = false ∧
      (target_event_handler example_coords 1 .LV_EVENT_DELETE lv_example_badge_1).badge.target
        = none ∧
      lv_badge_get_target (target_event_handler example_coords 1 .LV_EVENT_DELETE
        lv_example_badge_1) = none ∧
      (run_ops (fun _ => example_coords) 1
        [.set_offset 5 (-5), .target_event .LV_EVENT_SIZE_CHANGED, .detach, .destructor]
        (target_event_handler example_coords 1 .LV_EVENT_DELETE
          lv_example_badge_1)).badge.attached = false ∧
      (run_ops (fun _ => example_coords) 1
        [.set_offset 5 (-5), .target_event .LV_EVENT_SIZE_CHANGED, .detach, .destructor]
        (target_event_handler example_coords 1 .LV_EVENT_DELETE
          lv_example_badge_1)).badge.target = none ∧
      lv_badge_get_target (run_ops (fun _ => example_coords) 1
        [.set_offset 5 (-5), .target_event .LV_EVENT_SIZE_CHANGED, .detach, .destructor]
        (target_event_handler example_coords 1 .LV_EVENT_DELETE lv_example_badge_1)) = none ∧
      ∃ calls, (run_ops (fun _ => example_coords) 1
          [.set_offset 5 (-5), .target_event .LV_EVENT_SIZE_CHANGED, .detach, .destructor]
          (target_event_handler example_coords 1 .LV_EVENT_DELETE
            lv_example_badge_1)).host.log =
          (target_event_handler example_coords 1 .LV_EVENT_DELETE
            lv_example_badge_1).host.log ++ calls ∧
        ∀ c ∈ calls, c.object ≠ some 2) :=
  ⟨⟨by decide, by decide, by decide⟩,
   C6_target_delete_detaches example_coords (fun _ => example_coords) 1 2 lv_example_badge_1
     [.set_offset 5 (-5), .target_event .LV_EVENT_SIZE_CHANGED, .detach, .destructor]
     (by decide) (by decide) (by decide)⟩

/-! ## Lemmas on the attachment fields -/

theorem copy_text_to_badge_frame (text : Option String) (w : lv_world_t) :
    (copy_text_to_badge text w).badge.attached = w.badge.attached ∧
    (copy_text_to_badge text w).badge.target = w.badge.target := by
  obtain ⟨f1, f2, _⟩ := free_dynamic_text_frame w
  unfold copy_text_to_badge
  cases text with
  | none => exact ⟨f1, f2⟩
  | some t =>
    simp only
    split <;> exact ⟨f1, f2⟩

theorem refr_text_frame (obj : lv_obj_t) (w : lv_world_t) :
    (lv_badge_refr_text obj w).badge.attached = w.badge.attached ∧
    (lv_badge_refr_text obj w).badge.target = w.badge.target := by
  unfold lv_badge_refr_text
  split
  · exact ⟨rfl, rfl⟩
  · simp only
    split
    · exact ⟨rfl, rfl⟩
    · split <;> exact copy_text_to_badge_frame _ w

theorem set_value_frame (obj : lv_obj_t) (v : Int) (w : lv_world_t) :
    (lv_badge_set_value obj v w).badge.attached = w.badge.attached ∧
    (lv_badge_set_value obj v w).badge.target = w.badge.target := by
  unfold lv_badge_set_value
  split
  · exact refr_text_frame obj _
  · exact ⟨rfl, rfl⟩

theorem set_max_value_frame (obj : lv_obj_t) (m : Int) (w : lv_world_t) :
    (lv_badge_set_max_value obj m w).badge.attached = w.badge.attached ∧
    (lv_badge_set_max_value obj m w).badge.target = w.badge.target := by
  unfold lv_badge_set_max_value
  split
  · exact refr_text_frame obj _
  · exact ⟨rfl, rfl⟩

theorem set_mode_frame (obj : lv_obj_t) (m : lv_badge_mode_t) (w : lv_world_t) :
    (lv_badge_set_mode obj m w).badge.attached = w.badge.attached ∧
    (lv_badge_set_mode obj m w).badge.target = w.badge.target := by
  unfold lv_badge_set_mode
  split
  · exact refr_text_frame obj _
  · exact ⟨rfl, rfl⟩

theorem set_text_frame (obj : lv_obj_t) (text : Option String) (w : lv_world_t) :
    (lv_badge_set_text obj text w).badge.attached = w.badge.attached ∧
    (lv_badge_set_text obj text w).badge.target = w.badge.target := by
  obtain ⟨f1, f2, _⟩ := free_dynamic_text_frame w
  unfold lv_badge_set_text
  cases text with
  | none =>
    obtain ⟨r1, r2⟩ := refr_text_frame obj
      { free_dynamic_text w with
        badge := { (free_dynamic_text w).badge with static_txt := true, text := none } }
    exact ⟨r1.trans f1, r2.trans f2⟩
  | some t =>
    obtain ⟨r1, r2⟩ := refr_text_frame obj (copy_text_to_badge (some t) (free_dynamic_text w))
    obtain ⟨c1, c2⟩ := copy_text_to_badge_frame (some t) (free_dynamic_text w)
    exact ⟨r1.trans (c1.trans f1), r2.trans (c2.trans f2)⟩

/-- Every operation keeps: attached == 1 implies target != NULL. -/
theorem run_attached_has_target (G : lv_obj_t → lv_area_t) (obj : lv_obj_t)
    (op : lv_badge_op_t) (w : lv_world_t)
    (hinv : w.badge.attached = true → w.badge.target ≠ none) :
    (op.run G obj w).badge.attached = true → (op.run G obj w).badge.target ≠ none := by
  cases op with
  | set_value v =>
    obtain ⟨f1, f2⟩ := set_value_frame obj v w
    simp only [lv_badge_op_t.run, f1, f2]; exact hinv
  | set_max_value m =>
    obtain ⟨f1, f2⟩ := set_max_value_frame obj m w
    simp only [lv_badge_op_t.run, f1, f2]; exact hinv
  | set_text t =>
    obtain ⟨f1, f2⟩ := set_text_frame obj t w
    simp only [lv_badge_op_t.run, f1, f2]; exact hinv
  | set_mode m =>
    obtain ⟨f1, f2⟩ := set_mode_frame obj m w
    simp only [lv_badge_op_t.run, f1, f2]; exact hinv
  | set_visible v =>
    simp only [lv_badge_op_t.run, lv_badge_set_visible]
    split <;> exact hinv
  | attach_to target pos =>
    simp only [lv_badge_op_t.run, lv_badge_attach_to, update_position_badge]
    intro _ h
    cases h
  | set_offset x y =>
    simp only [lv_badge_op_t.run, lv_badge_set_offset]
    split
    · rw [update_position_badge]; exact hinv
    · exact hinv
  | detach =>
    simp only [lv_badge_op_t.run]
    intro h
    obtain ⟨h1, h2⟩ := detach_attached w h
    rw [h1]; exact hinv h2
  | target_event code =>
    simp only [lv_badge_op_t.run, target_event_handler]
    split
    · rw [update_position_badge]; exact hinv
    · split
      · intro h
        obtain ⟨h1, h2⟩ := detach_attached w h
        rw [h1]; exact hinv h2
      · exact hinv
  | destructor =>
    simp only [lv_badge_op_t.run, lv_badge_destructor]
    obtain ⟨f1, f2, _⟩ := free_dynamic_text_frame (if w.badge.attached = true then
      lv_badge_detach w else w)
    rw [f1, f2]
    split
    · intro h
      obtain ⟨h1, h2⟩ := detach_attached w h
      rw [h1]; exact hinv h2
    · exact hinv

theorem run_ops_attached_has_target (G : Nat → lv_obj_t → lv_area_t) (obj : lv_obj_t)
    (ops : List lv_badge_op_t) (w : lv_world_t)
    (hinv : w.badge.attached = true → w.badge.target ≠ none) :
    (run_ops G obj ops w).badge.attached = true → (run_ops G obj ops w).badge.target ≠ none := by
  induction ops generalizing w with
  | nil => exact hinv
  | cons op rest ih =>
    exact ih _ (run_attached_has_target (G w.host.log.length) obj op w hinv)

theorem create_not_attached (obj : lv_obj_t) (h : lv_host_t) :
    (lv_badge_create obj h).badge.attached = false := by
  unfold lv_badge_create lv_badge_constructor
  rw [(refr_text_frame obj _).1]

/-- C8: starting from a freshly constructed badge, after every sequence of
lv_badge_attach_to (with a non-null target), lv_badge_detach, lv_badge_set_offset, target
events, the value, text, mode and visibility setters (and the destructor), whatever the
allocator does, attached == 1 implies target != NULL. -/
theorem C8_attached_implies_target (G : Nat → lv_obj_t → lv_area_t) (obj : lv_obj_t)
    (h : lv_host_t) (ops : List lv_badge_op_t)
    (hatt : (run_ops G obj ops (lv_badge_create obj h)).badge.attached = true) :
    (run_ops G obj ops (lv_badge_create obj h)).badge.target ≠ none := by
  apply run_ops_attached_has_target G obj ops (lv_badge_create obj h) _ hatt
  intro hc
  rw [create_not_attached] at hc
  cases hc

/-- Witness of C8: a badge that is given a value, attached, moved, and whose target is
resized, is attached and has a target. -/
theorem C8_attached_implies_target_witness :
    (run_ops (fun _ => example_coords) 1
      [.set_value 5, .attach_to 2 .LV_BADGE_ATTACH_TOP_RIGHT, .set_offset 5 (-5),
        .target_event .LV_EVENT_SIZE_CHANGED, .set_text (some "NEW"), .set_visible false]
      (lv_badge_create 1 .fresh)).badge.attached = true ∧
    (run_ops (fun _ => example_coords) 1
      [.set_value 5, .attach_to 2 .LV_BADGE_ATTACH_TOP_RIGHT, .set_offset 5 (-5),
        .target_event .LV_EVENT_SIZE_CHANGED, .set_text (some "NEW"), .set_visible false]
      (lv_badge_create 1 .fresh)).badge.target ≠ none :=
  ⟨by decide, C8_attached_implies_target (fun _ => example_coords) 1 .fresh
    [.set_value 5, .attach_to 2 .LV_BADGE_ATTACH_TOP_RIGHT, .set_offset 5 (-5),
      .target_event .LV_EVENT_SIZE_CHANGED, .set_text (some "NEW"), .set_visible false]
    (by decide)⟩

/-- C9: lv_badge_detach on a badge that is not attached changes no field of the badge,
removes no observer and calls nothing; for every state, detaching twice gives the same
state as detaching once. -/
theorem C9_detach_idempotent (w : lv_world_t) :
    (w.badge.attached = false → lv_badge_detach w = w) ∧
    lv_badge_detach (lv_badge_detach w) = lv_badge_detach w := by
  refine ⟨detach_of_not_attached w, ?_⟩
  cases htgt : w.badge.target with
  | none =>
    have h1 : lv_badge_detach w = w := by
      unfold lv_badge_detach
      simp [htgt]
    rw [h1, h1]
  | some t =>
    cases hatt : w.badge.attached with
    | false =>
      have h1 := detach_of_not_attached w hatt
      rw [h1, h1]
    | true =>
      rw [detach_of_attached w t hatt htgt]
      exact detach_of_not_attached _ rfl

/-- Witness of C9: a freshly created badge is not attached, and detaching it changes
nothing. -/
theorem C9_detach_idempotent_witness :
    (lv_badge_create 1 .fresh).badge.attached = false ∧
    lv_badge_detach (lv_badge_create 1 .fresh) = lv_badge_create 1 .fresh ∧
    lv_badge_detach (lv_badge_detach (lv_badge_create 1 .fresh)) =
      lv_badge_detach (lv_badge_create 1 .fresh) :=
  ⟨by decide, (C9_detach_idempotent (lv_badge_create 1 .fresh)).1 (by decide),
    (C9_detach_idempotent (lv_badge_create 1 .fresh)).2⟩

/-! ## Evaluations on a fresh badge and on a scene of two badges -/

theorem create_fresh (obj : lv_obj_t) :
    lv_badge_create obj .fresh =
      { badge := { value := 0, max_value := 99, text := some "0", target := none,
                   attach_pos := .LV_BADGE_ATTACH_TOP_RIGHT, offset_x := 0, offset_y := 0,
                   mode := .LV_BADGE_MODE_NUMBER, static_txt := false, visible := true,
                   attached := false },
        host := { events := [], alloc := [],
                  log := [.lv_obj_remove_flag obj
                            [.LV_OBJ_FLAG_SCROLLABLE, .LV_OBJ_FLAG_CLICK_FOCUSABLE],
                          .lv_obj_add_flag obj [.LV_OBJ_FLAG_FLOATING],
                          .lv_obj_set_size obj LV_SIZE_CONTENT LV_SIZE_CONTENT,
                          .lv_malloc 2 true,
                          .lv_obj_invalidate obj] } } := by
  have h0 : lv_snprintf 16 (fmt_d 0) = "0" := by decide
  have h1 : lv_strlen "0" = 1 := by decide
  unfold lv_badge_create lv_badge_constructor lv_badge_refr_text
  simp [copy_text_to_badge, free_dynamic_text, lv_malloc, lv_call, lv_host_t.fresh, h0, h1]

/-- C7, evaluated on the code: two badges, 1 and 3, are attached to the same target 2 (as
in example 5) and badge 3 is detached.  lv_obj_remove_event_cb looks at the callback
only and removes the entry of badge 1: badge 1 still has attached == 1 and target 2, but
the only entry left on the target carries badge 3, so no entry carries badge 1. -/
theorem C7_detach_drops_observer_of_other_badge :
    ((run_scene example_coords
      [.create 1, .create 3, .attach_to 1 2 .LV_BADGE_ATTACH_TOP_LEFT,
        .attach_to 3 2 .LV_BADGE_ATTACH_TOP_RIGHT, .detach 3] .empty).badges 1).map
        (fun b => (b.attached, b.target)) = some (true, some 2) ∧
    (run_scene example_coords
      [.create 1, .create 3, .attach_to 1 2 .LV_BADGE_ATTACH_TOP_LEFT,
        .attach_to 3 2 .LV_BADGE_ATTACH_TOP_RIGHT, .detach 3] .empty).host.events =
      [{ obj := 2, cb := .target_event_handler, filter := .LV_EVENT_ALL, user_data := 3 }] ∧
    (run_scene example_coords
      [.create 1, .create 3, .attach_to 1 2 .LV_BADGE_ATTACH_TOP_LEFT,
        .attach_to 3 2 .LV_BADGE_ATTACH_TOP_RIGHT, .detach 3] .empty).observes 1 2 = false ∧
    (run_scene example_coords
      [.create 1, .create 3, .attach_to 1 2 .LV_BADGE_ATTACH_TOP_LEFT,
        .attach_to 3 2 .LV_BADGE_ATTACH_TOP_RIGHT, .detach 3] .empty).attached_observed 1
      = false := by
  decide

/-- C10, evaluated on the code: on a freshly created badge lv_badge_set_mode(obj,
LV_BADGE_MODE_DOT) makes two calls of lv_obj_invalidate and nothing else, so the badge
is never given the size 8 x 8 (its size is as the constructor left it); no text is
drawn for it. -/
theorem C10_dot_mode_requests_no_size (G : lv_obj_t → lv_area_t) (obj : lv_obj_t) :
    (lv_badge_set_mode obj .LV_BADGE_MODE_DOT (lv_badge_create obj .fresh)).host.log =
      (lv_badge_create obj .fresh).host.log ++
        [.lv_obj_invalidate obj, .lv_obj_invalidate obj] ∧
    lv_call_t.lv_obj_set_size obj 8 8 ∉
      (lv_badge_set_mode obj .LV_BADGE_MODE_DOT (lv_badge_create obj .fresh)).host.log ∧
    drawn_texts (draw_main G obj
      (lv_badge_set_mode obj .LV_BADGE_MODE_DOT (lv_badge_create obj .fresh)).badge) = [] := by
  have hs : ¬ (8 : Int) = LV_SIZE_CONTENT := by decide
  rw [create_fresh]
  simp [lv_badge_set_mode, lv_badge_refr_text, lv_call, draw_main, drawn_texts, hs]

/-! ## The draw path and the numeric setters -/

/-- C11 as stated fails in DOT mode: a visible badge with the custom text NEW, put in DOT
mode, is drawn as the dot alone; its text is not displayed. -/
theorem C11_counterexample :
    (lv_badge_set_mode 1 .LV_BADGE_MODE_DOT
      (lv_badge_set_text 1 (some "NEW") (lv_badge_create 1 .fresh))).badge.visible = true ∧
    (lv_badge_set_mode 1 .LV_BADGE_MODE_DOT
      (lv_badge_set_text 1 (some "NEW") (lv_badge_create 1 .fresh))).badge.text = some "NEW" ∧
    draw_main example_coords 1 (lv_badge_set_mode 1 .LV_BADGE_MODE_DOT
      (lv_badge_set_text 1 (some "NEW") (lv_badge_create 1 .fresh))).badge =
      [.lv_draw_rect ⟨0, 0, 19, 19⟩ 0xff4757 LV_OPA_COVER LV_RADIUS_CIRCLE none] ∧
    drawn_texts (draw_main example_coords 1 (lv_badge_set_mode 1 .LV_BADGE_MODE_DOT
      (lv_badge_set_text 1 (some "NEW") (lv_badge_create 1 .fresh))).badge) = [] := by
  decide

/-- C11, amended: for every visible badge with text != NULL, in NUMBER and MAX mode the draw
path displays text verbatim regardless of value and max_value (a non-empty text is the one
label drawn, for an empty text no label is drawn); in DOT mode no text is drawn. -/
theorem C11_text_drawn_verbatim (G : lv_obj_t → lv_area_t) (obj : lv_obj_t) (b : lv_badge_t)
    (s : String) (hvis : b.visible = true) (ht : b.text = some s) :
    drawn_texts (draw_main G obj b) =
      if b.mode = .LV_BADGE_MODE_DOT then [] else if 0 < lv_strlen s then [s] else [] := by
  unfold draw_main
  by_cases hm : b.mode = .LV_BADGE_MODE_DOT
  · simp [hvis, hm, drawn_texts]
  · by_cases hs : 0 < lv_strlen s
    · simp [hvis, hm, ht, hs, drawn_texts]
    · simp [hvis, hm, ht, hs, drawn_texts]

/-- Witness of C11: the badge of example 2, with the custom text NEW in NUMBER mode. -/
theorem C11_text_drawn_verbatim_witness :
    ((lv_badge_set_text 1 (some "NEW") (lv_badge_create 1 .fresh)).badge.visible = true ∧
      (lv_badge_set_text 1 (some "NEW") (lv_badge_create 1 .fresh)).badge.text = some "NEW") ∧
    drawn_texts (draw_main example_coords 1
      (lv_badge_set_text 1 (some "NEW") (lv_badge_create 1 .fresh)).badge) = ["NEW"] :=
  ⟨⟨by decide, by decide⟩,
   C11_text_drawn_verbatim example_coords 1
     (lv_badge_set_text 1 (some "NEW") (lv_badge_create 1 .fresh)).badge "NEW"
     (by decide) (by decide)⟩

/-- C12: lv_badge_set_value with the current value and lv_badge_set_max_value with the
current max_value change nothing: no field of the badge, no host call (no regeneration,
invalidation or resize).  With a different argument the call is lv_badge_refr_text on the
state in which only that numeric field is updated; every field but value (or max_value),
text and static_txt is as before. -/
theorem C12_numeric_setters (obj : lv_obj_t) (w : lv_world_t) (v m : Int)
    (hv : v ≠ w.badge.value) (hm : m ≠ w.badge.max_value) :
    lv_badge_set_value obj w.badge.value w = w ∧
    lv_badge_set_max_value obj w.badge.max_value w = w ∧
    lv_badge_set_value obj v w =
      lv_badge_refr_text obj { w with badge := { w.badge with value := v } } ∧
    lv_badge_set_max_value obj m w =
      lv_badge_refr_text obj { w with badge := { w.badge with max_value := m } } ∧
    lv_badge_t.same_but_text { w.badge with value := v } (lv_badge_set_value obj v w).badge ∧
    lv_badge_t.same_but_text { w.badge with max_value := m }
      (lv_badge_set_max_value obj m w).badge := by
  have h1 : lv_badge_set_value obj v w =
      lv_badge_refr_text obj { w with badge := { w.badge with value := v } } := by
    unfold lv_badge_set_value
    rw [if_pos (fun h => hv h.symm)]
  have h2 : lv_badge_set_max_value obj m w =
      lv_badge_refr_text obj { w with badge := { w.badge with max_value := m } } := by
    unfold lv_badge_set_max_value
    rw [if_pos (fun h => hm h.symm)]
  refine ⟨?_, ?_, h1, h2, ?_, ?_⟩
  · unfold lv_badge_set_value
    simp
  · unfold lv_badge_set_max_value
    simp
  · rw [h1]
    exact refr_text_same obj _
  · rw [h2]
    exact refr_text_same obj _

/-- Witness of C12: a freshly created badge (value 0, max_value 99) given 5 and 50. -/
theorem C12_numeric_setters_witness :
    ((5 : Int) ≠ (lv_badge_create 1 .fresh).badge.value ∧
      (50 : Int) ≠ (lv_badge_create 1 .fresh).badge.max_value) ∧
    (lv_badge_set_value 1 (lv_badge_create 1 .fresh).badge.value (lv_badge_create 1 .fresh) =
        lv_badge_create 1 .fresh ∧
      lv_badge_set_max_value 1 (lv_badge_create 1 .fresh).badge.max_value
        (lv_badge_create 1 .fresh) = lv_badge_create 1 .fresh ∧
      lv_badge_set_value 1 5 (lv_badge_create 1 .fresh) =
        lv_badge_refr_text 1 { lv_badge_create 1 .fresh with
          badge := { (lv_badge_create 1 .fresh).badge with value := 5 } } ∧
      lv_badge_set_max_value 1 50 (lv_badge_create 1 .fresh) =
        lv_badge_refr_text 1 { lv_badge_create 1 .fresh with
          badge := { (lv_badge_create 1 .fresh).badge with max_value := 50 } } ∧
      lv_badge_t.same_but_text { (lv_badge_create 1 .fresh).badge with value := 5 }
        (lv_badge_set_value 1 5 (lv_badge_create 1 .fresh)).badge ∧
      lv_badge_t.same_but_text { (lv_badge_create 1 .fresh).badge with max_value := 50 }
        (lv_badge_set_max_value 1 50 (lv_badge_create 1 .fresh)).badge) :=
  ⟨⟨by decide, by decide⟩,
   C12_numeric_setters 1 (lv_badge_create 1 .fresh) 5 50 (by decide) (by decide)⟩

end LvBadge

namespace LvSkeleton

open LvBadge (lv_obj_t lv_obj_flag_t LV_SIZE_CONTENT LV_OPA_COVER LV_RADIUS_CIRCLE)

/-! ## Lemmas on the animation handle -/

theorem lv_malloc_of_succeed (h : lv_host_t) (hal : allocations_succeed h) :
    (lv_malloc h).1 = some h.next_addr ∧ allocations_succeed (lv_malloc h).2 := by
  unfold lv_malloc
  cases hc : h.alloc with
  | nil =>
    refine ⟨rfl, ?_⟩
    intro b hb
    simp [hc] at hb
  | cons a rest =>
    have ha : a = true := hal a (by simp [hc])
    subst ha
    refine ⟨rfl, ?_⟩
    intro b hb
    exact hal b (by rw [hc]; exact List.mem_cons_of_mem _ hb)

theorem lv_malloc_alloc_sublist (h : lv_host_t) (b : Bool) (hb : b ∈ (lv_malloc h).2.alloc) :
    b ∈ h.alloc := by
  unfold lv_malloc at hb
  cases hc : h.alloc with
  | nil => simp [hc] at hb
  | cons a rest =>
    cases a <;> simp [hc] at hb <;> simp [hb]

theorem stop_animation_fields (w : lv_world_t) :
    (lv_skeleton_stop_animation w).skeleton.anim = none ∧
    (lv_skeleton_stop_animation w).skeleton.active = w.skeleton.active ∧
    (lv_skeleton_stop_animation w).skeleton.anim_type = w.skeleton.anim_type ∧
    (lv_skeleton_stop_animation w).host.alloc = w.host.alloc := by
  unfold lv_skeleton_stop_animation
  cases ha : w.skeleton.anim with
  | none => simp [ha]
  | some a => simp [lv_free, lv_anim_delete]

theorem stop_animation_of_none (w : lv_world_t) (h : w.skeleton.anim = none) :
    lv_skeleton_stop_animation w = w := by
  unfold lv_skeleton_stop_animation
  simp [h]

theorem start_animation_fields (w : lv_world_t) :
    (lv_skeleton_start_animation w).skeleton.active = w.skeleton.active ∧
    (lv_skeleton_start_animation w).skeleton.anim_type = w.skeleton.anim_type ∧
    (∀ b ∈ (lv_skeleton_start_animation w).host.alloc, b ∈ w.host.alloc) := by
  obtain ⟨s1, s2, s3, s4⟩ := stop_animation_fields w
  unfold lv_skeleton_start_animation
  simp only
  split
  · exact ⟨s2, s3, fun b hb => by rw [s4] at hb; exact hb⟩
  · split
    · refine ⟨s2, s3, fun b hb => ?_⟩
      have := lv_malloc_alloc_sublist _ b hb
      rw [s4] at this
      exact this
    · refine ⟨s2, s3, fun b hb => ?_⟩
      have hb2 : b ∈ (lv_malloc (lv_skeleton_stop_animation w).host).2.alloc := hb
      have := lv_malloc_alloc_sublist _ b hb2
      rw [s4] at this
      exact this

theorem start_animation_anim (w : lv_world_t) (hal : allocations_succeed w.host) :
    ((lv_skeleton_start_animation w).skeleton.anim ≠ none ↔
      w.skeleton.anim_type ≠ .LV_SKELETON_ANIM_NONE) := by
  obtain ⟨s1, s2, s3, s4⟩ := stop_animation_fields w
  have hal1 : allocations_succeed (lv_skeleton_stop_animation w).host := by
    intro b hb
    rw [s4] at hb
    exact hal b hb
  have hm := (lv_malloc_of_succeed _ hal1).1
  unfold lv_skeleton_start_animation
  simp only
  split
  · rename_i hn
    rw [s3] at hn
    simp [s1, hn]
  · rename_i hn
    rw [s3] at hn
    rw [hm]
    simp [hn]

theorem start_animation_inv (w : lv_world_t) (hal : allocations_succeed w.host)
    (hact : w.skeleton.active = true) :
    allocations_succeed (lv_skeleton_start_animation w).host ∧
    ((lv_skeleton_start_animation w).skeleton.anim ≠ none ↔
      ((lv_skeleton_start_animation w).skeleton.active = true ∧
        (lv_skeleton_start_animation w).skeleton.anim_type ≠ .LV_SKELETON_ANIM_NONE)) := by
  obtain ⟨f1, f2, f3⟩ := start_animation_fields w
  refine ⟨fun b hb => hal b (f3 b hb), ?_⟩
  rw [start_animation_anim w hal, f1, f2, hact]
  simp

theorem stop_animation_inv (w : lv_world_t) (hal : allocations_succeed w.host)
    (hact : w.skeleton.active = false) :
    allocations_succeed (lv_skeleton_stop_animation w).host ∧
    ((lv_skeleton_stop_animation w).skeleton.anim ≠ none ↔
      ((lv_skeleton_stop_animation w).skeleton.active = true ∧
        (lv_skeleton_stop_animation w).skeleton.anim_type ≠ .LV_SKELETON_ANIM_NONE)) := by
  obtain ⟨s1, s2, s3, s4⟩ := stop_animation_fields w
  refine ⟨fun b hb => hal b (by rw [s4] at hb; exact hb), ?_⟩
  rw [s1, s2, hact]
  simp

/-- The invariant of the animation handle: anim != NULL iff active and anim_type is not
NONE. -/
theorem run_anim_iff (lv_trigo_sin : Int → Int) (op : lv_skeleton_op_t) (w : lv_world_t)
    (hal : allocations_succeed w.host)
    (hinv : w.skeleton.anim ≠ none ↔
      (w.skeleton.active = true ∧ w.skeleton.anim_type ≠ .LV_SKELETON_ANIM_NONE)) :
    allocations_succeed (op.run lv_trigo_sin w).host ∧
    ((op.run lv_trigo_sin w).skeleton.anim ≠ none ↔
      ((op.run lv_trigo_sin w).skeleton.active = true ∧
        (op.run lv_trigo_sin w).skeleton.anim_type ≠ .LV_SKELETON_ANIM_NONE)) := by
  cases op with
  | set_shape s =>
    simp only [lv_skeleton_op_t.run, lv_skeleton_set_shape, apply_shape_defaults,
      lv_world_t.on_obj]
    split
    · split <;> (try split) <;> (try split) <;> exact ⟨hal, hinv⟩
    · exact ⟨hal, hinv⟩
  | set_animation_type t =>
    simp only [lv_skeleton_op_t.run, lv_skeleton_set_animation_type]
    split
    · obtain ⟨s1, s2, s3, s4⟩ := stop_animation_fields w
      have hal1 : allocations_succeed (lv_skeleton_stop_animation w).host := by
        intro b hb
        rw [s4] at hb
        exact hal b hb
      split
      · rename_i hact
        refine start_animation_inv _ ?_ ?_
        · exact hal1
        · exact hact
      · rename_i hact
        refine ⟨hal1, ?_⟩
        have hact2 : (lv_skeleton_stop_animation w).skeleton.active = false := by
          simpa using hact
        simp [s1, hact2]
    · exact ⟨hal, hinv⟩
  | set_anim_time n =>
    simp only [lv_skeleton_op_t.run, lv_skeleton_set_anim_time]
    split
    · rename_i hact ha
      have hact2 : w.skeleton.active = true := hact
      have ha2 : w.skeleton.anim ≠ none := by
        have : w.skeleton.anim = some _ := ha
        rw [this]
        simp
      refine ⟨hal, ?_⟩
      have := hinv.mp ha2
      simp [this.1, this.2]
    · exact ⟨hal, hinv⟩
  | set_wave_length n => exact ⟨hal, hinv⟩
  | set_active a =>
    simp only [lv_skeleton_op_t.run, lv_skeleton_set_active]
    split
    · cases a with
      | true =>
        simp only [if_true]
        refine start_animation_inv _ ?_ ?_
        · exact hal
        · rfl
      | false =>
        simp only [Bool.false_eq_true, if_false]
        refine stop_animation_inv _ ?_ ?_
        · exact hal
        · rfl
    · exact ⟨hal, hinv⟩
  | set_base_color c => exact ⟨hal, hinv⟩
  | set_highlight_color c => exact ⟨hal, hinv⟩
  | set_template t =>
    simp only [lv_skeleton_op_t.run, lv_skeleton_set_template, apply_template_layout]
    split <;> exact ⟨hal, hinv⟩
  | set_size width height => exact ⟨hal, hinv⟩
  | anim_tick i value =>
    simp only [lv_skeleton_op_t.run, lv_anim_tick]
    split
    · split
      · split <;> exact ⟨hal, hinv⟩
      · exact ⟨hal, hinv⟩
    · exact ⟨hal, hinv⟩

theorem run_ops_anim_iff (lv_trigo_sin : Int → Int) (ops : List lv_skeleton_op_t)
    (w : lv_world_t) (hal : allocations_succeed w.host)
    (hinv : w.skeleton.anim ≠ none ↔
      (w.skeleton.active = true ∧ w.skeleton.anim_type ≠ .LV_SKELETON_ANIM_NONE)) :
    ((run_ops lv_trigo_sin ops w).skeleton.anim ≠ none ↔
      ((run_ops lv_trigo_sin ops w).skeleton.active = true ∧
        (run_ops lv_trigo_sin ops w).skeleton.anim_type ≠ .LV_SKELETON_ANIM_NONE)) := by
  induction ops generalizing w with
  | nil => exact hinv
  | cons op rest ih =>
    obtain ⟨h1, h2⟩ := run_anim_iff lv_trigo_sin op w hal hinv
    exact ih _ h1 h2

/-- C13: if the allocations succeed, then from a freshly constructed skeleton, after every
sequence of lv_skeleton_set_active, lv_skeleton_set_animation_type,
lv_skeleton_set_anim_time, lv_skeleton_set_wave_length, lv_skeleton_set_shape,
lv_skeleton_set_base_color, lv_skeleton_set_highlight_color and lv_skeleton_set_template
(also lv_skeleton_set_size and ticks of the animation engine), anim != NULL holds if and
only if active == 1 and anim_type != LV_SKELETON_ANIM_NONE. -/
theorem C13_anim_iff_active (lv_trigo_sin : Int → Int) (parent : Option lv_obj_t)
    (h : lv_host_t) (ops : List lv_skeleton_op_t) (hal : allocations_succeed h) :
    ((run_ops lv_trigo_sin ops (lv_skeleton_create parent h)).skeleton.anim ≠ none ↔
      ((run_ops lv_trigo_sin ops (lv_skeleton_create parent h)).skeleton.active = true ∧
        (run_ops lv_trigo_sin ops (lv_skeleton_create parent h)).skeleton.anim_type ≠
          .LV_SKELETON_ANIM_NONE)) := by
  apply run_ops_anim_iff
  · exact hal
  · simp [lv_skeleton_create, lv_skeleton_constructor, lv_skeleton_update_appearance,
      lv_world_t.on_obj]

/-- Witness of C13: the wave skeleton of example 2, with every allocation succeeding. -/
theorem C13_anim_iff_active_witness :
    allocations_succeed lv_host_t.fresh ∧
    ((run_ops (fun _ => 0)
        [.set_animation_type .LV_SKELETON_ANIM_WAVE, .set_anim_time 2000, .set_active true]
        (lv_skeleton_create none .fresh)).skeleton.anim ≠ none ↔
      ((run_ops (fun _ => 0)
          [.set_animation_type .LV_SKELETON_ANIM_WAVE, .set_anim_time 2000, .set_active true]
          (lv_skeleton_create none .fresh)).skeleton.active = true ∧
        (run_ops (fun _ => 0)
          [.set_animation_type .LV_SKELETON_ANIM_WAVE, .set_anim_time 2000, .set_active true]
          (lv_skeleton_create none .fresh)).skeleton.anim_type ≠ .LV_SKELETON_ANIM_NONE)) :=
  ⟨(fun _ hb => (List.not_mem_nil _ hb).elim),
   C13_anim_iff_active (fun _ => 0) none lv_host_t.fresh
     [.set_animation_type .LV_SKELETON_ANIM_WAVE, .set_anim_time 2000, .set_active true]
     (fun _ hb => (List.not_mem_nil _ hb).elim)⟩

end LvSkeleton

namespace LvSkeleton

open LvBadge (lv_obj_t lv_obj_flag_t LV_SIZE_CONTENT LV_OPA_COVER LV_RADIUS_CIRCLE)

/-! ## Stopping, the engine, and the shape defaults -/

theorem stop_animation_running_on (o : lv_obj_t) (w : lv_world_t) :
    running_on o (lv_skeleton_stop_animation w).host = running_on o w.host := by
  unfold lv_skeleton_stop_animation
  cases ha : w.skeleton.anim with
  | none => rfl
  | some a =>
    simp only [running_on, lv_free, lv_anim_delete, List.filter_filter]
    apply List.filter_congr
    intro x _
    by_cases hx : x.var = some (.obj o)
    · simp [hx]
    · simp [hx]

/-- C14, evaluated on the code: the animation lv_skeleton_stop_animation fails to
delete goes on driving the skeleton.  After create, set_active(true), set_active(false),
one tick of that animation (pulse_anim_cb with the value 76) and
set_animation_type(NONE), the skeleton is a reachable state with active == 0 and
anim == NULL; from it set_active(true) then set_active(false) leave active == 0 and
anim == NULL, but the background opacity at 76, not at LV_OPA_COVER. -/
theorem C14_opacity_not_reset :
    (run_ops (fun _ => 0) [.set_active true, .set_active false, .anim_tick 0 76]
      (lv_skeleton_create none .fresh)).skeleton.obj.bg_opa = some 76 ∧
    (lv_skeleton_set_active false (lv_skeleton_set_active true
      (run_ops (fun _ => 0)
        [.set_active true, .set_active false, .anim_tick 0 76,
          .set_animation_type .LV_SKELETON_ANIM_NONE]
        (lv_skeleton_create none .fresh)))).skeleton.active = false ∧
    (lv_skeleton_set_active false (lv_skeleton_set_active true
      (run_ops (fun _ => 0)
        [.set_active true, .set_active false, .anim_tick 0 76,
          .set_animation_type .LV_SKELETON_ANIM_NONE]
        (lv_skeleton_create none .fresh)))).skeleton.anim = none ∧
    (lv_skeleton_set_active false (lv_skeleton_set_active true
      (run_ops (fun _ => 0)
        [.set_active true, .set_active false, .anim_tick 0 76,
          .set_animation_type .LV_SKELETON_ANIM_NONE]
        (lv_skeleton_create none .fresh)))).skeleton.obj.bg_opa = some 76 ∧
    LV_OPA_COVER ≠ 76 := by
  decide

/-- C15, evaluated on the code: lv_skeleton_stop_animation calls lv_anim_delete with the
address of the handle, not with the object the animation was started for, so it removes
no animation that drives an object, whatever the state.  After set_active(true) and
set_active(false) on a fresh skeleton one animation still drives it; after a further
set_active(true) two do. -/
theorem C15_stop_deletes_no_animation (o : lv_obj_t) (w : lv_world_t) :
    running_on o (lv_skeleton_stop_animation w).host = running_on o w.host ∧
    (lv_skeleton_create none .fresh).skeleton.obj.addr = 1 ∧
    (running_on 1 (lv_skeleton_set_active false (lv_skeleton_set_active true
      (lv_skeleton_create none .fresh))).host).length = 1 ∧
    (running_on 1 (lv_skeleton_set_active true (lv_skeleton_set_active false
      (lv_skeleton_set_active true (lv_skeleton_create none .fresh)))).host).length = 2 := by
  refine ⟨stop_animation_running_on o w, ?_, ?_, ?_⟩ <;> decide

theorem create_obj (parent : Option lv_obj_t) (h : lv_host_t) :
    (lv_skeleton_create parent h).skeleton.obj =
      { addr := h.next_addr, parent := parent, width := 100, height := 20,
        bg_opa := some LV_OPA_COVER, hidden := false,
        calls := [.lv_obj_remove_flag [.LV_OBJ_FLAG_SCROLLABLE, .LV_OBJ_FLAG_CLICK_FOCUSABLE],
                  .lv_obj_set_size 100 20,
                  .lv_obj_set_style_bg_color LV_SKELETON_DEF_BASE_COLOR,
                  .lv_obj_set_style_bg_opa LV_OPA_COVER,
                  .lv_obj_invalidate] } := by
  simp [lv_skeleton_create, lv_skeleton_constructor, lv_skeleton_update_appearance,
    lv_world_t.on_obj, lv_obj_class_create_obj, lv_obj_remove_flag, lv_obj_set_size,
    lv_obj_set_style_bg_opa, lv_obj_call]

theorem apply_shape_defaults_world (w : lv_world_t) :
    apply_shape_defaults w =
      { w with skeleton := { w.skeleton with obj := (apply_shape_defaults w).skeleton.obj } } := by
  obtain ⟨⟨o, shape, bc, hc, ty, an, tm, wl, tp, ac, cc⟩, h⟩ := w
  unfold apply_shape_defaults
  cases shape <;>
    by_cases hw : o.width = LV_SIZE_CONTENT <;>
    by_cases hh : o.height = LV_SIZE_CONTENT <;>
    simp [hw, hh, lv_world_t.on_obj, lv_obj_get_width, lv_obj_get_height, lv_obj_set_width,
      lv_obj_set_height, lv_obj_call]

/-- What apply_shape_defaults does, for every state: only the width and the height of the
object can change, each to the default of the shape and only from LV_SIZE_CONTENT; the
calls recorded are the lv_obj_set_width and lv_obj_set_height made. -/
theorem apply_shape_defaults_spec (w : lv_world_t) :
    (apply_shape_defaults w).skeleton.obj.width =
      (match shape_default_size w.skeleton.shape with
        | some d => if w.skeleton.obj.width = LV_SIZE_CONTENT then d.1 else w.skeleton.obj.width
        | none => w.skeleton.obj.width) ∧
    (apply_shape_defaults w).skeleton.obj.height =
      (match shape_default_size w.skeleton.shape with
        | some d => if w.skeleton.obj.height = LV_SIZE_CONTENT then d.2 else w.skeleton.obj.height
        | none => w.skeleton.obj.height) ∧
    (apply_shape_defaults w).skeleton.obj.calls = w.skeleton.obj.calls ++
      (match shape_default_size w.skeleton.shape with
        | some d =>
          (if w.skeleton.obj.width = LV_SIZE_CONTENT then [.lv_obj_set_width d.1] else []) ++
          (if w.skeleton.obj.height = LV_SIZE_CONTENT then [.lv_obj_set_height d.2] else [])
        | none => []) ∧
    (apply_shape_defaults w).skeleton.obj.addr = w.skeleton.obj.addr ∧
    (apply_shape_defaults w).skeleton.obj.parent = w.skeleton.obj.parent ∧
    (apply_shape_defaults w).skeleton.obj.bg_opa = w.skeleton.obj.bg_opa ∧
    (apply_shape_defaults w).skeleton.obj.hidden = w.skeleton.obj.hidden := by
  unfold apply_shape_defaults
  cases hs : w.skeleton.shape <;>
    by_cases hw : w.skeleton.obj.width = LV_SIZE_CONTENT <;>
    by_cases hh : w.skeleton.obj.height = LV_SIZE_CONTENT <;>
    simp [hw, hh, shape_default_size, lv_world_t.on_obj, lv_obj_get_width,
      lv_obj_get_height, lv_obj_set_width, lv_obj_set_height, lv_obj_call]

theorem set_shape_of_sized (s : lv_skeleton_shape_t) (w : lv_world_t)
    (hw : w.skeleton.obj.width ≠ LV_SIZE_CONTENT) (hh : w.skeleton.obj.height ≠ LV_SIZE_CONTENT) :
    (lv_skeleton_set_shape s w).skeleton.obj =
      if w.skeleton.shape = s then w.skeleton.obj
      else lv_obj_call .lv_obj_invalidate w.skeleton.obj := by
  obtain ⟨⟨o, shape, bc, hc, ty, an, tm, wl, tp, ac, cc⟩, h⟩ := w
  have hw2 : ¬ o.width = LV_SIZE_CONTENT := hw
  have hh2 : ¬ o.height = LV_SIZE_CONTENT := hh
  unfold lv_skeleton_set_shape apply_shape_defaults
  cases s <;> cases shape <;>
    simp [hw2, hh2, lv_world_t.on_obj, lv_obj_get_width, lv_obj_get_height]

/-- C16, evaluated on the code: the constructor gives every skeleton the size 100 x 20, so
on a freshly created skeleton no dimension is LV_SIZE_CONTENT and lv_skeleton_set_shape
applies no default: whatever the shape, the size stays 100 x 20 and no call of
lv_obj_set_width or lv_obj_set_height is made (only lv_obj_invalidate, when the shape
changes). -/
theorem C16_fresh_skeleton_keeps_constructor_size (parent : Option lv_obj_t) (h : lv_host_t)
    (s : lv_skeleton_shape_t) :
    (lv_skeleton_create parent h).skeleton.obj.width = 100 ∧
    (lv_skeleton_create parent h).skeleton.obj.height = 20 ∧
    (lv_skeleton_set_shape s (lv_skeleton_create parent h)).skeleton.obj.width = 100 ∧
    (lv_skeleton_set_shape s (lv_skeleton_create parent h)).skeleton.obj.height = 20 ∧
    (lv_skeleton_set_shape s (lv_skeleton_create parent h)).skeleton.obj.calls =
      (lv_skeleton_create parent h).skeleton.obj.calls ++
        (if s = .LV_SKELETON_SHAPE_RECT then [] else [.lv_obj_invalidate]) := by
  have hc := create_obj parent h
  have hshape : (lv_skeleton_create parent h).skeleton.shape = .LV_SKELETON_SHAPE_RECT := by
    simp [lv_skeleton_create, lv_skeleton_constructor, lv_skeleton_update_appearance,
      lv_world_t.on_obj]
  have c100 : ¬ (100 : Int) = LV_SIZE_CONTENT := by decide
  have c20 : ¬ (20 : Int) = LV_SIZE_CONTENT := by decide
  have h100 : (lv_skeleton_create parent h).skeleton.obj.width ≠ LV_SIZE_CONTENT := by
    rw [hc]; exact c100
  have h20 : (lv_skeleton_create parent h).skeleton.obj.height ≠ LV_SIZE_CONTENT := by
    rw [hc]; exact c20
  have key := set_shape_of_sized s (lv_skeleton_create parent h) h100 h20
  rw [hshape] at key
  refine ⟨by rw [hc], by rw [hc], ?_⟩
  rw [key]
  by_cases hs : s = .LV_SKELETON_SHAPE_RECT
  · subst hs
    simp [hc]
  · have hs2 : ¬ lv_skeleton_shape_t.LV_SKELETON_SHAPE_RECT = s := fun e => hs e.symm
    simp [hs, hs2, hc, lv_obj_call]

/-- C17: lv_skeleton_set_shape with the current shape changes nothing.  With a different
shape s it stores s and, for each axis on its own, sets the width (the height) to the
default of s only if the current width (height) is LV_SIZE_CONTENT; any other dimension
is left as it is, RECT and CUSTOM never change the size, and nothing else of the
skeleton or of the host changes but the calls recorded on the object. -/
theorem C17_set_shape_frame (s : lv_skeleton_shape_t) (w : lv_world_t)
    (hs : s ≠ w.skeleton.shape) :
    lv_skeleton_set_shape w.skeleton.shape w = w ∧
    (lv_skeleton_set_shape s w).skeleton.shape = s ∧
    (lv_skeleton_set_shape s w).skeleton.obj.width =
      (match shape_default_size s with
        | some d => if w.skeleton.obj.width = LV_SIZE_CONTENT then d.1 else w.skeleton.obj.width
        | none => w.skeleton.obj.width) ∧
    (lv_skeleton_set_shape s w).skeleton.obj.height =
      (match shape_default_size s with
        | some d => if w.skeleton.obj.height = LV_SIZE_CONTENT then d.2 else w.skeleton.obj.height
        | none => w.skeleton.obj.height) ∧
    lv_skeleton_set_shape s w =
      { skeleton := { w.skeleton with shape := s, obj := (lv_skeleton_set_shape s w).skeleton.obj },
        host := w.host } ∧
    (lv_skeleton_set_shape s w).skeleton.obj.addr = w.skeleton.obj.addr ∧
    (lv_skeleton_set_shape s w).skeleton.obj.parent = w.skeleton.obj.parent ∧
    (lv_skeleton_set_shape s w).skeleton.obj.bg_opa = w.skeleton.obj.bg_opa ∧
    (lv_skeleton_set_shape s w).skeleton.obj.hidden = w.skeleton.obj.hidden := by
  refine ⟨by simp [lv_skeleton_set_shape], ?_⟩
  obtain ⟨a2, a3, a4, a5, a6, a7, a8⟩ := apply_shape_defaults_spec
    { w with skeleton := { w.skeleton with shape := s } }
  have a1 := apply_shape_defaults_world { w with skeleton := { w.skeleton with shape := s } }
  unfold lv_skeleton_set_shape
  rw [if_pos (fun e => hs e.symm)]
  simp only [lv_world_t.on_obj, lv_obj_call]
  refine ⟨?_, a2, a3, ?_, a5, a6, a7, a8⟩
  · rw [a1]
  · rw [a1]

/-- Witness of C17: a skeleton whose width is LV_SIZE_CONTENT and whose height is 50, made
a circle: the width becomes 40, the height stays 50. -/
theorem C17_set_shape_frame_witness :
    lv_skeleton_shape_t.LV_SKELETON_SHAPE_CIRCLE ≠
      (lv_skeleton_set_size LV_SIZE_CONTENT 50 (lv_skeleton_create none .fresh)).skeleton.shape ∧
    (lv_skeleton_set_shape
        (lv_skeleton_set_size LV_SIZE_CONTENT 50 (lv_skeleton_create none .fresh)).skeleton.shape
        (lv_skeleton_set_size LV_SIZE_CONTENT 50 (lv_skeleton_create none .fresh)) =
        (lv_skeleton_set_size LV_SIZE_CONTENT 50 (lv_skeleton_create none .fresh)) ∧
      (lv_skeleton_set_shape .LV_SKELETON_SHAPE_CIRCLE
        (lv_skeleton_set_size LV_SIZE_CONTENT 50 (lv_skeleton_create none .fresh))).skeleton.shape =
        .LV_SKELETON_SHAPE_CIRCLE ∧
      (lv_skeleton_set_shape .LV_SKELETON_SHAPE_CIRCLE
        (lv_skeleton_set_size LV_SIZE_CONTENT 50 (lv_skeleton_create none .fresh))).skeleton.obj.width = 40 ∧
      (lv_skeleton_set_shape .LV_SKELETON_SHAPE_CIRCLE
        (lv_skeleton_set_size LV_SIZE_CONTENT 50 (lv_skeleton_create none .fresh))).skeleton.obj.height = 50 ∧
      lv_skeleton_set_shape .LV_SKELETON_SHAPE_CIRCLE
        (lv_skeleton_set_size LV_SIZE_CONTENT 50 (lv_skeleton_create none .fresh)) =
        lv_world_t.mk
          { (lv_skeleton_set_size LV_SIZE_CONTENT 50 (lv_skeleton_create none .fresh)).skeleton with
            shape := .LV_SKELETON_SHAPE_CIRCLE,
            obj := (lv_skeleton_set_shape .LV_SKELETON_SHAPE_CIRCLE
              (lv_skeleton_set_size LV_SIZE_CONTENT 50 (lv_skeleton_create none .fresh))).skeleton.obj }
          (lv_skeleton_set_size LV_SIZE_CONTENT 50 (lv_skeleton_create none .fresh)).host ∧
      (lv_skeleton_set_shape .LV_SKELETON_SHAPE_CIRCLE
        (lv_skeleton_set_size LV_SIZE_CONTENT 50 (lv_skeleton_create none .fresh))).skeleton.obj.addr =
        (lv_skeleton_set_size LV_SIZE_CONTENT 50 (lv_skeleton_create none .fresh)).skeleton.obj.addr ∧
      (lv_skeleton_set_shape .LV_SKELETON_SHAPE_CIRCLE
        (lv_skeleton_set_size LV_SIZE_CONTENT 50 (lv_skeleton_create none .fresh))).skeleton.obj.parent =
        (lv_skeleton_set_size LV_SIZE_CONTENT 50 (lv_skeleton_create none .fresh)).skeleton.obj.parent ∧
      (lv_skeleton_set_shape .LV_SKELETON_SHAPE_CIRCLE
        (lv_skeleton_set_size LV_SIZE_CONTENT 50 (lv_skeleton_create none .fresh))).skeleton.obj.bg_opa =
        (lv_skeleton_set_size LV_SIZE_CONTENT 50 (lv_skeleton_create none .fresh)).skeleton.obj.bg_opa ∧
      (lv_skeleton_set_shape .LV_SKELETON_SHAPE_CIRCLE
        (lv_skeleton_set_size LV_SIZE_CONTENT 50 (lv_skeleton_create none .fresh))).skeleton.obj.hidden =
        (lv_skeleton_set_size LV_SIZE_CONTENT 50 (lv_skeleton_create none .fresh)).skeleton.obj.hidden) :=
  ⟨by decide,
   C17_set_shape_frame .LV_SKELETON_SHAPE_CIRCLE
     (lv_skeleton_set_size LV_SIZE_CONTENT 50 (lv_skeleton_create none .fresh))
     (by decide)⟩

end LvSkeleton

namespace LvSkeleton

open LvBadge (lv_obj_t lv_obj_flag_t LV_SIZE_CONTENT LV_OPA_COVER LV_RADIUS_CIRCLE)

/-! ## The list of items -/

theorem uint32_pred_lt (count i : Nat) (hcount : count < 4294967296) (hi : i < count) :
    (i < uint32_pred count ↔ i + 1 < count) := by
  unfold uint32_pred
  omega

theorem create_list_body_spec (container : lv_obj_t) (template : lv_skeleton_template_t)
    (count : Nat) (spacing : Int) (i : Nat) (h : lv_host_t)
    (hlt : i < uint32_pred count ↔ i + 1 < count) :
    lv_skeleton_create_list_body container template count spacing i h =
      (spec_list_item container template count spacing i h,
       (spec_item_factory template (some container) h).2) := by
  unfold lv_skeleton_create_list_body spec_list_item spec_item_factory
  cases template <;> by_cases h1 : i + 1 < count <;> simp [hlt, h1]

theorem create_list_loop_step (container : lv_obj_t) (template : lv_skeleton_template_t)
    (count : Nat) (spacing : Int) (n i : Nat) (st : List lv_object_t × lv_host_t) :
    lv_skeleton_create_list_loop container template count spacing (n + 1) i st =
      lv_skeleton_create_list_loop container template count spacing n (i + 1)
        (st.1 ++ [(lv_skeleton_create_list_body container template count spacing i st.2).1],
         (lv_skeleton_create_list_body container template count spacing i st.2).2) := by
  rfl

theorem create_list_loop_spec (container : lv_obj_t) (template : lv_skeleton_template_t)
    (count : Nat) (spacing : Int) (hcount : count < 4294967296) (n : Nat) :
    ∀ (i : Nat) (st : List lv_object_t × lv_host_t), i + n = count →
      ∃ items : List lv_object_t,
        (lv_skeleton_create_list_loop container template count spacing n i st).1 =
          st.1 ++ items ∧
        items.length = n ∧
        ∀ j, j < n → ∃ hj, items.get? j =
          some (spec_list_item container template count spacing (i + j) hj) := by
  induction n with
  | zero =>
    intro i st _
    exact ⟨[], by simp [lv_skeleton_create_list_loop], rfl, fun j hj => absurd hj (by omega)⟩
  | succ n ih =>
    intro i st hin
    rw [create_list_loop_step container template count spacing n i st,
      create_list_body_spec container template count spacing i st.2
        (uint32_pred_lt count i hcount (by omega))]
    obtain ⟨items, e1, e2, e3⟩ := ih (i + 1)
      (st.1 ++ [spec_list_item container template count spacing i st.2],
       (spec_item_factory template (some container) st.2).2) (by omega)
    refine ⟨spec_list_item container template count spacing i st.2 :: items, ?_, ?_, ?_⟩
    · rw [e1]
      simp
    · simp [e2]
    · intro j hj
      cases j with
      | zero => exact ⟨st.2, by simp⟩
      | succ j =>
        obtain ⟨hj2, e⟩ := e3 j (by omega)
        refine ⟨hj2, ?_⟩
        have : i + (j + 1) = i + 1 + j := by omega
        rw [this]
        simpa using e

theorem item_factory_no_margin_bottom (template : lv_skeleton_template_t)
    (parent : Option lv_obj_t) (h : lv_host_t) (v : Int) :
    lv_obj_call_t.lv_obj_set_style_margin_bottom v ∉
      (spec_item_factory template parent h).1.base.calls := by
  cases template <;>
    simp [spec_item_factory, lv_world_t.leaf, lv_object_t.base, create_obj,
      lv_skeleton_create_article, lv_skeleton_create_profile, lv_skeleton_create_card,
      lv_skeleton_create_list_item, lv_skeleton_create_contact, lv_skeleton_create_product,
      lv_obj_call, lv_obj_remove_style_all, lv_obj_set_style_bg_opa, lv_obj_create,
      lv_obj_class_create_obj]

/-- C18: for every template, spacing and count (a uint32_t), the object
lv_skeleton_create_list returns is a container of the base class under the parent, with
exactly count children; the child at index i is what the factory of the template builds
under the container (a plain skeleton for NONE and CUSTOM), given the bottom margin
spacing if it is not the last, and left as built if it is the last (no factory gives
the item it returns a bottom margin); for count == 0 the container has no child. -/
theorem C18_create_list_children (parent : Option lv_obj_t) (template : lv_skeleton_template_t)
    (count : Nat) (spacing : Int) (h : lv_host_t) (hcount : count < 4294967296) :
    (∃ o cs, (lv_skeleton_create_list parent template count spacing h).1 = .plain o cs) ∧
    (lv_skeleton_create_list parent template count spacing h).1.base.parent = parent ∧
    (lv_skeleton_create_list parent template count spacing h).1.children.length = count ∧
    (count = 0 → (lv_skeleton_create_list parent template count spacing h).1.children = []) ∧
    (∀ p hi v, lv_obj_call_t.lv_obj_set_style_margin_bottom v ∉
      (spec_item_factory template p hi).1.base.calls) ∧
    ∀ i, i < count → ∃ hi,
      (lv_skeleton_create_list parent template count spacing h).1.children.get? i =
        some (if i + 1 < count then
          (spec_item_factory template
            (some (lv_skeleton_create_list parent template count spacing h).1.base.addr)
            hi).1.on_obj (lv_obj_call (.lv_obj_set_style_margin_bottom spacing))
        else
          (spec_item_factory template
            (some (lv_skeleton_create_list parent template count spacing h).1.base.addr)
            hi).1) := by
  obtain ⟨items, e1, e2, e3⟩ := create_list_loop_spec h.next_addr template count spacing
    hcount count 0 ([], (lv_obj_create parent h).2) (by omega)
  have hch : (lv_skeleton_create_list parent template count spacing h).1.children = items := by
    simp only [lv_skeleton_create_list, lv_object_t.children, lv_obj_call,
      lv_obj_remove_style_all, lv_obj_create, lv_obj_class_create_obj]
    simpa using e1
  refine ⟨⟨_, _, rfl⟩, rfl, ?_, ?_, item_factory_no_margin_bottom template, ?_⟩
  · rw [hch, e2]
  · intro h0
    rw [hch]
    exact List.length_eq_zero.mp (by rw [e2, h0])
  · intro i hi
    obtain ⟨hj, e⟩ := e3 i hi
    refine ⟨hj, ?_⟩
    rw [hch, e]
    simp [spec_list_item, lv_skeleton_create_list, lv_object_t.base, lv_obj_call,
      lv_obj_remove_style_all, lv_obj_create, lv_obj_class_create_obj]

/-- Witness of C18: the list of example 6, four list items with spacing 16. -/
theorem C18_create_list_children_witness :
    (4 : Nat) < 4294967296 ∧
    ((∃ o cs, (lv_skeleton_create_list none .LV_SKELETON_TEMPLATE_LIST_ITEM 4 16 .fresh).1 = .plain o cs) ∧
      (lv_skeleton_create_list none .LV_SKELETON_TEMPLATE_LIST_ITEM 4 16 .fresh).1.base.parent = none ∧
      (lv_skeleton_create_list none .LV_SKELETON_TEMPLATE_LIST_ITEM 4 16 .fresh).1.children.length = 4 ∧
      ((4 : Nat) = 0 →
        (lv_skeleton_create_list none .LV_SKELETON_TEMPLATE_LIST_ITEM 4 16 .fresh).1.children = []) ∧
      (∀ p hi v, lv_obj_call_t.lv_obj_set_style_margin_bottom v ∉
        (spec_item_factory .LV_SKELETON_TEMPLATE_LIST_ITEM p hi).1.base.calls) ∧
      ∀ i, i < 4 → ∃ hi,
        (lv_skeleton_create_list none .LV_SKELETON_TEMPLATE_LIST_ITEM 4 16 .fresh).1.children.get? i =
          some (if i + 1 < 4 then
            (spec_item_factory .LV_SKELETON_TEMPLATE_LIST_ITEM
              (some (lv_skeleton_create_list none .LV_SKELETON_TEMPLATE_LIST_ITEM 4 16 .fresh).1.base.addr)
              hi).1.on_obj (lv_obj_call (.lv_obj_set_style_margin_bottom 16))
          else
            (spec_item_factory .LV_SKELETON_TEMPLATE_LIST_ITEM
              (some (lv_skeleton_create_list none .LV_SKELETON_TEMPLATE_LIST_ITEM 4 16 .fresh).1.base.addr)
              hi).1)) :=
  ⟨by decide,
   C18_create_list_children none .LV_SKELETON_TEMPLATE_LIST_ITEM 4 16 lv_host_t.fresh
     (by decide)⟩

end LvSkeleton

namespace LvSkeleton

open LvBadge (lv_obj_t lv_obj_flag_t LV_SIZE_CONTENT LV_OPA_COVER LV_RADIUS_CIRCLE)

/-! ## Walking a container, and the loading overlay -/

/-- C19, evaluated on the code: lv_skeleton_set_container_active does not go below a child
that is a skeleton.  On a container that holds a skeleton that holds a skeleton, all
inactive, the call with active == true returns (the function is total), the outer
skeleton is active and the inner one is still inactive: not every skeleton descendant
has the flag. -/
theorem C19_skeleton_below_skeleton_not_reached :
    example_nested.1.active_flags = [false, false] ∧
    (lv_skeleton_set_container_active true example_nested.1 example_nested.2).1.active_flags =
      [true, false] ∧
    (lv_skeleton_set_container_active true example_nested.1
      example_nested.2).1.descendants_active true = false := by
  decide

/-- C20, evaluated on the code: the overlay is built once and kept in the static variable.
After lv_skeleton_set_loading(A, ARTICLE, true) for a content A under parent 10, the call
lv_skeleton_set_loading(B, CARD, true) for a content B under parent 20 hides B and builds
nothing: the overlay shown is still the one under parent 10 whose item is the article
container, not a card under parent 20; lv_skeleton_set_loading(B, CARD, false) then
shows B and hides that same overlay. -/
theorem C20_overlay_of_first_call_is_reused :
    (lv_skeleton_set_loading (example_content 21 20) .LV_SKELETON_TEMPLATE_CARD true
      (lv_skeleton_set_loading (example_content 11 10) .LV_SKELETON_TEMPLATE_ARTICLE true
        .initial).2).1.base.hidden = true ∧
    (lv_skeleton_set_loading (example_content 21 20) .LV_SKELETON_TEMPLATE_CARD true
      (lv_skeleton_set_loading (example_content 11 10) .LV_SKELETON_TEMPLATE_ARTICLE true
        .initial).2).2.host =
      (lv_skeleton_set_loading (example_content 11 10) .LV_SKELETON_TEMPLATE_ARTICLE true
        .initial).2.host ∧
    (lv_skeleton_set_loading (example_content 21 20) .LV_SKELETON_TEMPLATE_CARD true
      (lv_skeleton_set_loading (example_content 11 10) .LV_SKELETON_TEMPLATE_ARTICLE true
        .initial).2).2.skeleton_obj.map (fun o => (o.base.parent, o.base.hidden)) =
      some (some 10, false) ∧
    (lv_skeleton_set_loading (example_content 21 20) .LV_SKELETON_TEMPLATE_CARD true
      (lv_skeleton_set_loading (example_content 11 10) .LV_SKELETON_TEMPLATE_ARTICLE true
        .initial).2).2.skeleton_obj.map (fun o => o.children.map (fun c => c.base.calls)) =
      some ((lv_skeleton_create_list (some 10) .LV_SKELETON_TEMPLATE_ARTICLE 1 0
        lv_loading_t.initial.host).1.children.map (fun c => c.base.calls)) ∧
    (lv_skeleton_set_loading (example_content 21 20) .LV_SKELETON_TEMPLATE_CARD true
      (lv_skeleton_set_loading (example_content 11 10) .LV_SKELETON_TEMPLATE_ARTICLE true
        .initial).2).2.skeleton_obj.map (fun o => o.children.map (fun c => c.base.calls)) ≠
      some ((lv_skeleton_create_list (some 20) .LV_SKELETON_TEMPLATE_CARD 1 0
        (lv_skeleton_set_loading (example_content 11 10) .LV_SKELETON_TEMPLATE_ARTICLE true
          .initial).2.host).1.children.map (fun c => c.base.calls)) ∧
    (lv_skeleton_set_loading (example_content 21 20) .LV_SKELETON_TEMPLATE_CARD false
      (lv_skeleton_set_loading (example_content 21 20) .LV_SKELETON_TEMPLATE_CARD true
        (lv_skeleton_set_loading (example_content 11 10) .LV_SKELETON_TEMPLATE_ARTICLE true
          .initial).2).2).2.skeleton_obj.map (fun o => (o.base.parent, o.base.hidden)) =
      some (some 10, true) := by
  decide

end LvSkeleton

namespace LvBadge

/-! ## The draw output as a function of the state -/

theorem lv_strlen_pos_iff (s : String) : 0 < lv_strlen s ↔ s ≠ "" := by
  constructor
  · intro h hs
    subst hs
    exact absurd h (by decide)
  · intro h
    apply lv_strlen_pos
    intro hd
    apply h
    cases s with
    | mk cs =>
      simp only at hd
      subst hd
      rfl

/-- C26: for every badge state and every box, draw_main issues exactly the draw commands
of the specification: none when visible == 0; in DOT mode one filled rectangle over the
box with radius LV_RADIUS_CIRCLE, colour 0xff4757 and full opacity, and no label;
otherwise one filled rectangle over the box with colour 0xff4757, full opacity, no border
and radius min(width, height) / 2, followed by a centred white label of text if and only
if text is non-NULL and non-empty. -/
theorem C26_draw_main_output (G : lv_obj_t → lv_area_t) (obj : lv_obj_t) (b : lv_badge_t) :
    draw_main G obj b = spec_draw (G obj) obj b := by
  unfold draw_main spec_draw lv_area_get_width lv_area_get_height LV_OPA_COVER
  cases hv : b.visible
  · simp
  · cases hm : b.mode <;> cases ht : b.text <;> simp
    all_goals
      rename_i txt
      by_cases hs : txt = ""
      · subst hs
        have h0 : ¬ 0 < lv_strlen "" := by decide
        simp [h0]
      · have hpos : 0 < lv_strlen txt := (lv_strlen_pos_iff txt).2 hs
        simp [hs, hpos]

end LvBadge

namespace LvBadge

/-! ## The regeneration rule and the size of the generated text -/

theorem refr_text_log_last (obj : lv_obj_t) (w : lv_world_t) :
    (lv_badge_refr_text obj w).host.log.getLast? = some (.lv_obj_invalidate obj) := by
  unfold lv_badge_refr_text
  split <;> simp [lv_call]

theorem refr_text_of_dot (obj : lv_obj_t) (w : lv_world_t) (ht : w.badge.text = none)
    (hmode : w.badge.mode = .LV_BADGE_MODE_DOT) :
    lv_badge_refr_text obj w =
      { w with host := lv_call (.lv_obj_invalidate obj)
                 (lv_call (.lv_obj_set_size obj 8 8) w.host) } := by
  unfold lv_badge_refr_text
  simp [ht, hmode]

/-- With no text set, outside DOT mode, lv_badge_refr_text leaves text NULL if the
allocation fails. -/
theorem refr_text_text_of_none_fail (obj : lv_obj_t) (w : lv_world_t)
    (ht : w.badge.text = none) (hmode : w.badge.mode ≠ .LV_BADGE_MODE_DOT)
    (hok : next_alloc_ok w.host = false) :
    (lv_badge_refr_text obj w).badge.text = none := by
  have hfree : next_alloc_ok (free_dynamic_text w).host = false := by
    rw [next_alloc_ok_free]; exact hok
  unfold lv_badge_refr_text
  simp only [ht, ne_eq, not_true_eq_false, if_false, hmode]
  split <;> exact copy_text_to_badge_text_of_fail _ w hfree

/-- C24: the text regeneration rule.  For every badge state with text == NULL,
lv_badge_refr_text leaves text NULL and requests the size 8 x 8 when the mode is DOT; with
a successful allocation and int32 fields it sets text to the decimal of max_value followed
by a plus sign when the mode is MAX and value > max_value, and to the decimal of value
otherwise (NUMBER mode, or MAX mode with value <= max_value).  For every state, the last
call is the invalidation of the badge. -/
theorem C24_refr_text_rule (obj : lv_obj_t) (w : lv_world_t) :
    (w.badge.text = none →
      (w.badge.mode = .LV_BADGE_MODE_DOT →
        (lv_badge_refr_text obj w).badge.text = none ∧
        (lv_badge_refr_text obj w).host.log =
          w.host.log ++ [.lv_obj_set_size obj 8 8, .lv_obj_invalidate obj]) ∧
      (next_alloc_ok w.host = true → is_int32 w.badge.value → is_int32 w.badge.max_value →
        (w.badge.mode = .LV_BADGE_MODE_MAX → w.badge.value > w.badge.max_value →
          (lv_badge_refr_text obj w).badge.text = some (fmt_d w.badge.max_value ++ "+")) ∧
        (w.badge.mode = .LV_BADGE_MODE_NUMBER ∨
            (w.badge.mode = .LV_BADGE_MODE_MAX ∧ w.badge.value ≤ w.badge.max_value) →
          (lv_badge_refr_text obj w).badge.text = some (fmt_d w.badge.value)))) ∧
    (lv_badge_refr_text obj w).host.log.getLast? = some (.lv_obj_invalidate obj) := by
  refine ⟨fun ht => ⟨fun hdot => ?_, fun hok hv hm => ⟨fun hmax hgt => ?_, fun hnum => ?_⟩⟩,
    refr_text_log_last obj w⟩
  · rw [refr_text_of_dot obj w ht hdot]
    exact ⟨ht, by simp [lv_call]⟩
  · rw [refr_text_text_of_none obj w ht (by rw [hmax]; decide) hv hm hok]
    unfold spec_numeric_text
    rw [if_pos ⟨hmax, hgt⟩]
  · have hnd : w.badge.mode ≠ .LV_BADGE_MODE_DOT := by
      rcases hnum with h | ⟨h, _⟩ <;> rw [h] <;> decide
    rw [refr_text_text_of_none obj w ht hnd hv hm hok]
    unfold spec_numeric_text
    have hneg : ¬ (w.badge.mode = .LV_BADGE_MODE_MAX ∧ w.badge.value > w.badge.max_value) := by
      rcases hnum with h | ⟨_, h⟩
      · rw [h]; intro hc; exact absurd hc.1 (by decide)
      · intro hc; exact absurd hc.2 (not_lt.mpr h)
    rw [if_neg hneg]

/-- Witness of C24: value 150 over max_value 99 with no text, in DOT, MAX and NUMBER
mode. -/
theorem C24_refr_text_rule_witness :
    ((lv_badge_refr_text 1 (lv_world_t.mk (lv_badge_t.mk 150 99 none none
        .LV_BADGE_ATTACH_TOP_RIGHT 0 0 .LV_BADGE_MODE_DOT true true false) .fresh)).badge.text
        = none ∧
      (lv_badge_refr_text 1 (lv_world_t.mk (lv_badge_t.mk 150 99 none none
        .LV_BADGE_ATTACH_TOP_RIGHT 0 0 .LV_BADGE_MODE_DOT true true false) .fresh)).host.log
        = lv_host_t.fresh.log ++ [.lv_obj_set_size 1 8 8, .lv_obj_invalidate 1]) ∧
    (lv_badge_refr_text 1 (lv_world_t.mk (lv_badge_t.mk 150 99 none none
        .LV_BADGE_ATTACH_TOP_RIGHT 0 0 .LV_BADGE_MODE_MAX true true false) .fresh)).badge.text
        = some (fmt_d 99 ++ "+") ∧
    (lv_badge_refr_text 1 (lv_world_t.mk (lv_badge_t.mk 150 99 none none
        .LV_BADGE_ATTACH_TOP_RIGHT 0 0 .LV_BADGE_MODE_NUMBER true true false) .fresh)).badge.text
        = some (fmt_d 150) :=
  ⟨((C24_refr_text_rule 1 (lv_world_t.mk (lv_badge_t.mk 150 99 none none
        .LV_BADGE_ATTACH_TOP_RIGHT 0 0 .LV_BADGE_MODE_DOT true true false) .fresh)).1 rfl).1 rfl,
   (((C24_refr_text_rule 1 (lv_world_t.mk (lv_badge_t.mk 150 99 none none
        .LV_BADGE_ATTACH_TOP_RIGHT 0 0 .LV_BADGE_MODE_MAX true true false) .fresh)).1 rfl).2
      rfl (by decide) (by decide)).1 rfl (by decide),
   (((C24_refr_text_rule 1 (lv_world_t.mk (lv_badge_t.mk 150 99 none none
        .LV_BADGE_ATTACH_TOP_RIGHT 0 0 .LV_BADGE_MODE_NUMBER true true false) .fresh)).1 rfl).2
      rfl (by decide) (by decide)).2 (Or.inl rfl)⟩

/-! ### Bytes of a decimal -/

theorem digitChar_utf8Size (d : Nat) (hd : d < 10) : (Nat.digitChar d).utf8Size = 1 := by
  interval_cases d <;> decide

theorem toDigitsCore_utf8Size (fuel : Nat) :
    ∀ (n : Nat) (ds : List Char), (∀ c ∈ ds, c.utf8Size = 1) →
      ∀ c ∈ Nat.toDigitsCore 10 fuel n ds, c.utf8Size = 1 := by
  induction fuel with
  | zero =>
    intro n ds hds c hc
    simp only [Nat.toDigitsCore] at hc
    exact hds c hc
  | succ fuel ih =>
    intro n ds hds c hc
    simp only [Nat.toDigitsCore] at hc
    have hcons : ∀ c ∈ Nat.digitChar (n % 10) :: ds, c.utf8Size = 1 := by
      intro c hc
      rcases List.mem_cons.mp hc with h | h
      · rw [h]; exact digitChar_utf8Size _ (Nat.mod_lt _ (by decide))
      · exact hds c h
    split at hc
    · exact hcons c hc
    · exact ih _ _ hcons c hc

theorem utf8Len_of_utf8Size_one (cs : List Char) (h : ∀ c ∈ cs, c.utf8Size = 1) :
    String.utf8Len cs = cs.length := by
  induction cs with
  | nil => rfl
  | cons c rest ih =>
    rw [String.utf8Len_cons, ih (fun c hc => h c (List.mem_cons_of_mem _ hc)),
      h c (List.mem_cons_self _ _), List.length_cons]

theorem nat_repr_utf8ByteSize (n : Nat) : (Nat.repr n).utf8ByteSize = (Nat.repr n).length := by
  have h : ∀ c ∈ (Nat.repr n).data, c.utf8Size = 1 := by
    intro c hc
    have hd : (Nat.repr n).data = Nat.toDigitsCore 10 (n + 1) n [] := rfl
    rw [hd] at hc
    exact toDigitsCore_utf8Size _ _ _ (fun _ h => absurd h (List.not_mem_nil _)) c hc
  show String.utf8Len (Nat.repr n).data = (Nat.repr n).data.length
  exact utf8Len_of_utf8Size_one _ h

theorem utf8ByteSize_append (s t : String) :
    (s ++ t).utf8ByteSize = s.utf8ByteSize + t.utf8ByteSize := by
  show String.utf8Len (s ++ t).data = String.utf8Len s.data + String.utf8Len t.data
  rw [String.data_append, String.utf8Len_append]

/-- A decimal takes one byte for each of its characters. -/
theorem lv_strlen_fmt_d (v : Int) : lv_strlen (fmt_d v) = (fmt_d v).length := by
  unfold lv_strlen fmt_d
  cases v with
  | ofNat n => exact nat_repr_utf8ByteSize n
  | negSucc n =>
    show ("-" ++ Nat.repr (n + 1)).utf8ByteSize = ("-" ++ Nat.repr (n + 1)).length
    rw [utf8ByteSize_append, String.length_append, nat_repr_utf8ByteSize]
    rfl

theorem lv_strlen_append (s t : String) : lv_strlen (s ++ t) = lv_strlen s + lv_strlen t := by
  unfold lv_strlen
  exact utf8ByteSize_append s t

/-- C29: for every int32 value and max_value, the string lv_badge_refr_text formats, the
decimal of value or the decimal of max_value followed by a plus sign, has at most 12
characters, one byte each, so with its terminator it fits the 16 bytes of num_buf and
lv_snprintf does not truncate it; the text lv_badge_refr_text generates for a state without
text (outside DOT mode, the allocation succeeding) is this full representation. -/
theorem C29_generated_text_fits (obj : lv_obj_t) (w : lv_world_t)
    (hv : is_int32 w.badge.value) (hm : is_int32 w.badge.max_value) :
    (fmt_d w.badge.value).length ≤ 12 ∧
    (fmt_d w.badge.max_value ++ "+").length ≤ 12 ∧
    lv_strlen (fmt_d w.badge.value) + 1 ≤ 16 ∧
    lv_strlen (fmt_d w.badge.max_value ++ "+") + 1 ≤ 16 ∧
    lv_snprintf 16 (fmt_d w.badge.value) = fmt_d w.badge.value ∧
    lv_snprintf 16 (fmt_d w.badge.max_value ++ "+") = fmt_d w.badge.max_value ++ "+" ∧
    (w.badge.text = none → w.badge.mode ≠ .LV_BADGE_MODE_DOT → next_alloc_ok w.host = true →
      (lv_badge_refr_text obj w).badge.text =
        some (if w.badge.mode = .LV_BADGE_MODE_MAX ∧ w.badge.value > w.badge.max_value
          then fmt_d w.badge.max_value ++ "+" else fmt_d w.badge.value)) := by
  have h1 := fmt_d_length_le _ hv
  have h2 := fmt_d_length_le _ hm
  have hp : ("+" : String).length = 1 := by decide
  have hpb : lv_strlen "+" = 1 := by decide
  refine ⟨by omega, by rw [String.length_append]; omega, ?_, ?_, lv_snprintf_fmt_d _ hv,
    lv_snprintf_fmt_d_plus _ hm, fun ht hmode hok => refr_text_text_of_none obj w ht hmode hv hm hok⟩
  · rw [lv_strlen_fmt_d]; omega
  · rw [lv_strlen_append, lv_strlen_fmt_d]; omega

/-- Witness of C29: the smallest int32 as value and as max_value, in MAX mode. -/
theorem C29_generated_text_fits_witness :
    (is_int32 (-2147483647) ∧ is_int32 (-2147483648)) ∧
    (fmt_d (-2147483648) ++ "+").length = 12 ∧
    (lv_badge_refr_text 1 (lv_world_t.mk (lv_badge_t.mk (-2147483647) (-2147483648) none none
        .LV_BADGE_ATTACH_TOP_RIGHT 0 0 .LV_BADGE_MODE_MAX true true false) .fresh)).badge.text =
      some "-2147483648+" :=
  ⟨⟨by decide, by decide⟩, by decide,
   ((C29_generated_text_fits 1 (lv_world_t.mk (lv_badge_t.mk (-2147483647) (-2147483648) none
        none .LV_BADGE_ATTACH_TOP_RIGHT 0 0 .LV_BADGE_MODE_MAX true true false) .fresh)
      (by decide) (by decide)).2.2.2.2.2.2 rfl (by decide) rfl).trans (by decide)⟩

end LvBadge

namespace LvBadge

/-! ## A failed allocation in lv_badge_set_text -/

theorem next_alloc_ok_of_cons (h : lv_host_t) (b : Bool) (rest : List Bool)
    (halloc : h.alloc = b :: rest) : next_alloc_ok h = b := by
  unfold next_alloc_ok
  rw [halloc]
  rfl

theorem lv_malloc_snd_alloc (size : Nat) (h : lv_host_t) :
    (lv_malloc size h).2.alloc = h.alloc.tail := by
  unfold lv_malloc lv_call
  cases h.alloc <;> rfl

/-- The badge after lv_badge_set_text(obj, t) when the allocation of the copy fails: the
state lv_badge_refr_text is then run on has no text, the fields of the badge that are not
text or static_txt as before, and the rest of the allocator outcomes. -/
theorem set_text_of_fail (obj : lv_obj_t) (w : lv_world_t) (t : String) (rest : List Bool)
    (halloc : w.host.alloc = false :: rest) :
    ∃ w2 : lv_world_t, lv_badge_set_text obj (some t) w = lv_badge_refr_text obj w2 ∧
      w2.badge.text = none ∧ w.badge.same_but_text w2.badge ∧ w2.host.alloc = rest := by
  have ha : (free_dynamic_text (free_dynamic_text w)).host.alloc = false :: rest := by
    rw [free_dynamic_text_alloc, free_dynamic_text_alloc]; exact halloc
  have hfail : next_alloc_ok (free_dynamic_text (free_dynamic_text w)).host = false :=
    next_alloc_ok_of_cons _ _ _ ha
  refine ⟨copy_text_to_badge (some t) (free_dynamic_text w), rfl,
    copy_text_to_badge_text_of_fail t _ hfail,
    same_but_text_trans _ _ _ (free_dynamic_text_same w) (copy_text_to_badge_same _ _), ?_⟩
  unfold copy_text_to_badge
  simp only [lv_malloc_fst, hfail, if_true]
  rw [lv_malloc_snd_alloc, ha]
  rfl

/-- C22 as stated fails.  A badge that shows the custom text Hi keeps neither it nor any
prior state when the copy of NEW cannot be allocated: the old text has been freed, and the
text is the generated "0" (or NULL if that allocation fails too).  A badge without text,
created while the allocator failed, shows "0" after the failed lv_badge_set_text. -/
theorem C22_counterexample :
    lv_badge_get_text (lv_badge_set_text 1 (some "Hi")
      (lv_badge_create 1 { events := [], alloc := [true, true, false], log := [] })) =
        some "Hi" ∧
    lv_badge_get_text (lv_badge_set_text 1 (some "NEW") (lv_badge_set_text 1 (some "Hi")
      (lv_badge_create 1 { events := [], alloc := [true, true, false], log := [] }))) =
        some "0" ∧
    lv_call_t.lv_free "Hi" ∈ (lv_badge_set_text 1 (some "NEW") (lv_badge_set_text 1 (some "Hi")
      (lv_badge_create 1 { events := [], alloc := [true, true, false], log := [] }))).host.log ∧
    lv_badge_get_text (lv_badge_set_text 1 (some "NEW") (lv_badge_set_text 1 (some "Hi")
      (lv_badge_create 1 { events := [], alloc := [true, true, false, false], log := [] }))) =
        none ∧
    lv_badge_get_text (lv_badge_create 1 { events := [], alloc := [false, false], log := [] }) =
      none ∧
    lv_badge_get_text (lv_badge_set_text 1 (some "NEW")
      (lv_badge_create 1 { events := [], alloc := [false, false], log := [] })) = some "0" := by
  decide

/-- C22, amended: for every badge state with int32 value and max_value and every non-null
t, if the allocation of the copy fails, lv_badge_set_text(obj, t) returns normally and
changes no field other than text and static_txt, but the text is not what it was: an old
heap text has been freed before the allocation, and the text after the call is what
lv_badge_refr_text generates for a badge without text, that is NULL in DOT mode or if the
allocation that follows fails too, and the numeric rendering of the state otherwise. -/
theorem C22_set_text_failed_allocation (obj : lv_obj_t) (w : lv_world_t) (t : String)
    (rest : List Bool) (halloc : w.host.alloc = false :: rest)
    (hv : is_int32 w.badge.value) (hm : is_int32 w.badge.max_value) :
    w.badge.same_but_text (lv_badge_set_text obj (some t) w).badge ∧
    lv_badge_get_text (lv_badge_set_text obj (some t) w) =
      (if w.badge.mode = .LV_BADGE_MODE_DOT ∨ rest.headD true = false then none
       else some (spec_numeric_text w.badge)) ∧
    (∀ old, w.badge.text = some old → w.badge.static_txt = false →
      lv_call_t.lv_free old ∈ (lv_badge_set_text obj (some t) w).host.log) := by
  refine ⟨set_text_same obj (some t) w, ?_, ?_⟩
  · obtain ⟨w2, heq, ht2, hsame, ha2⟩ := set_text_of_fail obj w t rest halloc
    have hb : w2.badge.mode = w.badge.mode ∧ w2.badge.value = w.badge.value ∧
        w2.badge.max_value = w.badge.max_value := by
      unfold lv_badge_t.same_but_text at hsame
      rw [hsame]
      exact ⟨rfl, rfl, rfl⟩
    obtain ⟨hb1, hb2, hb3⟩ := hb
    have hok2 : next_alloc_ok w2.host = rest.headD true := by
      unfold next_alloc_ok
      rw [ha2]
    unfold lv_badge_get_text
    rw [heq]
    by_cases hdot : w.badge.mode = .LV_BADGE_MODE_DOT
    · rw [if_pos (Or.inl hdot), refr_text_of_dot obj w2 ht2 (hb1.trans hdot)]
      exact ht2
    · cases hr : rest.headD true with
      | false =>
        rw [if_pos (Or.inr rfl)]
        exact refr_text_text_of_none_fail obj w2 ht2 (by rw [hb1]; exact hdot)
          (by rw [hok2, hr])
      | true =>
        rw [if_neg (by simp [hdot])]
        rw [refr_text_text_of_none obj w2 ht2 (by rw [hb1]; exact hdot) (by rw [hb2]; exact hv)
          (by rw [hb3]; exact hm) (by rw [hok2, hr])]
        exact congrArg some (spec_numeric_text_congr _ _ hb1 hb2 hb3)
  · intro old hto hst
    have hfree : (free_dynamic_text w).host.log = w.host.log ++ [.lv_free old] := by
      unfold free_dynamic_text
      simp [hto, hst, lv_free, lv_call]
    have hmono1 : ∀ (tx : Option String) (u : lv_world_t) (c : lv_call_t),
        c ∈ u.host.log → c ∈ (copy_text_to_badge tx u).host.log := by
      intro tx u c hc
      have hf : c ∈ (free_dynamic_text u).host.log := by
        unfold free_dynamic_text
        split
        · split
          · simp [lv_free, lv_call, hc]
          · exact hc
        · exact hc
      unfold copy_text_to_badge
      cases tx with
      | none => exact hf
      | some s =>
        simp only
        split <;> simp [lv_malloc_snd_log, hf]
    have hmono2 : ∀ (u : lv_world_t) (c : lv_call_t),
        c ∈ u.host.log → c ∈ (lv_badge_refr_text obj u).host.log := by
      intro u c hc
      unfold lv_badge_refr_text
      split
      · simp [lv_call, hc]
      · simp only
        split
        · simp [lv_call, hc]
        · split <;> simp only [lv_call, List.mem_append] <;> left <;> exact hmono1 _ u c hc
    unfold lv_badge_set_text
    simp only
    apply hmono2
    apply hmono1
    rw [hfree]
    simp

/-- Witness of C22: the badge that shows Hi, on a host whose next allocation fails. -/
theorem C22_set_text_failed_allocation_witness :
    ((lv_badge_set_text 1 (some "Hi")
        (lv_badge_create 1 { events := [], alloc := [true, true, false], log := [] })).host.alloc
        = false :: [] ∧ is_int32 0 ∧ is_int32 99) ∧
    lv_badge_get_text (lv_badge_set_text 1 (some "NEW") (lv_badge_set_text 1 (some "Hi")
      (lv_badge_create 1 { events := [], alloc := [true, true, false], log := [] }))) =
        some "0" :=
  ⟨⟨by decide, by decide, by decide⟩,
   (C22_set_text_failed_allocation 1 (lv_badge_set_text 1 (some "Hi")
      (lv_badge_create 1 { events := [], alloc := [true, true, false], log := [] })) "NEW" []
      (by decide) (by decide) (by decide)).2.1.trans (by decide)⟩

end LvBadge

namespace LvBadge

/-! ## Ownership of the text -/

theorem live_blocks_append (l : List lv_call_t) (c : lv_call_t) :
    live_blocks (l ++ [c]) = live_blocks l + c.blocks := by
  simp [live_blocks]

theorem text_owned_of_same (base : Int) (w w1 : lv_world_t)
    (ht : w1.badge.text = w.badge.text) (hs : w1.badge.static_txt = w.badge.static_txt)
    (hl : live_blocks w1.host.log = live_blocks w.host.log) (hinv : text_owned base w) :
    text_owned base w1 := by
  unfold text_owned at *
  rw [ht, hs, hl]
  exact hinv

theorem free_dynamic_text_owned (base : Int) (w : lv_world_t) (hinv : text_owned base w) :
    text_owned base (free_dynamic_text w) ∧ (free_dynamic_text w).badge.text = none := by
  obtain ⟨h1, h2⟩ := hinv
  unfold free_dynamic_text
  cases ht : w.badge.text with
  | none =>
    simp only
    exact ⟨⟨h1, h2⟩, ht⟩
  | some old =>
    have hs : w.badge.static_txt = false := h1 (by rw [ht]; simp)
    have hlive : live_blocks (w.host.log ++ [.lv_free old]) = base := by
      rw [live_blocks_append, h2, ht]
      simp [lv_call_t.blocks]
    simp [text_owned, hs, lv_free, lv_call, hlive]

theorem copy_text_to_badge_owned (base : Int) (text : Option String) (w : lv_world_t)
    (hinv : text_owned base w) : text_owned base (copy_text_to_badge text w) := by
  obtain ⟨⟨_, f2⟩, ft⟩ := free_dynamic_text_owned base w hinv
  rw [if_pos ft] at f2
  have f3 : live_blocks (free_dynamic_text w).host.log = base := by simpa using f2
  unfold copy_text_to_badge text_owned
  cases text with
  | none => simp [f3]
  | some t =>
    simp only [lv_malloc_fst]
    cases hok : next_alloc_ok (free_dynamic_text w).host with
    | false => simp [lv_malloc_snd_log, hok, live_blocks_append, lv_call_t.blocks, f3]
    | true => simp [lv_malloc_snd_log, hok, live_blocks_append, lv_call_t.blocks, f3]

theorem refr_text_owned (base : Int) (obj : lv_obj_t) (w : lv_world_t)
    (hinv : text_owned base w) : text_owned base (lv_badge_refr_text obj w) := by
  unfold lv_badge_refr_text
  split
  · exact text_owned_of_same base w _ rfl rfl
      (by simp [lv_call, live_blocks, lv_call_t.blocks]) hinv
  · simp only
    split
    · exact text_owned_of_same base w _ rfl rfl
        (by simp [lv_call, live_blocks, lv_call_t.blocks]) hinv
    · split
      · exact text_owned_of_same base (copy_text_to_badge _ w) _ rfl rfl
          (by simp [lv_call, live_blocks, lv_call_t.blocks])
          (copy_text_to_badge_owned base _ w hinv)
      · exact text_owned_of_same base (copy_text_to_badge _ w) _ rfl rfl
          (by simp [lv_call, live_blocks, lv_call_t.blocks])
          (copy_text_to_badge_owned base _ w hinv)

theorem update_position_owned (base : Int) (G : lv_obj_t → lv_area_t) (obj : lv_obj_t)
    (w : lv_world_t) (hinv : text_owned base w) :
    text_owned base (lv_badge_update_position G obj w) := by
  refine text_owned_of_same base w _ ?_ ?_ ?_ hinv
  · rw [update_position_badge]
  · rw [update_position_badge]
  · unfold lv_badge_update_position
    split
    · simp [lv_call, live_blocks, lv_call_t.blocks]
    · rfl

theorem detach_owned (base : Int) (w : lv_world_t) (hinv : text_owned base w) :
    text_owned base (lv_badge_detach w) := by
  unfold lv_badge_detach
  split
  · exact text_owned_of_same base w _ rfl rfl
      (by simp [lv_obj_remove_event_cb, lv_call, live_blocks, lv_call_t.blocks]) hinv
  · exact hinv

/-- Every operation keeps the ownership of the text. -/
theorem run_owned (base : Int) (G : lv_obj_t → lv_area_t) (obj : lv_obj_t)
    (op : lv_badge_op_t) (w : lv_world_t) (hinv : text_owned base w) :
    text_owned base (op.run G obj w) := by
  cases op with
  | set_value v =>
    simp only [lv_badge_op_t.run, lv_badge_set_value]
    split
    · exact refr_text_owned base obj _ hinv
    · exact hinv
  | set_max_value m =>
    simp only [lv_badge_op_t.run, lv_badge_set_max_value]
    split
    · exact refr_text_owned base obj _ hinv
    · exact hinv
  | set_text t =>
    obtain ⟨f1, ft⟩ := free_dynamic_text_owned base w hinv
    simp only [lv_badge_op_t.run, lv_badge_set_text]
    cases t with
    | none =>
      apply refr_text_owned
      have hl := f1.2
      rw [if_pos ft] at hl
      exact ⟨fun h => absurd rfl h, by simpa using hl⟩
    | some s => exact refr_text_owned base obj _ (copy_text_to_badge_owned base _ _ f1)
  | set_mode m =>
    simp only [lv_badge_op_t.run, lv_badge_set_mode]
    split
    · exact text_owned_of_same base (lv_badge_refr_text obj _) _ rfl rfl
        (by simp [lv_call, live_blocks, lv_call_t.blocks])
        (refr_text_owned base obj _ hinv)
    · exact hinv
  | set_visible v =>
    simp only [lv_badge_op_t.run, lv_badge_set_visible]
    split
    · exact text_owned_of_same base w _ rfl rfl
        (by simp [lv_call, live_blocks, lv_call_t.blocks]) hinv
    · exact text_owned_of_same base w _ rfl rfl
        (by simp [lv_call, live_blocks, lv_call_t.blocks]) hinv
  | attach_to target pos =>
    simp only [lv_badge_op_t.run, lv_badge_attach_to]
    apply update_position_owned
    refine text_owned_of_same base w _ rfl rfl ?_ hinv
    split <;>
      simp [lv_obj_add_event_cb, lv_obj_remove_event_cb, lv_call, live_blocks, lv_call_t.blocks]
  | set_offset x y =>
    simp only [lv_badge_op_t.run, lv_badge_set_offset]
    split
    · exact update_position_owned base G obj _ hinv
    · exact hinv
  | detach => exact detach_owned base w hinv
  | target_event code =>
    simp only [lv_badge_op_t.run, target_event_handler]
    split
    · exact update_position_owned base G obj _ hinv
    · split
      · exact detach_owned base w hinv
      · exact hinv
  | destructor =>
    simp only [lv_badge_op_t.run, lv_badge_destructor]
    split
    · exact (free_dynamic_text_owned base _ (detach_owned base w hinv)).1
    · exact (free_dynamic_text_owned base _ hinv).1

theorem run_ops_owned (base : Int) (G : Nat → lv_obj_t → lv_area_t) (obj : lv_obj_t)
    (ops : List lv_badge_op_t) (w : lv_world_t) (hinv : text_owned base w) :
    text_owned base (run_ops G obj ops w) := by
  induction ops generalizing w with
  | nil => exact hinv
  | cons op rest ih => exact ih _ (run_owned base (G w.host.log.length) obj op w hinv)

theorem create_owned (obj : lv_obj_t) (h : lv_host_t) :
    text_owned (live_blocks h.log) (lv_badge_create obj h) := by
  unfold lv_badge_create lv_badge_constructor
  apply refr_text_owned
  refine ⟨fun hc => absurd rfl hc, ?_⟩
  simp [lv_call, live_blocks, lv_call_t.blocks]

/-- C28: the ownership invariant of the badge text.  In every state reached from
lv_badge_create by the calls of the interface, target events and the destructor, whatever
the allocator does (failed allocations included), text != NULL implies static_txt == 0;
the blocks alive (allocated and not yet freed) are then those of the host before the badge
and, when text is non-null, exactly the one text points to, so a free releases a block
the badge allocated and none is released twice; after the destructor text is NULL and
every block of the badge is released. -/
theorem C28_text_is_owned (G : Nat → lv_obj_t → lv_area_t) (obj : lv_obj_t) (h : lv_host_t)
    (ops : List lv_badge_op_t) :
    ((run_ops G obj ops (lv_badge_create obj h)).badge.text ≠ none →
      (run_ops G obj ops (lv_badge_create obj h)).badge.static_txt = false) ∧
    live_blocks (run_ops G obj ops (lv_badge_create obj h)).host.log =
      live_blocks h.log +
        (if (run_ops G obj ops (lv_badge_create obj h)).badge.text = none then 0 else 1) ∧
    (lv_badge_destructor (run_ops G obj ops (lv_badge_create obj h))).badge.text = none ∧
    live_blocks (lv_badge_destructor (run_ops G obj ops (lv_badge_create obj h))).host.log =
      live_blocks h.log := by
  have hinv := run_ops_owned _ G obj ops _ (create_owned obj h)
  have hd := run_owned _ (G 0) obj .destructor _ hinv
  have hdt : (lv_badge_destructor (run_ops G obj ops (lv_badge_create obj h))).badge.text
      = none := by
    unfold lv_badge_destructor
    split
    · exact (free_dynamic_text_owned _ _ (detach_owned _ _ hinv)).2
    · exact (free_dynamic_text_owned _ _ hinv).2
  refine ⟨hinv.1, hinv.2, hdt, ?_⟩
  have h2 := hd.2
  simp only [lv_badge_op_t.run] at h2
  rw [if_pos hdt] at h2
  simpa using h2

/-- Witness of C28: a badge created while the allocator fails, given texts and values
with further failures: the text is non-null, a heap copy, and the only block alive. -/
theorem C28_text_is_owned_witness :
    (run_ops (fun _ => example_coords) 1
      [.set_text (some "A"), .set_value 5, .set_text (some "B"), .set_text none,
        .set_mode .LV_BADGE_MODE_MAX, .set_text (some "C")]
      (lv_badge_create 1 { events := [], alloc := [false, true, false, true, true],
                           log := [] })).badge.text ≠ none ∧
    (run_ops (fun _ => example_coords) 1
      [.set_text (some "A"), .set_value 5, .set_text (some "B"), .set_text none,
        .set_mode .LV_BADGE_MODE_MAX, .set_text (some "C")]
      (lv_badge_create 1 { events := [], alloc := [false, true, false, true, true],
                           log := [] })).badge.static_txt = false :=
  ⟨by decide,
   (C28_text_is_owned (fun _ => example_coords) 1
      { events := [], alloc := [false, true, false, true, true], log := [] }
      [.set_text (some "A"), .set_value 5, .set_text (some "B"), .set_text none,
        .set_mode .LV_BADGE_MODE_MAX, .set_text (some "C")]).1 (by decide)⟩

end LvBadge

namespace LvSkeleton

open LvBadge (lv_obj_t lv_obj_flag_t LV_SIZE_CONTENT LV_OPA_COVER LV_RADIUS_CIRCLE)

/-! ## The draw output, the type of the template objects, the wave opacity -/

/-- C27: for every skeleton state and every box, draw_main issues exactly one filled
rectangle over the box of the widget with the colour base_color, the opacity LV_OPA_COVER,
no border and the radius of the shape (LV_RADIUS_CIRCLE for CIRCLE and AVATAR, 6 for BUTTON
and CARD, 4 for TEXT_LINE, 8 for IMAGE, 4 for every other shape); the output is the same
whatever active, anim, anim_type, highlight_color and the background opacity the
animation has set on the object are. -/
theorem C27_draw_main_output (G : lv_obj_t → LvBadge.lv_area_t) (sk : lv_skeleton_t)
    (active : Bool) (anim : Option lv_anim_handle_t) (anim_type : lv_skeleton_anim_t)
    (highlight_color : lv_color_t) (bg_opa : Option Nat) :
    draw_main G sk =
      [.lv_draw_rect (G sk.obj.addr) sk.base_color 255 (spec_radius sk.shape) (some 0)] ∧
    draw_main G
      { sk with active := active, anim := anim, anim_type := anim_type,
                highlight_color := highlight_color,
                obj := { sk.obj with bg_opa := bg_opa } } = draw_main G sk := by
  refine ⟨?_, rfl⟩
  unfold draw_main spec_radius
  cases sk.shape <;> simp [LV_OPA_COVER, LV_RADIUS_CIRCLE]

/-- C21, evaluated on the code: each template function returns the container it made
with lv_obj_create, an object of the base class and not of lv_skeleton_class, so
LV_ASSERT_OBJ(obj, MY_CLASS) fails on it: lv_skeleton_get_active and lv_skeleton_set_active
halt on the object lv_skeleton_create_profile returns, and so do example 10 and its button
handler. -/
theorem C21_template_object_is_not_a_skeleton (parent : Option lv_obj_t) (h : lv_host_t)
    (screen : lv_obj_t) :
    LV_ASSERT_OBJ (lv_skeleton_create_article parent h).1 = false ∧
    LV_ASSERT_OBJ (lv_skeleton_create_profile parent h).1 = false ∧
    LV_ASSERT_OBJ (lv_skeleton_create_card parent h).1 = false ∧
    LV_ASSERT_OBJ (lv_skeleton_create_list_item parent h).1 = false ∧
    LV_ASSERT_OBJ (lv_skeleton_create_contact parent h).1 = false ∧
    LV_ASSERT_OBJ (lv_skeleton_create_product parent h).1 = false ∧
    lv_skeleton_get_active_obj (lv_skeleton_create_profile parent h).1
      (lv_skeleton_create_profile parent h).2 = none ∧
    lv_skeleton_set_active_obj true (lv_skeleton_create_profile parent h).1
      (lv_skeleton_create_profile parent h).2 = none ∧
    lv_example_skeleton_10 screen h = none ∧
    btn_event_handler (lv_skeleton_create_profile (some screen) h).1
      (lv_skeleton_create_profile (some screen) h).2 = none :=
  ⟨rfl, rfl, rfl, rfl, rfl, rfl, rfl, rfl, rfl, rfl⟩

theorem wave_opacity_bounds (m s : Int) (hm : 0 < m) (hlo : -m ≤ s) (hhi : s ≤ m) :
    -76 ≤ Int.tdiv (76 * s) m ∧ Int.tdiv (76 * s) m ≤ 76 := by
  rcases le_or_lt 0 s with hs | hs
  · rw [Int.tdiv_eq_ediv (by omega) (by omega)]
    constructor
    · have : 0 ≤ 76 * s / m := Int.ediv_nonneg (by omega) (by omega)
      omega
    · have : 76 * s / m ≤ 76 * m / m := Int.ediv_le_ediv hm (by omega)
      rw [Int.mul_ediv_cancel _ (by omega)] at this
      exact this
  · have hneg : 76 * s = -(76 * (-s)) := by ring
    rw [hneg, Int.neg_tdiv, Int.tdiv_eq_ediv (by omega) (by omega)]
    constructor
    · have : 76 * (-s) / m ≤ 76 * m / m := Int.ediv_le_ediv hm (by omega)
      rw [Int.mul_ediv_cancel _ (by omega)] at this
      omega
    · have : 0 ≤ 76 * (-s) / m := Int.ediv_nonneg (by omega) (by omega)
      omega

/-- C30: for every phase value and every sine result s = lv_trigo_sin(value * 36) with
|s| <= LV_TRIGO_SIN_MAX, the opacity wave_anim_cb computes,
LV_OPA_50 + (LV_OPA_30 * s / LV_TRIGO_SIN_MAX), lies in [51, 203]; its conversion to the
8-bit lv_opa_t is the number itself, and the opacity the callback sets on the object is
that number, never 0. -/
theorem C30_wave_opacity_range (lv_trigo_sin : Int → Int) (value : Int) (o : lv_obj_base_t)
    (hlo : -LV_TRIGO_SIN_MAX ≤ lv_trigo_sin (value * 36))
    (hhi : lv_trigo_sin (value * 36) ≤ LV_TRIGO_SIN_MAX) :
    51 ≤ LV_OPA_50 + Int.tdiv (LV_OPA_30 * lv_trigo_sin (value * 36)) LV_TRIGO_SIN_MAX ∧
    LV_OPA_50 + Int.tdiv (LV_OPA_30 * lv_trigo_sin (value * 36)) LV_TRIGO_SIN_MAX ≤ 203 ∧
    (to_lv_opa_t
        (LV_OPA_50 + Int.tdiv (LV_OPA_30 * lv_trigo_sin (value * 36)) LV_TRIGO_SIN_MAX) : Int) =
      LV_OPA_50 + Int.tdiv (LV_OPA_30 * lv_trigo_sin (value * 36)) LV_TRIGO_SIN_MAX ∧
    (wave_anim_cb lv_trigo_sin value o).bg_opa =
      some (LV_OPA_50 +
        Int.tdiv (LV_OPA_30 * lv_trigo_sin (value * 36)) LV_TRIGO_SIN_MAX).toNat ∧
    (wave_anim_cb lv_trigo_sin value o).bg_opa ≠ some 0 := by
  obtain ⟨h1, h2⟩ := wave_opacity_bounds LV_TRIGO_SIN_MAX (lv_trigo_sin (value * 36))
    (by decide) hlo hhi
  have hopa : to_lv_opa_t
      (LV_OPA_50 + Int.tdiv (LV_OPA_30 * lv_trigo_sin (value * 36)) LV_TRIGO_SIN_MAX) =
      (LV_OPA_50 + Int.tdiv (LV_OPA_30 * lv_trigo_sin (value * 36)) LV_TRIGO_SIN_MAX).toNat := by
    unfold to_lv_opa_t LV_OPA_50 LV_OPA_30
    congr 1
    omega
  unfold LV_OPA_50 LV_OPA_30 at *
  refine ⟨by omega, by omega, ?_, ?_, ?_⟩
  · rw [hopa]; omega
  · simp only [wave_anim_cb, lv_obj_set_style_bg_opa, lv_obj_call, LV_OPA_50, LV_OPA_30]
    rw [hopa]
  · simp only [wave_anim_cb, lv_obj_set_style_bg_opa, lv_obj_call, LV_OPA_50, LV_OPA_30]
    rw [hopa]
    intro hc
    have := Option.some.inj hc
    omega

/-- Witness of C30: the lowest sine, -LV_TRIGO_SIN_MAX, at the phase 75 gives the opacity
51 on a freshly created skeleton. -/
theorem C30_wave_opacity_range_witness :
    (-LV_TRIGO_SIN_MAX ≤ (fun _ => -LV_TRIGO_SIN_MAX) ((75 : Int) * 36) ∧
      (fun _ => -LV_TRIGO_SIN_MAX) ((75 : Int) * 36) ≤ LV_TRIGO_SIN_MAX) ∧
    (wave_anim_cb (fun _ => -LV_TRIGO_SIN_MAX) 75
      (lv_skeleton_create none .fresh).skeleton.obj).bg_opa = some 51 :=
  ⟨⟨by decide, by decide⟩,
   (C30_wave_opacity_range (fun _ => -LV_TRIGO_SIN_MAX) 75
      (lv_skeleton_create none .fresh).skeleton.obj (by decide) (by decide)).2.2.2.1.trans
      (by decide)⟩

end LvSkeleton

namespace LvSkeleton

open LvBadge (lv_obj_t lv_obj_flag_t LV_SIZE_CONTENT LV_OPA_COVER LV_RADIUS_CIRCLE)

/-! ## A failed allocation of the handle, and the change of the animation type -/

theorem start_animation_of_fail (w : lv_world_t) (rest : List Bool)
    (hanim : w.skeleton.anim = none)
    (htype : w.skeleton.anim_type ≠ .LV_SKELETON_ANIM_NONE)
    (halloc : w.host.alloc = false :: rest) :
    lv_skeleton_start_animation w =
      lv_world_t.mk w.skeleton
        (lv_host_t.mk rest w.host.next_addr w.host.anims (w.host.log ++ [.lv_malloc none])) := by
  obtain ⟨⟨o, shape, bc, hc, ty, an, tm, wl, tp, ac, cc⟩, ⟨al, na, ans, lg⟩⟩ := w
  simp only at hanim htype halloc
  subst hanim halloc
  simp [lv_skeleton_start_animation, lv_skeleton_stop_animation, lv_malloc, htype]

/-- C23 as stated fails: on a host whose next allocation fails, lv_skeleton_set_active(obj,
true) on a fresh skeleton leaves active == 1 (it was 0) with anim == NULL, and a second
lv_skeleton_set_active(obj, true) does nothing, although the allocation would succeed now;
lv_skeleton_set_animation_type(obj, WAVE) on an animated PULSE skeleton leaves the type
WAVE and anim == NULL (they were PULSE and a handle). -/
theorem C23_counterexample :
    (lv_skeleton_create none (lv_host_t.mk [false] 1 [] [])).skeleton.active = false ∧
    (lv_skeleton_set_active true
      (lv_skeleton_create none (lv_host_t.mk [false] 1 [] []))).skeleton.active = true ∧
    (lv_skeleton_set_active true
      (lv_skeleton_create none (lv_host_t.mk [false] 1 [] []))).skeleton.anim = none ∧
    lv_skeleton_set_active true (lv_skeleton_set_active true
      (lv_skeleton_create none (lv_host_t.mk [false] 1 [] []))) =
        lv_skeleton_set_active true (lv_skeleton_create none (lv_host_t.mk [false] 1 [] [])) ∧
    (lv_skeleton_set_active true
      (lv_skeleton_create none (lv_host_t.mk [true, false] 1 [] []))).skeleton.anim_type =
        .LV_SKELETON_ANIM_PULSE ∧
    (lv_skeleton_set_active true
      (lv_skeleton_create none (lv_host_t.mk [true, false] 1 [] []))).skeleton.anim ≠ none ∧
    (lv_skeleton_set_animation_type .LV_SKELETON_ANIM_WAVE (lv_skeleton_set_active true
      (lv_skeleton_create none (lv_host_t.mk [true, false] 1 [] [])))).skeleton.anim_type =
        .LV_SKELETON_ANIM_WAVE ∧
    (lv_skeleton_set_animation_type .LV_SKELETON_ANIM_WAVE (lv_skeleton_set_active true
      (lv_skeleton_create none (lv_host_t.mk [true, false] 1 [] [])))).skeleton.anim = none := by
  decide

/-- C23, amended: if the allocation of the animation handle fails, no handle is kept and
no animation is started, and the state is the one at the failed allocation, not the one
from before the call.  In lv_skeleton_set_active(obj, true) on an inactive skeleton (whose
anim is NULL) with a type other than NONE, active is 1 after the call; every other field
of the skeleton, anim included, and the animations of the engine are as before the call.
In the restart inside lv_skeleton_set_animation_type(obj, t) on an active skeleton, t other
than NONE and than the current type, the state is the one lv_skeleton_stop_animation left,
with the type t stored: anim is NULL, active is still 1, and the animations of the engine
are those it had after the stop. -/
theorem C23_failed_allocation_state (w : lv_world_t) (t : lv_skeleton_anim_t)
    (rest : List Bool) (halloc : w.host.alloc = false :: rest) :
    (w.skeleton.active = false → w.skeleton.anim = none →
      w.skeleton.anim_type ≠ .LV_SKELETON_ANIM_NONE →
      lv_skeleton_set_active true w =
        lv_world_t.mk { w.skeleton with active := true }
          (lv_host_t.mk rest w.host.next_addr w.host.anims
            (w.host.log ++ [.lv_malloc none]))) ∧
    (w.skeleton.active = true → w.skeleton.anim_type ≠ t → t ≠ .LV_SKELETON_ANIM_NONE →
      lv_skeleton_set_animation_type t w =
        lv_world_t.mk { (lv_skeleton_stop_animation w).skeleton with anim_type := t }
          (lv_host_t.mk rest (lv_skeleton_stop_animation w).host.next_addr
            (lv_skeleton_stop_animation w).host.anims
            ((lv_skeleton_stop_animation w).host.log ++ [.lv_malloc none])) ∧
      (lv_skeleton_set_animation_type t w).skeleton.anim = none ∧
      (lv_skeleton_set_animation_type t w).skeleton.active = true ∧
      (lv_skeleton_set_animation_type t w).skeleton.anim_type = t ∧
      (lv_skeleton_set_animation_type t w).host.anims =
        (lv_skeleton_stop_animation w).host.anims) := by
  constructor
  · intro hact hanim htype
    unfold lv_skeleton_set_active
    simp only [hact, ne_eq, Bool.false_eq_true, not_false_eq_true, if_true]
    exact start_animation_of_fail (lv_world_t.mk { w.skeleton with active := true } w.host) rest
      hanim htype halloc
  · intro hact hne ht
    obtain ⟨s1, s2, s3, s4⟩ := stop_animation_fields w
    have heq : lv_skeleton_set_animation_type t w =
        lv_world_t.mk { (lv_skeleton_stop_animation w).skeleton with anim_type := t }
          (lv_host_t.mk rest (lv_skeleton_stop_animation w).host.next_addr
            (lv_skeleton_stop_animation w).host.anims
            ((lv_skeleton_stop_animation w).host.log ++ [.lv_malloc none])) := by
      have key := start_animation_of_fail
        (lv_world_t.mk { (lv_skeleton_stop_animation w).skeleton with anim_type := t }
          (lv_skeleton_stop_animation w).host) rest s1 ht (by rw [← halloc, ← s4])
      unfold lv_skeleton_set_animation_type
      simp only [hne, ne_eq, not_false_eq_true, if_true, s2, hact]
      simp only [s2, hact] at key
      exact key
    refine ⟨heq, ?_, ?_, ?_, ?_⟩
    · rw [heq]; exact s1
    · rw [heq]; exact s2.trans hact
    · rw [heq]
    · rw [heq]

/-- Witness of C23: the fresh skeleton on a host whose allocation fails, and the animated
PULSE skeleton whose restart as WAVE fails. -/
theorem C23_failed_allocation_state_witness :
    (lv_skeleton_set_active true
      (lv_skeleton_create none (lv_host_t.mk [false] 1 [] []))).skeleton.active = true ∧
    (lv_skeleton_set_active true
      (lv_skeleton_create none (lv_host_t.mk [false] 1 [] []))).host.anims = [] ∧
    (lv_skeleton_set_animation_type .LV_SKELETON_ANIM_WAVE (lv_skeleton_set_active true
      (lv_skeleton_create none (lv_host_t.mk [true, false] 1 [] [])))).skeleton.anim = none :=
  ⟨congrArg (fun x => x.skeleton.active)
      ((C23_failed_allocation_state (lv_skeleton_create none (lv_host_t.mk [false] 1 [] []))
        .LV_SKELETON_ANIM_WAVE [] (by decide)).1 (by decide) (by decide) (by decide)),
   congrArg (fun x => x.host.anims)
      ((C23_failed_allocation_state (lv_skeleton_create none (lv_host_t.mk [false] 1 [] []))
        .LV_SKELETON_ANIM_WAVE [] (by decide)).1 (by decide) (by decide) (by decide)),
   ((C23_failed_allocation_state (lv_skeleton_set_active true
        (lv_skeleton_create none (lv_host_t.mk [true, false] 1 [] [])))
      .LV_SKELETON_ANIM_WAVE [] (by decide)).2 (by decide) (by decide) (by decide)).2.1⟩

theorem lv_malloc_anims (h : lv_host_t) : (lv_malloc h).2.anims = h.anims := by
  unfold lv_malloc
  cases hc : h.alloc with
  | nil => rfl
  | cons a rest => cases a <;> rfl

theorem start_animation_running_on (o : lv_obj_t) (w : lv_world_t) :
    running_on o w.host <+: running_on o (lv_skeleton_start_animation w).host := by
  have hs := stop_animation_running_on o w
  unfold lv_skeleton_start_animation
  simp only
  split
  · rw [hs]
  · split
    · show running_on o w.host <+: running_on o (lv_malloc (lv_skeleton_stop_animation w).host).2
      unfold running_on at *
      rw [lv_malloc_anims, hs]
    · simp only [running_on, lv_anim_start, List.filter_append, lv_malloc_anims]
      unfold running_on at hs
      rw [hs]
      exact List.prefix_append _ _

/-- Whatever the type and the state, lv_skeleton_set_animation_type removes from the
engine no animation that drives an object. -/
theorem set_animation_type_running_on (o : lv_obj_t) (t : lv_skeleton_anim_t) (w : lv_world_t) :
    running_on o w.host <+: running_on o (lv_skeleton_set_animation_type t w).host := by
  have hs := stop_animation_running_on o w
  unfold lv_skeleton_set_animation_type
  split
  · simp only
    split
    · have h := start_animation_running_on o
        { lv_skeleton_stop_animation w with
          skeleton := { (lv_skeleton_stop_animation w).skeleton with anim_type := t } }
      simp only [hs] at h
      exact h
    · simp only [hs]
      exact List.prefix_refl _
  · exact List.prefix_refl _

/-- The handle after a change of type on an active skeleton, every allocation succeeding:
the animation of the new type, as the specification describes it. -/
theorem set_animation_type_handle (t : lv_skeleton_anim_t) (w : lv_world_t)
    (hne : w.skeleton.anim_type ≠ t) (hact : w.skeleton.active = true)
    (hal : allocations_succeed w.host) :
    (lv_skeleton_set_animation_type t w).skeleton.anim.map lv_anim_handle_t.dsc =
      spec_anim t w.skeleton.obj.addr w.skeleton.anim_time := by
  obtain ⟨⟨o, shape, bc, hc, ty, an, tm, wl, tp, ac, cc⟩, ⟨al, na, ans, lg⟩⟩ := w
  simp only at hne hact
  subst hact
  have hal2 : al = [] ∨ ∃ rest, al = true :: rest := by
    cases al with
    | nil => exact Or.inl rfl
    | cons b rest =>
      have : b = true := hal b (by simp)
      exact Or.inr ⟨rest, by rw [this]⟩
  rcases hal2 with h | ⟨rest, h⟩ <;> subst h <;> cases an <;> cases t <;>
    simp [lv_skeleton_set_animation_type, lv_skeleton_start_animation,
      lv_skeleton_stop_animation, lv_malloc, lv_anim_start, lv_anim_delete, lv_free, lv_anim_init,
      spec_anim, hne, lv_obj_call, lv_obj_set_style_bg_opa]

/-- On an inactive skeleton, whose anim is NULL, a change of type only stores the type;
with the current type nothing changes. -/
theorem set_animation_type_inactive (t : lv_skeleton_anim_t) (w : lv_world_t)
    (hact : w.skeleton.active = false) (hanim : w.skeleton.anim = none) :
    lv_skeleton_set_animation_type t w = { w with skeleton := { w.skeleton with anim_type := t } } ∧
    lv_skeleton_set_animation_type w.skeleton.anim_type w = w := by
  obtain ⟨⟨o, shape, bc, hc, ty, an, tm, wl, tp, ac, cc⟩, h⟩ := w
  simp only at hact hanim
  subst hact hanim
  constructor
  · by_cases hne : ty = t
    · subst hne
      simp [lv_skeleton_set_animation_type]
    · simp [lv_skeleton_set_animation_type, lv_skeleton_stop_animation, hne]
  · simp [lv_skeleton_set_animation_type]

/-- C25, evaluated on the code: lv_skeleton_set_animation_type does not stop the current
animation.  For every state and type, every animation that drives an object before the
call still drives it after the call.  On a fresh skeleton made active, the change to WAVE
configures the wave animation on the handle as the specification says, but the engine then
runs the pulse animation and the wave animation on the object; the change to NONE leaves
anim NULL and the pulse animation running. -/
theorem C25_type_change_keeps_old_animation (o : lv_obj_t) (t : lv_skeleton_anim_t)
    (w : lv_world_t) :
    running_on o w.host <+: running_on o (lv_skeleton_set_animation_type t w).host ∧
    (lv_skeleton_set_animation_type .LV_SKELETON_ANIM_WAVE
      (lv_skeleton_set_active true (lv_skeleton_create none .fresh))).skeleton.anim.map
        lv_anim_handle_t.dsc = spec_anim .LV_SKELETON_ANIM_WAVE 1 1500 ∧
    running_on 1 (lv_skeleton_set_animation_type .LV_SKELETON_ANIM_WAVE
      (lv_skeleton_set_active true (lv_skeleton_create none .fresh))).host =
        (spec_anim .LV_SKELETON_ANIM_PULSE 1 1500).toList ++
          (spec_anim .LV_SKELETON_ANIM_WAVE 1 1500).toList ∧
    (lv_skeleton_set_animation_type .LV_SKELETON_ANIM_NONE
      (lv_skeleton_set_active true (lv_skeleton_create none .fresh))).skeleton.anim = none ∧
    running_on 1 (lv_skeleton_set_animation_type .LV_SKELETON_ANIM_NONE
      (lv_skeleton_set_active true (lv_skeleton_create none .fresh))).host =
        (spec_anim .LV_SKELETON_ANIM_PULSE 1 1500).toList := by
  refine ⟨set_animation_type_running_on o t w, ?_, ?_, ?_, ?_⟩ <;> decide

end LvSkeleton

namespace LvSkeleton

open LvBadge (lv_obj_t lv_obj_flag_t LV_SIZE_CONTENT LV_OPA_COVER LV_RADIUS_CIRCLE)

/-! ## The handle of an inactive skeleton, whatever the allocator does -/

theorem start_animation_anim_imp (w : lv_world_t)
    (h : (lv_skeleton_start_animation w).skeleton.anim ≠ none) :
    w.skeleton.anim_type ≠ .LV_SKELETON_ANIM_NONE := by
  obtain ⟨s1, s2, s3, s4⟩ := stop_animation_fields w
  intro hn
  apply h
  unfold lv_skeleton_start_animation
  simp only [s3, hn, if_true]
  exact s1

/-- Every operation keeps, whether allocations fail or not: anim != NULL implies
active == 1 and anim_type other than NONE. -/
theorem run_anim_imp (lv_trigo_sin : Int → Int) (op : lv_skeleton_op_t) (w : lv_world_t)
    (hinv : w.skeleton.anim ≠ none →
      (w.skeleton.active = true ∧ w.skeleton.anim_type ≠ .LV_SKELETON_ANIM_NONE)) :
    (op.run lv_trigo_sin w).skeleton.anim ≠ none →
      ((op.run lv_trigo_sin w).skeleton.active = true ∧
        (op.run lv_trigo_sin w).skeleton.anim_type ≠ .LV_SKELETON_ANIM_NONE) := by
  cases op with
  | set_shape s =>
    simp only [lv_skeleton_op_t.run, lv_skeleton_set_shape, apply_shape_defaults,
      lv_world_t.on_obj]
    split
    · split <;> (try split) <;> (try split) <;> exact hinv
    · exact hinv
  | set_animation_type t =>
    simp only [lv_skeleton_op_t.run, lv_skeleton_set_animation_type]
    split
    · obtain ⟨s1, s2, s3, s4⟩ := stop_animation_fields w
      split
      · rename_i hact
        intro ha
        obtain ⟨f1, f2, _⟩ := start_animation_fields
          { lv_skeleton_stop_animation w with
            skeleton := { (lv_skeleton_stop_animation w).skeleton with anim_type := t } }
        rw [f1, f2]
        exact ⟨hact, start_animation_anim_imp _ ha⟩
      · intro ha
        exact absurd s1 ha
    · exact hinv
  | set_anim_time n =>
    simp only [lv_skeleton_op_t.run, lv_skeleton_set_anim_time]
    split
    · rename_i hact ha
      have ha2 : w.skeleton.anim ≠ none := by
        have : w.skeleton.anim = some _ := ha
        rw [this]
        simp
      intro _
      exact hinv ha2
    · exact hinv
  | set_wave_length n => exact hinv
  | set_active a =>
    simp only [lv_skeleton_op_t.run, lv_skeleton_set_active]
    split
    · cases a with
      | true =>
        simp only [if_true]
        intro ha
        obtain ⟨f1, f2, _⟩ := start_animation_fields
          { w with skeleton := { w.skeleton with active := true } }
        rw [f1, f2]
        exact ⟨rfl, start_animation_anim_imp _ ha⟩
      | false =>
        simp only [Bool.false_eq_true, if_false]
        intro ha
        exact absurd (stop_animation_fields _).1 ha
    · exact hinv
  | set_base_color c => exact hinv
  | set_highlight_color c => exact hinv
  | set_template t =>
    simp only [lv_skeleton_op_t.run, lv_skeleton_set_template, apply_template_layout]
    split <;> exact hinv
  | set_size width height => exact hinv
  | anim_tick i value =>
    simp only [lv_skeleton_op_t.run, lv_anim_tick, lv_world_t.on_obj]
    split
    · split
      · split <;> exact hinv
      · exact hinv
    · exact hinv

/-- In every state reached from lv_skeleton_create, whatever the allocator does, an
inactive skeleton has no handle. -/
theorem run_ops_inactive_anim (lv_trigo_sin : Int → Int) (ops : List lv_skeleton_op_t)
    (parent : Option lv_obj_t) (h : lv_host_t)
    (hact : (run_ops lv_trigo_sin ops (lv_skeleton_create parent h)).skeleton.active = false) :
    (run_ops lv_trigo_sin ops (lv_skeleton_create parent h)).skeleton.anim = none := by
  have key : ∀ (ops : List lv_skeleton_op_t) (w : lv_world_t),
      (w.skeleton.anim ≠ none →
        (w.skeleton.active = true ∧ w.skeleton.anim_type ≠ .LV_SKELETON_ANIM_NONE)) →
      ((run_ops lv_trigo_sin ops w).skeleton.anim ≠ none →
        ((run_ops lv_trigo_sin ops w).skeleton.active = true ∧
          (run_ops lv_trigo_sin ops w).skeleton.anim_type ≠ .LV_SKELETON_ANIM_NONE)) := by
    intro ops
    induction ops with
    | nil => intro w hw; exact hw
    | cons op rest ih => intro w hw; exact ih _ (run_anim_imp lv_trigo_sin op w hw)
  by_contra hne
  have := (key ops (lv_skeleton_create parent h) (fun hc => absurd rfl hc) hne).1
  rw [hact] at this
  cases this

end LvSkeleton

namespace LvBadge

/-! ## Setting the text the badge already holds -/

/-- When the argument of lv_badge_set_text is the pointer badge->text of a heap text, the
text after the call is what the released block reads as, the allocation succeeding. -/
theorem set_own_text_then_get_text (freed : String → String) (obj : lv_obj_t) (w : lv_world_t)
    (old : String) (ht : w.badge.text = some old) (hs : w.badge.static_txt = false)
    (hok : next_alloc_ok w.host = true) :
    lv_badge_get_text (lv_badge_set_text_ptr freed obj .badge_text w) = some (freed old) := by
  unfold lv_badge_set_text_ptr lv_text_ptr_t.read
  simp only [ht, hs, if_true]
  exact set_text_then_get_text obj w (freed old) hok

/-- When the argument of lv_badge_set_text is a string held by the caller, the text after
the call is that string, the allocation succeeding. -/
theorem set_caller_text_then_get_text (freed : String → String) (obj : lv_obj_t)
    (w : lv_world_t) (t : String) (hok : next_alloc_ok w.host = true) :
    lv_badge_get_text (lv_badge_set_text_ptr freed obj (.caller t) w) = some t :=
  set_text_then_get_text obj w t hok

/-- C2, evaluated on the code: lv_badge_set_text frees the old text before it reads its
argument.  On the badge of example 2, which holds the heap copy of NEW, the call
lv_badge_set_text(obj, lv_badge_get_text(obj)) passes the pointer badge->text: the block
is released, then lv_strlen and lv_strcpy read it, and the text after the call is what the
released block reads as, whatever that is, not the content NEW the argument had; it is the
empty string when the allocator clears the first byte of a released block. -/
theorem C2_own_text_is_read_after_free (freed : String → String) :
    lv_badge_get_text (lv_badge_set_text_ptr freed 1 (.caller "NEW")
      (lv_badge_create 1 .fresh)) = some "NEW" ∧
    (lv_badge_set_text_ptr freed 1 (.caller "NEW")
      (lv_badge_create 1 .fresh)).badge.static_txt = false ∧
    lv_badge_get_text (lv_badge_set_text_ptr freed 1 .badge_text
      (lv_badge_set_text_ptr freed 1 (.caller "NEW") (lv_badge_create 1 .fresh))) =
        some (freed "NEW") ∧
    (lv_badge_set_text_ptr freed 1 .badge_text
      (lv_badge_set_text_ptr freed 1 (.caller "NEW") (lv_badge_create 1 .fresh))).host.log =
      (lv_badge_set_text_ptr freed 1 (.caller "NEW") (lv_badge_create 1 .fresh)).host.log ++
        [.lv_free "NEW", .lv_malloc (lv_strlen (freed "NEW") + 1) true,
         .lv_obj_invalidate 1] ∧
    lv_badge_get_text (lv_badge_set_text_ptr (fun _ => "") 1 .badge_text
      (lv_badge_set_text_ptr (fun _ => "") 1 (.caller "NEW") (lv_badge_create 1 .fresh))) =
        some "" := by
  refine ⟨rfl, rfl, rfl, rfl, rfl⟩

end LvBadge
